import Mathlib

/-!
Shallow embedding of the scribe2fhir document assembly core
(`scribe2fhir/core/types.py`, `scribe2fhir/core/document_builder.py`, and the
per-resource builders), with theorems checking the specification's claims.

Conventions of the embedding:
* Python `Optional[T]` becomes `Option T`; Python truthiness of optional
  strings/lists is modelled explicitly (`strTruthy`, `pyOrStr`, ...).
* Functions that can `raise` return `Except String _`.
* `uuid.uuid4()` is modelled by threading an explicit freshly generated
  identifier (`gid`) into every operation that may need one.
* `datetime.utcnow()` / `date.today()` are modelled by explicit `now` /
  `today` parameters.
* Numeric values only pass through the code, so they are modelled as `Int`.
-/

namespace Scribe2FHIR

/-- Python truthiness of a `str`: empty string is falsy. -/
def strTruthy (s : String) : Bool := s ≠ ""

/-- Python truthiness of an `Optional[str]`. -/
def optStrTruthy : Option String → Bool
  | none => false
  | some s => strTruthy s

/-- Python `a or b` for two `Optional[str]` values. -/
def pyOrStr (a b : Option String) : Option String :=
  if optStrTruthy a then a else b

/-- Python `a or b` where `a : Optional[str]` and `b : str`. -/
def pyOrStrD (a : Option String) (b : String) : String :=
  match a with
  | none => b
  | some s => if strTruthy s then s else b

/-- `str.lower()`, implemented structurally over the character list. -/
def pyLower (s : String) : String := String.mk (s.data.map Char.toLower)

/-- `str.upper()`, implemented structurally over the character list. -/
def pyUpper (s : String) : String := String.mk (s.data.map Char.toUpper)

/-- Python truthiness of an `Optional[List[_]]`: `None` and `[]` are falsy. -/
def optListTruthy {α : Type} : Option (List α) → Bool
  | none => false
  | some l => !l.isEmpty

/-- Python truthiness of an `Optional[float]`-style number: 0 is falsy. -/
def optIntTruthy : Option Int → Bool
  | none => false
  | some n => n ≠ 0

-- =========================================================================
-- Calendar dates (for `datetime.date` arithmetic in PatientBuilder)
-- =========================================================================

/-- A calendar date, standing in for Python `datetime.date`. -/
structure Date where
  year : Nat
  month : Nat
  day : Nat
deriving DecidableEq

def isLeap (y : Nat) : Bool :=
  (y % 4 == 0 && y % 100 != 0) || y % 400 == 0

def daysInMonth (y m : Nat) : Nat :=
  if m == 2 then (if isLeap y then 29 else 28)
  else if m == 4 || m == 6 || m == 9 || m == 11 then 30
  else 31

/-- Days in the proleptic Gregorian calendar strictly before year `y`. -/
def daysBeforeYear (y : Nat) : Nat :=
  365 * (y - 1) + (y - 1) / 4 + (y - 1) / 400 - (y - 1) / 100

/-- Days of year `y` strictly before month `m`. -/
def daysBeforeMonth (y m : Nat) : Nat :=
  ((List.range (m - 1)).map (fun i => daysInMonth y (i + 1))).sum

/-- Rata-die ordinal of a date (01-01-0001 is day 1). -/
def Date.toOrd (d : Date) : Nat :=
  daysBeforeYear d.year + daysBeforeMonth d.year d.month + d.day

def findYearAux : Nat → Nat → Nat → Nat
  | 0, y, _ => y
  | fuel + 1, y, n => if daysBeforeYear (y + 1) < n then findYearAux fuel (y + 1) n else y

def findMonthAux : Nat → Nat → Nat → Nat → Nat
  | 0, m, _, _ => m
  | fuel + 1, m, y, j =>
      if m < 12 && daysBeforeMonth y (m + 1) < j then findMonthAux fuel (m + 1) y j else m

/-- Inverse of `Date.toOrd` (for ordinals ≥ 1). -/
def ordToDate (n : Nat) : Date :=
  let y := findYearAux n 1 n
  let j := n - daysBeforeYear y
  let m := findMonthAux 12 1 y j
  { year := y, month := m, day := j - daysBeforeMonth y m }

/-- Python `today - timedelta(days=k)` (clamped at the calendar origin). -/
def Date.subDays (d : Date) (k : Int) : Date :=
  ordToDate (((d.toOrd : Int) - k).toNat)

def padNat (width n : Nat) : String :=
  let s := toString n
  String.mk (List.replicate (width - s.length) '0') ++ s

/-- `date.isoformat()` / `strftime("%Y-%m-%d")`. -/
def Date.iso (d : Date) : String :=
  padNat 4 d.year ++ "-" ++ padNat 2 d.month ++ "-" ++ padNat 2 d.day

/-- `date.replace(year=y')`: raises when the day is out of range for the month
    in the target year, or the target year is out of range. -/
def Date.replaceYear (d : Date) (y' : Int) : Except String Date :=
  if y' < 1 then .error "ValueError: year out of range"
  else if d.day ≤ daysInMonth y'.toNat d.month then
    .ok { d with year := y'.toNat }
  else .error "ValueError: day is out of range for month"

-- =========================================================================
-- datetime inputs (`DateTimeInput = Union[str, datetime, date, None]`)
-- =========================================================================

/-- Python `datetime.datetime`: a calendar date, a time-of-day part (kept as
    the textual tail of `isoformat()`), and an optional utcoffset tail. -/
structure PyDateTime where
  date : Date
  time : String
  tz : Option String
deriving DecidableEq

/-- `datetime.isoformat()`. -/
def PyDateTime.iso (dt : PyDateTime) : String :=
  dt.date.iso ++ "T" ++ dt.time ++ (dt.tz.getD "")

/-- `dt.astimezone()` on a naive datetime attaches the local utcoffset. -/
def PyDateTime.astimezone (localTz : String) (dt : PyDateTime) : PyDateTime :=
  { dt with tz := some localTz }

/-- The shapes `format_datetime` / `format_date` accept: `None`, `str`,
    `datetime`, `date`, or any other object (carried by its `str()` form,
    matching the final `return str(dt)` fallback). -/
inductive DateTimeInput where
  | none
  | str (s : String)
  | datetime (dt : PyDateTime)
  | date (d : Date)
  | other (s : String)
deriving DecidableEq

/-- Python truthiness of a `DateTimeInput` value (`if dt:`). -/
def DateTimeInput.truthy : DateTimeInput → Bool
  | .none => false
  | .str s => strTruthy s
  | .datetime _ => true
  | .date _ => true
  | .other _ => true

/-- `types.format_datetime`, parameterized by the local utcoffset that
    `astimezone()` would attach to a naive datetime. Total: every input
    shape is mapped to a string (or `None` for `None`); there is no
    error path. -/
def format_datetime (localTz : String) : DateTimeInput → Option String
  | .none => none
  | .str s => some s
  | .datetime dt =>
      if dt.tz.isNone then some (PyDateTime.iso (PyDateTime.astimezone localTz dt))
      else some dt.iso
  | .date d => some d.iso
  | .other s => some s

/-- `types.format_date`. -/
def format_date : DateTimeInput → Option String
  | .none => none
  | .str s =>
      if s.data.any (fun c => c = 'T') then
        some (String.mk (s.data.takeWhile (fun c => c ≠ 'T')))
      else some s
  | .datetime dt => some dt.date.iso
  | .date d => some d.iso
  | .other s => some s

-- =========================================================================
-- Canonical value types (fhir.resources data carriers as used by the SDK)
-- =========================================================================

structure Coding where
  system : String
  code : String
  display : Option String
deriving DecidableEq

structure CodeableConcept where
  text : Option String
  coding : Option (List Coding)
deriving DecidableEq

structure Quantity where
  value : Int
  unit : Option String
  code : Option String
  system : Option String
deriving DecidableEq

structure Reference where
  reference : Option String
  display : Option String
deriving DecidableEq

structure Period where
  start : Option String
  «end» : Option String
deriving DecidableEq

structure Annotation where
  text : String
  time : Option String
deriving DecidableEq

/-- R5 `CodeableReference` wrapper, as built by the SDK (`concept=` only). -/
structure CodeableReference where
  concept : CodeableConcept
deriving DecidableEq

/-- `CodingSystem.UCUM` and friends. -/
def UCUM : String := "http://unitsofmeasure.org"
def SNOMED_CT : String := "http://snomed.info/sct"
def OBSERVATION_CATEGORY : String := "http://terminology.hl7.org/CodeSystem/observation-category"
def CONDITION_CATEGORY : String := "http://terminology.hl7.org/CodeSystem/condition-category"
def CONDITION_CLINICAL : String := "http://terminology.hl7.org/CodeSystem/condition-clinical"
def CONDITION_VERIFICATION : String := "http://terminology.hl7.org/CodeSystem/condition-ver-status"
def INTERPRETATION_SYSTEM : String := "http://terminology.hl7.org/CodeSystem/v3-ObservationInterpretation"

-- =========================================================================
-- Input normalizer (`types.py`)
-- =========================================================================

/-- `types.create_coding`. -/
def create_coding (code system : String) (display : Option String) : Coding :=
  { code := code, system := system, display := display }

/-- `types.create_codeable_concept` in the `code is not None` form used by
    `parse_code_input` (codings built from code/system/display). -/
def create_codeable_concept (text : Option String) (code : String)
    (system : Option String) (display : Option String) : CodeableConcept :=
  { text := pyOrStr text display
    coding := some [create_coding code (pyOrStrD system "") display] }

/-- The shapes `parse_code_input` accepts; `invalid` stands for every other
    runtime shape (wrong-length tuples, non-tuple second components, ...),
    all of which reach the final `raise ValueError`. -/
inductive CodeInput where
  | str (s : String)
  | tuple3 (code system display : String)
  | tuple2 (display code system : String)
  | cc (c : CodeableConcept)
  | invalid
deriving DecidableEq

/-- `types.parse_code_input`. -/
def parse_code_input : CodeInput → Except String CodeableConcept
  | .cc c => .ok c
  | .str s => .ok { text := some s, coding := none }
  | .tuple3 code system display =>
      .ok (create_codeable_concept (some display) code (some system) (some display))
  | .tuple2 display code system =>
      .ok (create_codeable_concept (some display) code (some system) (some display))
  | .invalid => .error "ValueError: invalid code input format"

/-- `types.create_quantity` (`code or unit`, `system or UCUM`). -/
def create_quantity (value : Int) (unit : String)
    (code : Option String := none) (system : Option String := none) : Quantity :=
  { value := value
    unit := some unit
    code := some (pyOrStrD code unit)
    system := some (pyOrStrD system UCUM) }

/-- The shapes `parse_quantity_input` accepts; `otherShape` stands for every
    other runtime shape, all of which reach the final `raise ValueError`. -/
inductive QuantityInput where
  | tuple2 (value : Int) (unit : String)
  | tuple4 (value : Int) (unit code system : String)
  | qty (q : Quantity)
  | otherShape
deriving DecidableEq

/-- `types.parse_quantity_input`. -/
def parse_quantity_input : QuantityInput → Except String Quantity
  | .qty q => .ok q
  | .tuple2 value unit => .ok (create_quantity value unit)
  | .tuple4 value unit code system => .ok (create_quantity value unit (some code) (some system))
  | .otherShape => .error "ValueError: invalid quantity input format"

/-- `types.create_period` (arguments pass the Python `if start` truthiness
    test before being formatted). -/
def create_period (localTz : String) (start «end» : DateTimeInput) : Period :=
  { start := if start.truthy then format_datetime localTz start else none
    «end» := if «end».truthy then format_datetime localTz «end» else none }

/-- `types.create_reference`. -/
def create_reference (reference : Option String) (resource_type resource_id : Option String)
    (display : Option String) : Reference :=
  let ref :=
    if reference.isNone && optStrTruthy resource_type && optStrTruthy resource_id then
      some ((resource_type.getD "") ++ "/" ++ (resource_id.getD ""))
    else reference
  { reference := ref, display := display }

-- =========================================================================
-- Enums (`enums.py`); `X.ofString?` models the Python `X(value)` lookup,
-- which raises `ValueError` for a string outside the value set.
-- =========================================================================

inductive ObservationStatus where
  | registered | preliminary | final | amended | corrected | cancelled
  | enteredInError | unknown
deriving DecidableEq

def ObservationStatus.val : ObservationStatus → String
  | .registered => "registered" | .preliminary => "preliminary" | .final => "final"
  | .amended => "amended" | .corrected => "corrected" | .cancelled => "cancelled"
  | .enteredInError => "entered-in-error" | .unknown => "unknown"

inductive ConditionClinicalStatus where
  | active | recurrence | relapse | inactive | remission | resolved
deriving DecidableEq

def ConditionClinicalStatus.val : ConditionClinicalStatus → String
  | .active => "active" | .recurrence => "recurrence" | .relapse => "relapse"
  | .inactive => "inactive" | .remission => "remission" | .resolved => "resolved"

inductive ConditionVerificationStatus where
  | unconfirmed | provisional | differential | confirmed | refuted | enteredInError
deriving DecidableEq

def ConditionVerificationStatus.val : ConditionVerificationStatus → String
  | .unconfirmed => "unconfirmed" | .provisional => "provisional"
  | .differential => "differential" | .confirmed => "confirmed"
  | .refuted => "refuted" | .enteredInError => "entered-in-error"

inductive ConditionCategory where
  | problemListItem | encounterDiagnosis
deriving DecidableEq

def ConditionCategory.val : ConditionCategory → String
  | .problemListItem => "problem-list-item" | .encounterDiagnosis => "encounter-diagnosis"

inductive Severity where
  | mild | moderate | severe
deriving DecidableEq

def Severity.val : Severity → String
  | .mild => "mild" | .moderate => "moderate" | .severe => "severe"

/-- Python `Severity(s)`: succeeds exactly on the member values. -/
def Severity.ofString? : String → Option Severity
  | "mild" => some .mild | "moderate" => some .moderate | "severe" => some .severe
  | _ => none

def Severity.snomed_code : Severity → String
  | .mild => "255604002" | .moderate => "6736007" | .severe => "24484000"

/-- `self.value.capitalize()`. -/
def Severity.display : Severity → String
  | .mild => "Mild" | .moderate => "Moderate" | .severe => "Severe"

inductive Laterality where
  | left | right | bilateral
deriving DecidableEq

def Laterality.val : Laterality → String
  | .left => "left" | .right => "right" | .bilateral => "bilateral"

def Laterality.ofString? : String → Option Laterality
  | "left" => some .left | "right" => some .right | "bilateral" => some .bilateral
  | _ => none

def Laterality.snomed_code : Laterality → String
  | .left => "7771000" | .right => "24028007" | .bilateral => "51440002"

def Laterality.display : Laterality → String
  | .left => "Left" | .right => "Right" | .bilateral => "Bilateral"

inductive FindingStatus where
  | present | absent | unknown
deriving DecidableEq

def FindingStatus.val : FindingStatus → String
  | .present => "present" | .absent => "absent" | .unknown => "unknown"

def FindingStatus.ofString? : String → Option FindingStatus
  | "present" => some .present | "absent" => some .absent | "unknown" => some .unknown
  | _ => none

/-- `fs.value.capitalize()`. -/
def FindingStatus.capDisplay : FindingStatus → String
  | .present => "Present" | .absent => "Absent" | .unknown => "Unknown"

inductive MedicationRequestStatus where
  | active | onHold | cancelled | completed | enteredInError | stopped | draft | unknown
deriving DecidableEq

def MedicationRequestStatus.val : MedicationRequestStatus → String
  | .active => "active" | .onHold => "on-hold" | .cancelled => "cancelled"
  | .completed => "completed" | .enteredInError => "entered-in-error"
  | .stopped => "stopped" | .draft => "draft" | .unknown => "unknown"

inductive MedicationRequestIntent where
  | proposal | plan | order | originalOrder | reflexOrder | fillerOrder
  | instanceOrder | option
deriving DecidableEq

def MedicationRequestIntent.val : MedicationRequestIntent → String
  | .proposal => "proposal" | .plan => "plan" | .order => "order"
  | .originalOrder => "original-order" | .reflexOrder => "reflex-order"
  | .fillerOrder => "filler-order" | .instanceOrder => "instance-order"
  | .option => "option"

inductive MedicationStatementStatus where
  | active | completed | enteredInError | intended | stopped | onHold | unknown | notTaken
deriving DecidableEq

def MedicationStatementStatus.val : MedicationStatementStatus → String
  | .active => "active" | .completed => "completed" | .enteredInError => "entered-in-error"
  | .intended => "intended" | .stopped => "stopped" | .onHold => "on-hold"
  | .unknown => "unknown" | .notTaken => "not-taken"

inductive Interpretation where
  | normal | abnormal | low | high | criticalLow | criticalHigh | positive | negative
deriving DecidableEq

def Interpretation.val : Interpretation → String
  | .normal => "N" | .abnormal => "A" | .low => "L" | .high => "H"
  | .criticalLow => "LL" | .criticalHigh => "HH" | .positive => "POS" | .negative => "NEG"

def Interpretation.display : Interpretation → String
  | .normal => "Normal" | .abnormal => "Abnormal" | .low => "Low" | .high => "High"
  | .criticalLow => "Critical Low" | .criticalHigh => "Critical High"
  | .positive => "Positive" | .negative => "Negative"

/-- A `Union[SomeEnum, str]` argument. -/
inductive EnumOr (α : Type) where
  | enum (v : α)
  | str (s : String)
deriving DecidableEq

/-- `x.value if isinstance(x, SomeEnum) else x`. -/
def EnumOr.rawVal {α : Type} (val : α → String) : EnumOr α → String
  | .enum v => val v
  | .str s => s

/-- Python truthiness of an `Optional[Union[SomeEnum, str]]` argument:
    enum members are truthy, the empty string is falsy. -/
def optEnumOrTruthy {α : Type} : Option (EnumOr α) → Bool
  | none => false
  | some (.enum _) => true
  | some (.str s) => strTruthy s

/-- `x if isinstance(x, SomeEnum) else SomeEnum(x.lower())` — the coercion the
    symptom/condition builders apply to severity/laterality/finding_status;
    `ValueError` for a string outside the value set. -/
def coerceEnum {α : Type} (name : String) (ofString? : String → Option α) :
    EnumOr α → Except String α
  | .enum v => .ok v
  | .str s =>
      match ofString? (pyLower s) with
      | some v => .ok v
      | none => .error ("ValueError: not a valid " ++ name)

-- =========================================================================
-- Record bodies built by the per-resource builders
-- =========================================================================

structure ObservationComponent where
  code : CodeableConcept
  valueCodeableConcept : Option CodeableConcept
deriving DecidableEq

structure Observation where
  id : String
  status : String
  category : List CodeableConcept
  code : CodeableConcept
  subject : Option Reference
  encounter : Option Reference
  effectiveDateTime : Option String
  effectivePeriod : Option Period
  valueQuantity : Option Quantity
  valueString : Option String
  valueBoolean : Option Bool
  valueCodeableConcept : Option CodeableConcept
  interpretation : Option (List CodeableConcept)
  component : Option (List ObservationComponent)
  note : Option (List Annotation)
deriving DecidableEq

structure Condition where
  id : String
  clinicalStatus : CodeableConcept
  verificationStatus : Option CodeableConcept
  category : List CodeableConcept
  severity : Option CodeableConcept
  code : CodeableConcept
  bodySite : Option (List CodeableConcept)
  subject : Option Reference
  encounter : Option Reference
  onsetDateTime : Option String
  onsetPeriod : Option Period
  abatementDateTime : Option String
  note : Option (List Annotation)
deriving DecidableEq

-- =========================================================================
-- SymptomBuilder (`resources/symptom.py`)
-- =========================================================================

namespace SymptomBuilder

def SEVERITY_CODE : String := "246112005"
def LATERALITY_CODE : String := "272741003"
def FINDING_CONTEXT_CODE : String := "408729009"

/-- The severity component built when `severity` is supplied. -/
def severityComponent (sev : Severity) : ObservationComponent :=
  { code := { text := none,
              coding := some [{ system := SNOMED_CT, code := SEVERITY_CODE,
                                display := some "Severity" }] },
    valueCodeableConcept := some
      { text := some sev.display,
        coding := some [{ system := SNOMED_CT, code := sev.snomed_code,
                          display := some sev.display }] } }

/-- The laterality component built when `laterality` is supplied. -/
def lateralityComponent (lat : Laterality) : ObservationComponent :=
  { code := { text := none,
              coding := some [{ system := SNOMED_CT, code := LATERALITY_CODE,
                                display := some "Laterality" }] },
    valueCodeableConcept := some
      { text := some lat.display,
        coding := some [{ system := SNOMED_CT, code := lat.snomed_code,
                          display := some lat.display }] } }

/-- The finding-context component built when `finding_status` is supplied. -/
def findingComponent (fs : FindingStatus) : ObservationComponent :=
  { code := { text := none,
              coding := some [{ system := SNOMED_CT, code := FINDING_CONTEXT_CODE,
                                display := some "Finding context" }] },
    valueCodeableConcept := some { text := some fs.capDisplay, coding := none } }

/-- The `if severity: ...` block of `SymptomBuilder.build`: a string severity
    outside the `Severity` value set raises `ValueError`. -/
def severityComponentE (severity : Option (EnumOr Severity)) :
    Except String (List ObservationComponent) :=
  match severity with
  | none => pure []
  | some sv =>
    if optEnumOrTruthy (some sv) then do
      let sev ← coerceEnum "Severity" Severity.ofString? sv
      pure [severityComponent sev]
    else pure []

/-- The `if laterality: ...` block of `SymptomBuilder.build`. -/
def lateralityComponentE (laterality : Option (EnumOr Laterality)) :
    Except String (List ObservationComponent) :=
  match laterality with
  | none => pure []
  | some lv =>
    if optEnumOrTruthy (some lv) then do
      let lat ← coerceEnum "Laterality" Laterality.ofString? lv
      pure [lateralityComponent lat]
    else pure []

/-- The `if finding_status: ...` block of `SymptomBuilder.build`. -/
def findingComponentE (finding_status : Option (EnumOr FindingStatus)) :
    Except String (List ObservationComponent) :=
  match finding_status with
  | none => pure []
  | some fv =>
    if optEnumOrTruthy (some fv) then do
      let fs ← coerceEnum "FindingStatus" FindingStatus.ofString? fv
      pure [findingComponent fs]
    else pure []

/-- `SymptomBuilder.build`. `gid` models `str(uuid.uuid4())`; `localTz` the
    local utcoffset used by `format_datetime`. -/
def build (localTz : String) (code : CodeInput) (onset offset : DateTimeInput)
    (severity : Option (EnumOr Severity)) (status : EnumOr ObservationStatus)
    (notes : Option String) (laterality : Option (EnumOr Laterality))
    (finding_status : Option (EnumOr FindingStatus))
    (subject_reference encounter_reference : Option Reference)
    (id : Option String) (gid : String) : Except String Observation := do
  let resource_id := pyOrStrD id gid
  let symptom_code ← parse_code_input code
  let category : List CodeableConcept :=
    [{ text := some "symptom"
       coding := some [{ system := OBSERVATION_CATEGORY, code := "symptom",
                         display := some "Symptom" }] }]
  let obs_status := status.rawVal ObservationStatus.val
  let effective : Option String :=
    if onset.truthy || offset.truthy then
      if offset.truthy then none else format_datetime localTz onset
    else none
  let effective_period : Option Period :=
    if onset.truthy || offset.truthy then
      if offset.truthy then some (create_period localTz onset offset) else none
    else none
  let severityComp ← severityComponentE severity
  let lateralityComp ← lateralityComponentE laterality
  let findingComp ← findingComponentE finding_status
  let components := severityComp ++ lateralityComp ++ findingComp
  let note : Option (List Annotation) :=
    if optStrTruthy notes then some [{ text := notes.getD "", time := none }] else none
  pure
    { id := resource_id
      status := obs_status
      category := category
      code := symptom_code
      subject := subject_reference
      encounter := encounter_reference
      effectiveDateTime := effective
      effectivePeriod := effective_period
      valueQuantity := none
      valueString := none
      valueBoolean := none
      valueCodeableConcept := none
      interpretation := none
      component := if components.isEmpty then none else some components
      note := note }

end SymptomBuilder

-- =========================================================================
-- ConditionBuilder (`resources/condition.py`)
-- =========================================================================

/-- Python `str.capitalize()`: first character upper-cased, rest lower-cased. -/
def pyCapitalize (s : String) : String :=
  match s.data with
  | [] => ""
  | c :: rest => String.mk (c.toUpper :: rest.map Char.toLower)

/-- `category_coding.replace("-", " ").title()` on the two category values. -/
def ConditionCategory.titleDisplay : ConditionCategory → String
  | .problemListItem => "Problem List Item"
  | .encounterDiagnosis => "Encounter Diagnosis"

/-- Python truthiness of an `Optional[CodeInput]` argument. -/
def optCodeInputTruthy : Option CodeInput → Bool
  | none => false
  | some (.str s) => strTruthy s
  | some _ => true

namespace ConditionBuilder

/-- The `if severity: ...` block of `ConditionBuilder._build_condition`. -/
def severityConceptE (severity : Option (EnumOr Severity)) :
    Except String (Option CodeableConcept) :=
  match severity with
  | none => pure none
  | some sv =>
    if optEnumOrTruthy (some sv) then do
      let sev ← coerceEnum "Severity" Severity.ofString? sv
      pure (some { text := some sev.display,
                   coding := some [{ system := SNOMED_CT, code := sev.snomed_code,
                                     display := some sev.display }] })
    else pure none

/-- The `if body_site or laterality: ...` block of
    `ConditionBuilder._build_condition`. -/
def bodySiteListE (body_site : Option CodeInput) (laterality : Option (EnumOr Laterality)) :
    Except String (Option (List CodeableConcept)) :=
  if optCodeInputTruthy body_site || optEnumOrTruthy laterality then do
    let fromSite : List Coding ←
      match body_site with
      | none => pure []
      | some bs =>
        if optCodeInputTruthy body_site then do
          let body_site_concept ← parse_code_input bs
          if optListTruthy body_site_concept.coding then
            pure (body_site_concept.coding.getD [])
          else pure []
        else pure []
    let fromLat : List Coding ←
      match laterality with
      | none => pure []
      | some lv =>
        if optEnumOrTruthy laterality then do
          let lat ← coerceEnum "Laterality" Laterality.ofString? lv
          pure [{ system := SNOMED_CT, code := lat.snomed_code,
                  display := some lat.display }]
        else pure []
    let body_site_codings := fromSite ++ fromLat
    if !body_site_codings.isEmpty then do
      let siteText : List String :=
        match body_site with
        | some (.str bsText) => if strTruthy bsText then [bsText] else []
        | _ => []
      let latText : List String ←
        match laterality with
        | none => pure []
        | some lv =>
          if optEnumOrTruthy laterality then do
            let lat ← coerceEnum "Laterality" Laterality.ofString? lv
            pure [lat.display]
          else pure []
      let text_parts := siteText ++ latText
      pure (some [{ coding := some body_site_codings,
                    text := if text_parts.isEmpty then none
                            else some (String.intercalate " - " text_parts) }])
    else pure none
  else pure none

/-- `ConditionBuilder._build_condition`. -/
def _build_condition (localTz : String) (code : CodeInput) (category : ConditionCategory)
    (onset offset : DateTimeInput)
    (clinical_status : EnumOr ConditionClinicalStatus)
    (verification_status : Option (EnumOr ConditionVerificationStatus))
    (severity : Option (EnumOr Severity)) (laterality : Option (EnumOr Laterality))
    (body_site : Option CodeInput) (notes : Option String)
    (subject_reference encounter_reference : Option Reference)
    (id : Option String) (gid : String) : Except String Condition := do
  let resource_id := pyOrStrD id gid
  let condition_code ← parse_code_input code
  let category_coding := category.val
  let category_concept : CodeableConcept :=
    { text := none,
      coding := some [{ system := CONDITION_CATEGORY, code := category_coding,
                        display := some category.titleDisplay }] }
  let status_value := clinical_status.rawVal ConditionClinicalStatus.val
  let clinical_status_concept : CodeableConcept :=
    { text := none,
      coding := some [{ system := CONDITION_CLINICAL, code := status_value,
                        display := some (pyCapitalize status_value) }] }
  let verification_status_concept : Option CodeableConcept :=
    match verification_status with
    | none => none
    | some vv =>
      if optEnumOrTruthy verification_status then
        let ver_value := vv.rawVal ConditionVerificationStatus.val
        some { text := none,
               coding := some [{ system := CONDITION_VERIFICATION, code := ver_value,
                                 display := some (pyCapitalize ver_value) }] }
      else none
  let severity_concept ← severityConceptE severity
  let body_site_list ← bodySiteListE body_site laterality
  let onset_datetime : Option String :=
    if onset.truthy then (if offset.truthy then none else format_datetime localTz onset)
    else none
  let onset_period : Option Period :=
    if onset.truthy then
      (if offset.truthy then some (create_period localTz onset offset) else none)
    else none
  let abatement_datetime : Option String :=
    if offset.truthy && !onset.truthy then format_datetime localTz offset else none
  let note : Option (List Annotation) :=
    if optStrTruthy notes then some [{ text := notes.getD "", time := none }] else none
  pure
    { id := resource_id
      clinicalStatus := clinical_status_concept
      verificationStatus := verification_status_concept
      category := [category_concept]
      severity := severity_concept
      code := condition_code
      bodySite := body_site_list
      subject := subject_reference
      encounter := encounter_reference
      onsetDateTime := onset_datetime
      onsetPeriod := onset_period
      abatementDateTime := abatement_datetime
      note := note }

/-- `ConditionBuilder.build_history` (category `problem-list-item`). -/
def build_history (localTz : String) (code : CodeInput) (onset offset : DateTimeInput)
    (clinical_status : EnumOr ConditionClinicalStatus)
    (verification_status : Option (EnumOr ConditionVerificationStatus))
    (severity : Option (EnumOr Severity)) (laterality : Option (EnumOr Laterality))
    (notes : Option String) (subject_reference encounter_reference : Option Reference)
    (id : Option String) (gid : String) : Except String Condition :=
  _build_condition localTz code .problemListItem onset offset clinical_status
    verification_status severity laterality none notes
    subject_reference encounter_reference id gid

/-- `ConditionBuilder.build_encountered` (category `encounter-diagnosis`). -/
def build_encountered (localTz : String) (code : CodeInput) (onset offset : DateTimeInput)
    (clinical_status : EnumOr ConditionClinicalStatus)
    (verification_status : Option (EnumOr ConditionVerificationStatus))
    (severity : Option (EnumOr Severity)) (laterality : Option (EnumOr Laterality))
    (notes : Option String) (subject_reference encounter_reference : Option Reference)
    (id : Option String) (gid : String) : Except String Condition :=
  _build_condition localTz code .encounterDiagnosis onset offset clinical_status
    verification_status severity laterality none notes
    subject_reference encounter_reference id gid

end ConditionBuilder

-- =========================================================================
-- ObservationBuilder (`resources/observation.py`)
-- =========================================================================

/-- The runtime shapes of the `value` argument of
    `ObservationBuilder._build_observation`, in the order its `isinstance`
    dispatch tests them. -/
inductive ObsValue where
  | vqty (q : Quantity)
  | vcc (c : CodeableConcept)
  | vbool (b : Bool)
  | vnum (n : Int)
  | vstr (s : String)
deriving DecidableEq

namespace ObservationBuilder

/-- `ObservationCategory` pairs `(code, display)`. -/
def VITAL_SIGNS : String × String := ("vital-signs", "Vital Signs")
def LABORATORY : String × String := ("laboratory", "Laboratory")
def EXAM : String × String := ("exam", "Exam")
def SOCIAL_HISTORY : String × String := ("social-history", "Social History")

/-- `ObservationBuilder._create_category`. -/
def _create_category (category : String × String) : CodeableConcept :=
  { text := none,
    coding := some [{ system := OBSERVATION_CATEGORY, code := category.1,
                      display := some category.2 }] }

/-- The string-to-member map in `_create_interpretation`. -/
def interpMap : String → Option Interpretation
  | "normal" => some .normal
  | "abnormal" => some .abnormal
  | "low" => some .low
  | "high" => some .high
  | "critical low" => some .criticalLow
  | "critical high" => some .criticalHigh
  | "positive" => some .positive
  | "negative" => some .negative
  | _ => none

/-- `ObservationBuilder._create_interpretation`: enum members and recognized
    strings are mapped to their code/display; any other string is passed
    through verbatim as both code and display. -/
def _create_interpretation (interpretation : EnumOr Interpretation) : CodeableConcept :=
  let (code, display) :=
    match interpretation with
    | .enum v => (v.val, v.display)
    | .str s =>
      match interpMap (pyLower s) with
      | some v => (v.val, v.display)
      | none => (s, s)
  { text := some display,
    coding := some [{ system := INTERPRETATION_SYSTEM, code := code,
                      display := some display }] }

/-- `ObservationBuilder._build_observation` (the `components`, `performer`
    and bool-typed branches unused by the document builder are carried
    faithfully where reachable). -/
def _build_observation (localTz : String) (code : CodeInput) (category : String × String)
    (value : Option ObsValue) (unit : Option String) (date : DateTimeInput)
    (status : EnumOr ObservationStatus)
    (interpretation : Option (EnumOr Interpretation)) (notes : Option String)
    (subject_reference encounter_reference : Option Reference)
    (id : Option String) (gid : String) : Except String Observation := do
  let resource_id := pyOrStrD id gid
  let observation_code ← parse_code_input code
  let obs_status := status.rawVal ObservationStatus.val
  let category_concept := _create_category category
  let (value_quantity, value_string, value_boolean, value_codeable) :
      Option Quantity × Option String × Option Bool × Option CodeableConcept :=
    match value with
    | none => (none, none, none, none)
    | some (.vqty q) => (some q, none, none, none)
    | some (.vcc c) => (none, none, none, some c)
    | some (.vbool b) => (none, none, some b, none)
    | some (.vnum n) =>
        if optStrTruthy unit then (some (create_quantity n (unit.getD "")), none, none, none)
        else (none, some (toString n), none, none)
    | some (.vstr s) => (none, some s, none, none)
  let interpretation_concept : Option (List CodeableConcept) :=
    match interpretation with
    | none => none
    | some iv =>
      if optEnumOrTruthy interpretation then some [_create_interpretation iv] else none
  let note : Option (List Annotation) :=
    if optStrTruthy notes then some [{ text := notes.getD "", time := none }] else none
  pure
    { id := resource_id
      status := obs_status
      category := [category_concept]
      code := observation_code
      subject := subject_reference
      encounter := encounter_reference
      effectiveDateTime := if date.truthy then format_datetime localTz date else none
      effectivePeriod := none
      valueQuantity := value_quantity
      valueString := value_string
      valueBoolean := value_boolean
      valueCodeableConcept := value_codeable
      interpretation := interpretation_concept
      component := none
      note := note }

/-- `ObservationBuilder.build_vital`. -/
def build_vital (localTz : String) (code : CodeInput) (value : Option ObsValue)
    (unit : Option String) (date : DateTimeInput) (status : EnumOr ObservationStatus)
    (interpretation : Option (EnumOr Interpretation)) (notes : Option String)
    (subject_reference encounter_reference : Option Reference)
    (id : Option String) (gid : String) : Except String Observation :=
  _build_observation localTz code VITAL_SIGNS value unit date status interpretation notes
    subject_reference encounter_reference id gid

/-- `ObservationBuilder.build_lab`. -/
def build_lab (localTz : String) (code : CodeInput) (value : Option ObsValue)
    (unit : Option String) (date : DateTimeInput) (status : EnumOr ObservationStatus)
    (interpretation : Option (EnumOr Interpretation)) (notes : Option String)
    (subject_reference encounter_reference : Option Reference)
    (id : Option String) (gid : String) : Except String Observation :=
  _build_observation localTz code LABORATORY value unit date status interpretation notes
    subject_reference encounter_reference id gid

/-- `ObservationBuilder.build_exam`. -/
def build_exam (localTz : String) (code : CodeInput) (value : Option ObsValue)
    (date : DateTimeInput) (status : EnumOr ObservationStatus) (notes : Option String)
    (subject_reference encounter_reference : Option Reference)
    (id : Option String) (gid : String) : Except String Observation :=
  _build_observation localTz code EXAM value none date status none notes
    subject_reference encounter_reference id gid

/-- `ObservationBuilder.build_social_history` (its `value` argument is the
    string form, the only one the document builder can reach). -/
def build_social_history (localTz : String) (code : CodeInput) (value : Option String)
    (status_value : Option String) (date : DateTimeInput)
    (observation_status : EnumOr ObservationStatus) (notes : Option String)
    (subject_reference encounter_reference : Option Reference)
    (id : Option String) (gid : String) : Except String Observation :=
  let observation_value : Option String :=
    if optStrTruthy status_value && !(optStrTruthy value) then status_value
    else if optStrTruthy status_value && optStrTruthy value then
      some ((status_value.getD "") ++ ": " ++ (value.getD ""))
    else value
  _build_observation localTz code SOCIAL_HISTORY (observation_value.map .vstr) none date
    observation_status none notes subject_reference encounter_reference id gid

end ObservationBuilder

-- =========================================================================
-- PatientBuilder (`resources/patient.py`)
-- =========================================================================

/-- A value that may be a string, a list of strings, or absent (the
    `name.get("given")` / `address.get("line")` dict entries). -/
inductive StrOrList where
  | noneV
  | str (s : String)
  | list (l : List String)
deriving DecidableEq

/-- `x if isinstance(x, list) else [x] if x else None`. -/
def StrOrList.toListOpt : StrOrList → Option (List String)
  | .noneV => none
  | .str s => if strTruthy s then some [s] else none
  | .list l => some l

structure HumanName where
  text : Option String
  family : Option String
  given : Option (List String)
  prefixVal : Option String
  suffixVal : Option String
deriving DecidableEq

structure Identifier where
  value : String
  type : CodeableConcept
  system : Option String
deriving DecidableEq

structure Address where
  text : Option String
  line : Option (List String)
  city : Option String
  state : Option String
  postalCode : Option String
  country : Option String
  district : Option String
deriving DecidableEq

structure ContactPoint where
  system : String
  value : String
  use : Option String
deriving DecidableEq

structure Patient where
  id : String
  name : List HumanName
  gender : Option String
  birthDate : Option String
  identifier : Option (List Identifier)
  address : Option (List Address)
  telecom : Option (List ContactPoint)
deriving DecidableEq

/-- Shapes of the `name` argument of `PatientBuilder.build`. -/
inductive NameInput where
  | str (s : String)
  | dict (text family : Option String) (given : StrOrList) (prefixVal suffixVal : Option String)
  | human (h : HumanName)
deriving DecidableEq

/-- Shapes of the `age` argument (`int` years or `(value, unit)`). -/
inductive AgeInput where
  | int (n : Int)
  | tuple (n : Int) (unit : String)
deriving DecidableEq

/-- Python truthiness of an `Optional[AgeInput]` (`elif age:`): 0 is falsy. -/
def optAgeTruthy : Option AgeInput → Bool
  | none => false
  | some (.int n) => n ≠ 0
  | some (.tuple _ _) => true

/-- Shapes of an identifier type: plain name or `(code, system)` tuple. -/
inductive IdTypeInput where
  | str (s : String)
  | pair (code system : String)
deriving DecidableEq

/-- Shapes of the `address` argument. -/
inductive AddressInput where
  | str (s : String)
  | dict (text : Option String) (line : StrOrList)
      (city state postalCode postal_code country district : Option String)
  | addr (a : Address)
deriving DecidableEq

/-- Python truthiness of an `Optional[AddressInput]` (`if address:`). -/
def optAddressTruthy : Option AddressInput → Bool
  | none => false
  | some (.str s) => strTruthy s
  | some _ => true

namespace PatientBuilder

def V2_0203 : String := "http://terminology.hl7.org/CodeSystem/v2-0203"

/-- The `type_map` in `_create_identifier` (`IdentifierType` constants). -/
def idTypeMap : String → Option (String × String)
  | "abha" => some ("ABHA", "http://nrces.in/ndhm/fhir/r4/CodeSystem/ndhm-identifier-type-code")
  | "mrn" => some ("MR", V2_0203)
  | "mobile" => some ("PHONE", V2_0203)
  | "phone" => some ("PHONE", V2_0203)
  | "national_id" => some ("NI", V2_0203)
  | "passport" => some ("PPN", V2_0203)
  | "drivers_license" => some ("DL", V2_0203)
  | "ssn" => some ("SS", V2_0203)
  | _ => none

/-- Splitting a character list on whitespace runs, discarding empties. -/
def splitWsAux : List Char → List Char → List (List Char)
  | [], acc => if acc.isEmpty then [] else [acc.reverse]
  | c :: cs, acc =>
      if c.isWhitespace then
        (if acc.isEmpty then splitWsAux cs [] else acc.reverse :: splitWsAux cs [])
      else splitWsAux cs (c :: acc)

/-- Python `name.strip().split()`: whitespace-run splitting with no empty
    parts (so leading/trailing whitespace is irrelevant). -/
def pySplitWs (s : String) : List String :=
  (splitWsAux s.data []).map String.mk

/-- `PatientBuilder._parse_name`. A simple-string name with no word at all
    reaches `parts[-1]` on the empty list and raises `IndexError`. -/
def _parse_name : NameInput → Except String HumanName
  | .human h => .ok h
  | .dict text family given pv sv =>
      .ok { text := text, family := family, given := given.toListOpt,
            prefixVal := pv, suffixVal := sv }
  | .str name =>
      let parts := pySplitWs name
      match parts with
      | [] => .error "IndexError: list index out of range"
      | [_] => .ok { text := some name, given := some [name], family := none,
                     prefixVal := none, suffixVal := none }
      | [p1, p2] => .ok { text := some name, given := some [p1], family := some p2,
                          prefixVal := none, suffixVal := none }
      | _ =>
        match parts.reverse with
        | [] => .error "IndexError: list index out of range"
        | last :: revInit =>
            .ok { text := some name, given := some revInit.reverse, family := some last,
                  prefixVal := none, suffixVal := none }

/-- `PatientBuilder._calculate_birthdate_from_age`. -/
def _calculate_birthdate_from_age (today : Date) (age : AgeInput) : Except String String :=
  let (age_value, age_unit) :=
    match age with
    | .int n => (n, "years")
    | .tuple n u => (n, u)
  let u := pyLower age_unit
  if u == "year" || u == "years" || u == "y" then
    (today.replaceYear ((today.year : Int) - age_value)).map Date.iso
  else if u == "month" || u == "months" || u == "mo" then
    .ok (today.subDays (age_value * 30)).iso
  else if u == "day" || u == "days" || u == "d" then
    .ok (today.subDays age_value).iso
  else .error "ValueError: unknown age unit"

/-- `PatientBuilder._create_identifier` (with its default `system=None`). -/
def _create_identifier (value : String) (id_type : IdTypeInput) : Identifier :=
  let (type_code, type_system) :=
    match id_type with
    | .pair c sys => (c, sys)
    | .str s =>
      match idTypeMap (pyLower s) with
      | some p => p
      | none => (s, V2_0203)
  { value := value,
    type := { text := none,
              coding := some [{ system := type_system, code := type_code,
                                display := some type_code }] },
    system := none }

/-- `PatientBuilder._parse_address`. -/
def _parse_address : AddressInput → Address
  | .addr a => a
  | .dict text line city state postalCode postal_code country district =>
      { text := text, line := line.toListOpt, city := city, state := state,
        postalCode := pyOrStr postalCode postal_code, country := country,
        district := district }
  | .str s =>
      { text := some s, line := some [s], city := none, state := none,
        postalCode := none, country := none, district := none }

/-- The `if birth_date: ... elif age: ...` block of `PatientBuilder.build`. -/
def birthDateE (today : Date) (birth_date : DateTimeInput) (age : Option AgeInput) :
    Except String (Option String) :=
  if birth_date.truthy then pure (format_date birth_date)
  else
    match age with
    | some a =>
      if optAgeTruthy (some a) then do
        let bd ← _calculate_birthdate_from_age today a
        pure (some bd)
      else pure none
    | none => pure none

/-- `PatientBuilder.build`. `today` models `date.today()`. -/
def build (today : Date) (name : NameInput) (age : Option AgeInput)
    (birth_date : DateTimeInput) (gender : Option String)
    (identifiers : Option (List (String × IdTypeInput)))
    (address : Option AddressInput) (phone email : Option String)
    (id : Option String) (gid : String) : Except String Patient := do
  let resource_id := pyOrStrD id gid
  let human_name ← _parse_name name
  let calculated_birth_date ← birthDateE today birth_date age
  let parsed_identifiers : Option (List Identifier) :=
    match identifiers with
    | some l =>
      if optListTruthy identifiers then
        some (l.map (fun p => _create_identifier p.1 p.2))
      else none
    | none => none
  let parsed_address : Option (List Address) :=
    match address with
    | some a => if optAddressTruthy address then some [_parse_address a] else none
    | none => none
  let telecom : List ContactPoint :=
    (if optStrTruthy phone then
      [{ system := "phone", value := phone.getD "", use := some "mobile" }] else [])
    ++ (if optStrTruthy email then
      [{ system := "email", value := email.getD "", use := none }] else [])
  pure
    { id := resource_id
      name := [human_name]
      gender := gender
      birthDate := calculated_birth_date
      identifier := parsed_identifiers
      address := parsed_address
      telecom := if telecom.isEmpty then none else some telecom }

end PatientBuilder

-- =========================================================================
-- EncounterBuilder (`resources/encounter.py`)
-- =========================================================================

structure Encounter where
  id : String
  status : String
  classFhir : List CodeableConcept
  type : Option (List CodeableConcept)
  serviceType : Option (List CodeableReference)
  subject : Option Reference
  actualPeriod : Option Period
  serviceProvider : Option Reference
deriving DecidableEq

/-- Shapes of the `encounter_class` argument. -/
inductive EncounterClassInput where
  | str (s : String)
  | coding (c : Coding)
deriving DecidableEq

namespace EncounterBuilder

def ACT_ENCOUNTER_CODE_SYSTEM : String := "http://terminology.hl7.org/CodeSystem/v3-ActCode"
def ENCOUNTER_TYPE_SYSTEM : String := "http://terminology.hl7.org/CodeSystem/encounter-type"

/-- The `class_map` in `_parse_encounter_class` (`EncounterClass` pairs). -/
def encClassMap : String → Option (String × String)
  | "ambulatory" => some ("AMB", "ambulatory")
  | "amb" => some ("AMB", "ambulatory")
  | "outpatient" => some ("AMB", "ambulatory")
  | "opd" => some ("AMB", "ambulatory")
  | "emergency" => some ("EMER", "emergency")
  | "emer" => some ("EMER", "emergency")
  | "er" => some ("EMER", "emergency")
  | "inpatient" => some ("IMP", "inpatient encounter")
  | "imp" => some ("IMP", "inpatient encounter")
  | "ipd" => some ("IMP", "inpatient encounter")
  | "home" => some ("HH", "home health")
  | "hh" => some ("HH", "home health")
  | "virtual" => some ("VR", "virtual")
  | "vr" => some ("VR", "virtual")
  | "teleconsultation" => some ("VR", "virtual")
  | "observation" => some ("OBSENC", "observation encounter")
  | _ => none

/-- `EncounterBuilder._parse_encounter_class`: unrecognized class strings are
    used as-is (code and display both the raw string). -/
def _parse_encounter_class : EncounterClassInput → Coding
  | .coding c => c
  | .str s =>
    let (code, display) :=
      match encClassMap (pyLower s) with
      | some p => p
      | none => (s, s)
    { system := ACT_ENCOUNTER_CODE_SYSTEM, code := code, display := some display }

/-- `EncounterBuilder.build` (`encounter_subtype` is accepted and unused,
    as in the source; participant/service-provider references are not
    reachable from the document builder). -/
def build (localTz : String) (encounter_class : EncounterClassInput)
    (encounter_type encounter_subtype : Option String) (status : String)
    (period_start period_end : DateTimeInput)
    (facility_name department : Option String)
    (subject_reference : Option Reference)
    (id : Option String) (gid : String) : Except String Encounter := do
  let _ := encounter_subtype
  let resource_id := pyOrStrD id gid
  let class_coding := _parse_encounter_class encounter_class
  let type_concepts : List CodeableConcept :=
    match encounter_type with
    | some t =>
      if strTruthy t then
        [{ text := some t,
           coding := some [{ system := ENCOUNTER_TYPE_SYSTEM,
                             code := String.mk ((pyLower t).data.map
                               (fun c => if c = ' ' then '-' else c)),
                             display := some t }] }]
      else []
    | none => []
  let service_type : Option CodeableConcept :=
    if optStrTruthy department then some { text := department, coding := none } else none
  let period : Option Period :=
    if period_start.truthy || period_end.truthy then
      some (create_period localTz period_start period_end)
    else none
  let service_provider : Option Reference :=
    if optStrTruthy facility_name then
      some { reference := none, display := facility_name }
    else none
  pure
    { id := resource_id
      status := status
      classFhir := [{ text := none, coding := some [class_coding] }]
      type := if type_concepts.isEmpty then none else some type_concepts
      serviceType := service_type.map (fun st => [({ concept := st } : CodeableReference)])
      subject := subject_reference
      actualPeriod := period
      serviceProvider := service_provider }

end EncounterBuilder

-- =========================================================================
-- MedicationBuilder (`resources/medication.py`)
-- =========================================================================

/-- Dosage objects are pre-built by the caller and pass through the
    medication builders untouched; only their text is modelled. -/
structure Dosage where
  text : Option String
deriving DecidableEq

/-- `Union[Dosage, List[Dosage]]`. -/
inductive DosageArg where
  | one (d : Dosage)
  | many (l : List Dosage)
deriving DecidableEq

/-- `dosage if isinstance(dosage, list) else [dosage]`. -/
def DosageArg.toList : DosageArg → List Dosage
  | .one d => [d]
  | .many l => l

structure Duration where
  value : Int
  unit : String
  system : String
  code : String
deriving DecidableEq

structure DispenseRequest where
  expectedSupplyDuration : Option Duration
  quantity : Option Quantity
  numberOfRepeatsAllowed : Option Int
deriving DecidableEq

structure MedicationRequest where
  id : String
  status : String
  intent : String
  medication : CodeableReference
  subject : Option Reference
  encounter : Option Reference
  authoredOn : Option String
  reason : Option (List CodeableReference)
  dosageInstruction : Option (List Dosage)
  dispenseRequest : Option DispenseRequest
  note : Option (List Annotation)
deriving DecidableEq

structure MedicationStatement where
  id : String
  status : String
  medication : CodeableReference
  subject : Option Reference
  encounter : Option Reference
  effectiveDateTime : Option String
  effectivePeriod : Option Period
  dateAsserted : Option String
  reason : Option (List CodeableReference)
  dosage : Option (List Dosage)
  note : Option (List Annotation)
deriving DecidableEq

/-- The `if reason: reason_code = [parse_code_input(reason)]` block shared by
    the medication and service-request builders (R5 `CodeableReference`
    wrapping included). -/
def reasonRefsE (reason : Option CodeInput) :
    Except String (Option (List CodeableReference)) :=
  match reason with
  | none => pure none
  | some r =>
    if optCodeInputTruthy (some r) then do
      let rc ← parse_code_input r
      pure (some [({ concept := rc } : CodeableReference)])
    else pure none

namespace MedicationBuilder

/-- `MedicationBuilder.build_prescribed`. -/
def build_prescribed (localTz : String) (medication : CodeInput) (dosage : Option DosageArg)
    (status : EnumOr MedicationRequestStatus) (intent : EnumOr MedicationRequestIntent)
    (duration_value : Option Int) (duration_unit : Option String)
    (quantity_value : Option Int) (quantity_unit : Option String)
    (refills : Option Int) (notes : Option String) (reason : Option CodeInput)
    (subject_reference encounter_reference : Option Reference)
    (authored_on : DateTimeInput) (id : Option String) (gid : String) :
    Except String MedicationRequest := do
  let resource_id := pyOrStrD id gid
  let medication_code ← parse_code_input medication
  let status_value := status.rawVal MedicationRequestStatus.val
  let intent_value := intent.rawVal MedicationRequestIntent.val
  let dosage_instruction : Option (List Dosage) := dosage.map DosageArg.toList
  let dispense_request : Option DispenseRequest :=
    if optIntTruthy duration_value || optIntTruthy quantity_value || refills.isSome then
      some
        { expectedSupplyDuration :=
            if optIntTruthy duration_value then
              some { value := duration_value.getD 0, unit := pyOrStrD duration_unit "d",
                     system := UCUM, code := pyOrStrD duration_unit "d" }
            else none,
          quantity :=
            if optIntTruthy quantity_value then
              some { value := quantity_value.getD 0,
                     unit := some (pyOrStrD quantity_unit "unit"),
                     code := none, system := none }
            else none,
          numberOfRepeatsAllowed := refills }
    else none
  let reason_val ← reasonRefsE reason
  let note : Option (List Annotation) :=
    if optStrTruthy notes then some [{ text := notes.getD "", time := none }] else none
  pure
    { id := resource_id
      status := status_value
      intent := intent_value
      medication := { concept := medication_code }
      subject := subject_reference
      encounter := encounter_reference
      authoredOn := if authored_on.truthy then format_datetime localTz authored_on else none
      reason := reason_val
      dosageInstruction := dosage_instruction
      dispenseRequest := dispense_request
      note := note }

/-- `MedicationBuilder.build_history` (the document builder never supplies a
    context reference, so `encounter` is always absent). -/
def build_history (localTz : String) (medication : CodeInput) (dosage : Option DosageArg)
    (status : EnumOr MedicationStatementStatus)
    (effective_start effective_end : DateTimeInput) (notes : Option String)
    (reason : Option CodeInput) (subject_reference : Option Reference)
    (context_reference : Option Reference) (date_asserted : DateTimeInput)
    (id : Option String) (gid : String) : Except String MedicationStatement := do
  let resource_id := pyOrStrD id gid
  let medication_code ← parse_code_input medication
  let status_value := status.rawVal MedicationStatementStatus.val
  let dosage_list : Option (List Dosage) := dosage.map DosageArg.toList
  let effective_datetime : Option String :=
    if effective_start.truthy || effective_end.truthy then
      (if effective_end.truthy then none else format_datetime localTz effective_start)
    else none
  let effective_period : Option Period :=
    if effective_start.truthy || effective_end.truthy then
      (if effective_end.truthy then some (create_period localTz effective_start effective_end)
       else none)
    else none
  let reason_val ← reasonRefsE reason
  let note : Option (List Annotation) :=
    if optStrTruthy notes then some [{ text := notes.getD "", time := none }] else none
  pure
    { id := resource_id
      status := status_value
      medication := { concept := medication_code }
      subject := subject_reference
      encounter := context_reference
      effectiveDateTime := effective_datetime
      effectivePeriod := effective_period
      dateAsserted := if date_asserted.truthy then format_datetime localTz date_asserted else none
      reason := reason_val
      dosage := dosage_list
      note := note }

end MedicationBuilder

-- =========================================================================
-- ServiceRequestBuilder (`resources/service_request.py`)
-- =========================================================================

structure ServiceRequest where
  id : String
  status : String
  intent : String
  priority : Option String
  category : List CodeableConcept
  code : CodeableReference
  subject : Option Reference
  encounter : Option Reference
  occurrenceDateTime : Option String
  reason : Option (List CodeableReference)
  note : Option (List Annotation)
deriving DecidableEq

namespace ServiceRequestBuilder

/-- `ServiceRequestCategory` triples `(code, display, system)`. -/
def LABORATORY : String × String × String := ("108252007", "Laboratory procedure", SNOMED_CT)
def PROCEDURE : String × String × String := ("387713003", "Surgical procedure", SNOMED_CT)

/-- `ServiceRequestBuilder._build_service_request` (the occurrence-period
    branch is unreachable from the document builder and omitted). -/
def _build_service_request (localTz : String) (code : CodeInput)
    (category : String × String × String) (status intent : String)
    (priority : Option String) (occurrence_date : DateTimeInput)
    (notes : Option String) (reason : Option CodeInput)
    (subject_reference encounter_reference : Option Reference)
    (id : Option String) (gid : String) : Except String ServiceRequest := do
  let resource_id := pyOrStrD id gid
  let service_code ← parse_code_input code
  let category_concept : CodeableConcept :=
    { text := none,
      coding := some [{ system := category.2.2, code := category.1,
                        display := some category.2.1 }] }
  let occurrence_datetime : Option String :=
    if occurrence_date.truthy then format_datetime localTz occurrence_date else none
  let reason_val ← reasonRefsE reason
  let note : Option (List Annotation) :=
    if optStrTruthy notes then some [{ text := notes.getD "", time := none }] else none
  pure
    { id := resource_id
      status := status
      intent := intent
      priority := priority
      category := [category_concept]
      code := { concept := service_code }
      subject := subject_reference
      encounter := encounter_reference
      occurrenceDateTime := occurrence_datetime
      reason := reason_val
      note := note }

/-- `ServiceRequestBuilder.build_lab_test` (status/intent defaults). -/
def build_lab_test (localTz : String) (code : CodeInput) (occurrence_date : DateTimeInput)
    (notes : Option String) (priority : Option String) (reason : Option CodeInput)
    (subject_reference encounter_reference : Option Reference)
    (id : Option String) (gid : String) : Except String ServiceRequest :=
  _build_service_request localTz code LABORATORY "active" "order" priority occurrence_date
    notes reason subject_reference encounter_reference id gid

/-- `ServiceRequestBuilder.build_procedure` (status/intent defaults). -/
def build_procedure (localTz : String) (code : CodeInput) (occurrence_date : DateTimeInput)
    (notes : Option String) (priority : Option String) (reason : Option CodeInput)
    (subject_reference encounter_reference : Option Reference)
    (id : Option String) (gid : String) : Except String ServiceRequest :=
  _build_service_request localTz code PROCEDURE "active" "order" priority occurrence_date
    notes reason subject_reference encounter_reference id gid

end ServiceRequestBuilder

-- =========================================================================
-- ProcedureBuilder (`resources/procedure.py`)
-- =========================================================================

structure Procedure where
  id : String
  status : String
  code : CodeableConcept
  subject : Option Reference
  encounter : Option Reference
  occurrenceDateTime : Option String
  outcome : Option CodeableConcept
  note : Option (List Annotation)
deriving DecidableEq

/-- The `if outcome: outcome_concept = parse_code_input(outcome)` block of
    `ProcedureBuilder.build`. -/
def outcomeConceptE (outcome : Option CodeInput) : Except String (Option CodeableConcept) :=
  match outcome with
  | none => pure none
  | some oc =>
    if optCodeInputTruthy (some oc) then do
      let c ← parse_code_input oc
      pure (some c)
    else pure none

namespace ProcedureBuilder

/-- `ProcedureBuilder.build` (the performed-period / body-site / reason /
    performer branches are unreachable from the document builder). -/
def build (localTz : String) (code : CodeInput) (status : String)
    (performed_date : DateTimeInput) (outcome : Option CodeInput)
    (notes : Option String) (subject_reference encounter_reference : Option Reference)
    (id : Option String) (gid : String) : Except String Procedure := do
  let resource_id := pyOrStrD id gid
  let procedure_code ← parse_code_input code
  let performed_datetime : Option String :=
    if performed_date.truthy then format_datetime localTz performed_date else none
  let outcome_concept ← outcomeConceptE outcome
  let note : Option (List Annotation) :=
    if optStrTruthy notes then some [{ text := notes.getD "", time := none }] else none
  pure
    { id := resource_id
      status := status
      code := procedure_code
      subject := subject_reference
      encounter := encounter_reference
      occurrenceDateTime := performed_datetime
      outcome := outcome_concept
      note := note }

end ProcedureBuilder

-- =========================================================================
-- FamilyMemberHistoryBuilder (`resources/family_history.py`)
-- =========================================================================

structure Age where
  value : Int
  unit : String
  system : String
  code : String
deriving DecidableEq

structure FamilyMemberHistoryCondition where
  code : CodeableConcept
  onsetString : Option String
  onsetAge : Option Age
  note : Option (List Annotation)
deriving DecidableEq

structure FamilyMemberHistory where
  id : String
  status : String
  patient : Option Reference
  relationship : CodeableConcept
  deceasedBoolean : Option Bool
  condition : List FamilyMemberHistoryCondition
  note : Option (List Annotation)
deriving DecidableEq

/-- Shapes of the `relationship` argument. -/
inductive RelationInput where
  | str (s : String)
  | tuple (code display : String)
  | cc (c : CodeableConcept)
deriving DecidableEq

/-- Shapes of the `onset` argument (`Union[str, int]`). -/
inductive OnsetInput where
  | int (n : Int)
  | str (s : String)
deriving DecidableEq

/-- Python truthiness of an `Optional[OnsetInput]` (`if onset:`). -/
def optOnsetTruthy : Option OnsetInput → Bool
  | none => false
  | some (.int n) => n ≠ 0
  | some (.str s) => strTruthy s

namespace FamilyMemberHistoryBuilder

def RELATIONSHIP_SYSTEM : String := "http://terminology.hl7.org/CodeSystem/v3-RoleCode"

/-- The `relationship_map` (`FamilyRelationship` pairs). -/
def relationshipMap : String → Option (String × String)
  | "father" => some ("FTH", "father")
  | "mother" => some ("MTH", "mother")
  | "brother" => some ("BRO", "brother")
  | "sister" => some ("SIS", "sister")
  | "sibling" => some ("SIB", "sibling")
  | "son" => some ("SON", "son")
  | "daughter" => some ("DAU", "daughter")
  | "child" => some ("CHILD", "child")
  | "grandfather" => some ("GRFTH", "grandfather")
  | "grandmother" => some ("GRMTH", "grandmother")
  | "aunt" => some ("AUNT", "aunt")
  | "uncle" => some ("UNCLE", "uncle")
  | "cousin" => some ("COUSN", "cousin")
  | "family member" => some ("FAMMEMB", "family member")
  | "spouse" => some ("SIGOTHR", "significant other")
  | _ => none

/-- `FamilyMemberHistoryBuilder._parse_relationship`: unrecognized strings are
    used as-is (upper-cased code, capitalized display). -/
def _parse_relationship : RelationInput → CodeableConcept
  | .cc c => c
  | .tuple code display =>
      { text := some display,
        coding := some [{ system := RELATIONSHIP_SYSTEM, code := code,
                          display := some display }] }
  | .str s =>
    let (code, display) :=
      match relationshipMap (pyLower s) with
      | some p => p
      | none => (pyUpper s, pyCapitalize s)
    { text := some display,
      coding := some [{ system := RELATIONSHIP_SYSTEM, code := code,
                        display := some display }] }

/-- `FamilyMemberHistoryBuilder.build` (the `outcome` / `date` arguments are
    unreachable from the document builder). -/
def build (condition : CodeInput) (relationship : RelationInput)
    (status : String) (onset : Option OnsetInput) (deceased : Option Bool)
    (notes : Option String) (subject_reference : Option Reference)
    (id : Option String) (gid : String) : Except String FamilyMemberHistory := do
  let resource_id := pyOrStrD id gid
  let condition_code ← parse_code_input condition
  let relationship_concept := _parse_relationship relationship
  let (onset_string, onset_age) : Option String × Option Age :=
    match onset with
    | some ov =>
      if optOnsetTruthy onset then
        match ov with
        | .int n =>
          if n > 1900 then (some (toString n), none)
          else (none, some { value := n, unit := "years",
                             system := "http://unitsofmeasure.org", code := "a" })
        | .str sv => (some sv, none)
      else (none, none)
    | none => (none, none)
  let note : Option (List Annotation) :=
    if optStrTruthy notes then some [{ text := notes.getD "", time := none }] else none
  let condition_item : FamilyMemberHistoryCondition :=
    { code := condition_code
      onsetString := onset_string
      onsetAge := onset_age
      note := note }
  pure
    { id := resource_id
      status := status
      patient := subject_reference
      relationship := relationship_concept
      deceasedBoolean := deceased
      condition := [condition_item]
      note := note }

end FamilyMemberHistoryBuilder

-- =========================================================================
-- AllergyBuilder (`resources/allergy.py`)
-- =========================================================================

structure AllergyIntoleranceReaction where
  manifestation : List CodeableConcept
  severity : Option String
deriving DecidableEq

structure AllergyIntolerance where
  id : String
  clinicalStatus : CodeableConcept
  category : Option (List String)
  criticality : Option String
  code : CodeableConcept
  patient : Option Reference
  encounter : Option Reference
  reaction : Option (List AllergyIntoleranceReaction)
  note : Option (List Annotation)
deriving DecidableEq

namespace AllergyBuilder

def CLINICAL_STATUS_SYSTEM : String :=
  "http://terminology.hl7.org/CodeSystem/allergyintolerance-clinical"

/-- `AllergyBuilder._create_clinical_status`. -/
def _create_clinical_status (status : String) : CodeableConcept :=
  { text := none,
    coding := some [{ system := CLINICAL_STATUS_SYSTEM, code := status,
                      display := some (pyCapitalize status) }] }

/-- `AllergyBuilder.build` (restricted to the arguments reachable from the
    document builder; `reaction_manifestation` is the string form). -/
def build (code : CodeInput) (category : Option String) (clinical_status : String)
    (criticality : Option String) (reaction_manifestation : Option String)
    (reaction_severity : Option String) (notes : Option String)
    (subject_reference encounter_reference : Option Reference)
    (id : Option String) (gid : String) : Except String AllergyIntolerance := do
  let resource_id := pyOrStrD id gid
  let allergen_code ← parse_code_input code
  let clinical_status_concept := _create_clinical_status clinical_status
  let category_list : Option (List String) :=
    if optStrTruthy category then some [category.getD ""] else none
  let reactions : Option (List AllergyIntoleranceReaction) :=
    if optStrTruthy reaction_manifestation || optStrTruthy reaction_severity then
      some
        [{ manifestation :=
             if optStrTruthy reaction_manifestation then
               [{ text := reaction_manifestation, coding := none }]
             else [{ text := some "Unknown", coding := none }],
           severity :=
             if optStrTruthy reaction_severity then reaction_severity else none }]
    else none
  let note : Option (List Annotation) :=
    if optStrTruthy notes then some [{ text := notes.getD "", time := none }] else none
  pure
    { id := resource_id
      clinicalStatus := clinical_status_concept
      category := category_list
      criticality := criticality
      code := allergen_code
      patient := subject_reference
      encounter := encounter_reference
      reaction := reactions
      note := note }

end AllergyBuilder

-- =========================================================================
-- ImmunizationBuilder (`resources/immunization.py`)
-- =========================================================================

structure ImmunizationProtocolApplied where
  doseNumberPositiveInt : Option Int
  seriesDosesPositiveInt : Option Int
deriving DecidableEq

structure Immunization where
  id : String
  status : String
  vaccineCode : CodeableConcept
  patient : Option Reference
  encounter : Option Reference
  occurrenceDateTime : Option String
  occurrenceString : Option String
  protocolApplied : Option (List ImmunizationProtocolApplied)
  note : Option (List Annotation)
deriving DecidableEq

namespace ImmunizationBuilder

/-- `ImmunizationBuilder.build` (restricted to the arguments reachable from
    the document builder; `occurrence[x]` defaults to the string `"Unknown"`
    when no occurrence date is supplied). -/
def build (localTz : String) (vaccine : CodeInput) (occurrence_date : DateTimeInput)
    (status : String) (dose_number series_doses : Option Int) (notes : Option String)
    (subject_reference encounter_reference : Option Reference)
    (id : Option String) (gid : String) : Except String Immunization := do
  let resource_id := pyOrStrD id gid
  let vaccine_code ← parse_code_input vaccine
  let occurrence_datetime : Option String :=
    if occurrence_date.truthy then format_datetime localTz occurrence_date else none
  let protocol_applied : Option (List ImmunizationProtocolApplied) :=
    if dose_number.isSome || series_doses.isSome then
      some [{ doseNumberPositiveInt := dose_number, seriesDosesPositiveInt := series_doses }]
    else none
  let note : Option (List Annotation) :=
    if optStrTruthy notes then some [{ text := notes.getD "", time := none }] else none
  pure
    { id := resource_id
      status := status
      vaccineCode := vaccine_code
      patient := subject_reference
      encounter := encounter_reference
      occurrenceDateTime := occurrence_datetime
      occurrenceString := if occurrence_datetime.isSome then none else some "Unknown"
      protocolApplied := protocol_applied
      note := note }

end ImmunizationBuilder

-- =========================================================================
-- AppointmentBuilder (`resources/appointment.py`)
-- =========================================================================

structure AppointmentParticipant where
  actor : Reference
  status : String
deriving DecidableEq

structure Appointment where
  id : String
  status : String
  serviceType : Option (List CodeableReference)
  specialty : Option (List CodeableConcept)
  start : Option String
  participant : List AppointmentParticipant
  note : Option (List Annotation)
deriving DecidableEq

/-- The `if service_type: [parse_code_input(service_type)]` pattern of
    `AppointmentBuilder.build` (also used for `specialty`). -/
def codeConceptListE (ci : Option CodeInput) :
    Except String (Option (List CodeableConcept)) :=
  match ci with
  | none => pure none
  | some c =>
    if optCodeInputTruthy (some c) then do
      let cc ← parse_code_input c
      pure (some [cc])
    else pure none

namespace AppointmentBuilder

/-- The `if patient_reference: participants.append(...)` block of
    `AppointmentBuilder.build`. -/
def patientParticipant (patient_reference : Option Reference) :
    List AppointmentParticipant :=
  match patient_reference with
  | some r => [{ actor := r, status := "accepted" }]
  | none => []

/-- The `if practitioner_reference or practitioner_name:` block of
    `AppointmentBuilder.build` (only `practitioner_name` is reachable from
    the document builder). -/
def practitionerParticipant (practitioner_name : Option String) :
    List AppointmentParticipant :=
  if optStrTruthy practitioner_name then
    [{ actor := { reference := none, display := practitioner_name },
       status := "accepted" }]
  else []

/-- `AppointmentBuilder.build` (restricted to the arguments reachable from
    `build_followup`; the patient participant, when present, is the first
    participant). -/
def build (localTz : String) (start : DateTimeInput) (status : String)
    (service_type specialty : Option CodeInput) (notes : Option String)
    (patient_reference : Option Reference) (practitioner_name : Option String)
    (id : Option String) (gid : String) : Except String Appointment := do
  let resource_id := pyOrStrD id gid
  let service_type_list ← codeConceptListE service_type
  let specialty_list ← codeConceptListE specialty
  let participants := patientParticipant patient_reference
    ++ practitionerParticipant practitioner_name
  let note_val : Option (List Annotation) :=
    if optStrTruthy notes then some [{ text := notes.getD "", time := none }] else none
  pure
    { id := resource_id
      status := status
      serviceType := service_type_list.map (fun l =>
        l.map (fun st => ({ concept := st } : CodeableReference)))
      specialty := specialty_list
      start := if start.truthy then format_datetime localTz start else none
      participant := participants
      note := note_val }

/-- `AppointmentBuilder.build_followup`. -/
def build_followup (localTz : String) (date : DateTimeInput)
    (practitioner_name specialty notes : Option String)
    (patient_reference : Option Reference) (id : Option String) (gid : String) :
    Except String Appointment :=
  build localTz date "booked" (some (.str "Follow-up")) (specialty.map .str) notes
    patient_reference practitioner_name id gid

end AppointmentBuilder

-- =========================================================================
-- AdviceBuilder / ClinicalNoteBuilder (`resources/care_plan.py`)
-- =========================================================================

structure CarePlanActivity where
  progress : List Annotation
deriving DecidableEq

structure CarePlan where
  id : String
  status : String
  intent : String
  description : Option String
  subject : Option Reference
  encounter : Option Reference
  category : Option (List CodeableConcept)
  activity : List CarePlanActivity
deriving DecidableEq

structure CommunicationPayload where
  contentCodeableConcept : CodeableConcept
deriving DecidableEq

structure Communication where
  id : String
  status : String
  category : Option (List CodeableConcept)
  subject : Option Reference
  encounter : Option Reference
  payload : List CommunicationPayload
deriving DecidableEq

namespace AdviceBuilder

/-- `AdviceBuilder.build` (`description or advice_text`; status/intent
    defaults; title/author unreachable from the document builder). -/
def build (advice_text : String) (category : Option String)
    (subject_reference encounter_reference : Option Reference)
    (id : Option String) (gid : String) : CarePlan :=
  let resource_id := pyOrStrD id gid
  let category_list : Option (List CodeableConcept) :=
    if optStrTruthy category then some [{ text := category, coding := none }] else none
  { id := resource_id
    status := "active"
    intent := "plan"
    description := some (pyOrStrD none advice_text)
    subject := subject_reference
    encounter := encounter_reference
    category := category_list
    activity := [{ progress := [{ text := advice_text, time := none }] }] }

end AdviceBuilder

namespace ClinicalNoteBuilder

/-- `ClinicalNoteBuilder.build` (status default `completed`; sender/sent
    unreachable from the document builder). -/
def build (note_text : String) (category : Option String)
    (subject_reference encounter_reference : Option Reference)
    (id : Option String) (gid : String) : Communication :=
  let resource_id := pyOrStrD id gid
  let category_list : Option (List CodeableConcept) :=
    if optStrTruthy category then some [{ text := category, coding := none }] else none
  { id := resource_id
    status := "completed"
    category := category_list
    subject := subject_reference
    encounter := encounter_reference
    payload := [{ contentCodeableConcept := { text := some note_text, coding := none } }] }

end ClinicalNoteBuilder

-- =========================================================================
-- FHIRDocumentBuilder (`document_builder.py`)
-- =========================================================================

/-- The accumulator state of `FHIRDocumentBuilder.__init__`. -/
structure FHIRDocumentBuilder where
  bundle_id : String
  patient : Option Patient
  encounter : Option Encounter
  observations : List Observation
  conditions : List Condition
  medication_requests : List MedicationRequest
  medication_statements : List MedicationStatement
  service_requests : List ServiceRequest
  procedures : List Procedure
  family_member_histories : List FamilyMemberHistory
  allergies : List AllergyIntolerance
  immunizations : List Immunization
  appointments : List Appointment
  care_plans : List CarePlan
  communications : List Communication
deriving DecidableEq

namespace FHIRDocumentBuilder

/-- `FHIRDocumentBuilder(bundle_id)`. -/
def new (bundle_id : Option String) (gid : String) : FHIRDocumentBuilder :=
  { bundle_id := pyOrStrD bundle_id gid
    patient := none
    encounter := none
    observations := []
    conditions := []
    medication_requests := []
    medication_statements := []
    service_requests := []
    procedures := []
    family_member_histories := []
    allergies := []
    immunizations := []
    appointments := []
    care_plans := []
    communications := [] }

/-- `FHIRDocumentBuilder._get_patient_display`. -/
def _get_patient_display (b : FHIRDocumentBuilder) : Option String :=
  match b.patient with
  | none => none
  | some p =>
    match p.name.head? with
    | none => none
    | some nm =>
      if optStrTruthy nm.text then nm.text
      else
        let parts := (if optListTruthy nm.given then nm.given.getD [] else [])
          ++ (if optStrTruthy nm.family then [nm.family.getD ""] else [])
        if parts.isEmpty then none else some (String.intercalate " " parts)

/-- `FHIRDocumentBuilder._get_patient_reference`. -/
def _get_patient_reference (b : FHIRDocumentBuilder) : Option Reference :=
  match b.patient with
  | none => none
  | some p =>
    if strTruthy p.id then
      some (create_reference none (some "Patient") (some p.id) (_get_patient_display b))
    else none

/-- `FHIRDocumentBuilder._get_encounter_reference`. -/
def _get_encounter_reference (b : FHIRDocumentBuilder) : Option Reference :=
  match b.encounter with
  | none => none
  | some e =>
    if strTruthy e.id then
      some (create_reference none (some "Encounter") (some e.id) none)
    else none

/-- The arguments of `add_patient`. -/
structure PatientArgs where
  name : NameInput
  age : Option AgeInput
  birth_date : DateTimeInput
  gender : Option String
  identifiers : Option (List (String × IdTypeInput))
  address : Option AddressInput
  phone : Option String
  email : Option String
  id : Option String
deriving DecidableEq

/-- `FHIRDocumentBuilder.add_patient`: `self.patient = PatientBuilder.build(...)`.
    On an exception the assignment never executes and the state is unchanged. -/
def stepAddPatient (b : FHIRDocumentBuilder) (today : Date) (args : PatientArgs)
    (gid : String) : FHIRDocumentBuilder × Except String Patient :=
  match PatientBuilder.build today args.name args.age args.birth_date args.gender
      args.identifiers args.address args.phone args.email args.id gid with
  | .ok p => ({ b with patient := some p }, .ok p)
  | .error e => (b, .error e)

/-- The arguments of `add_encounter` (with the Python signature defaults
    `encounter_class="ambulatory"`, `status="finished"` supplied by callers
    that omit them). -/
structure EncounterArgs where
  encounter_class : EncounterClassInput
  encounter_type : Option String
  encounter_subtype : Option String
  period_start : DateTimeInput
  period_end : DateTimeInput
  facility_name : Option String
  department : Option String
  status : String
  id : Option String
deriving DecidableEq

/-- `FHIRDocumentBuilder.add_encounter`: resolves the subject reference at
    call time and stores the built encounter. -/
def stepAddEncounter (localTz : String) (b : FHIRDocumentBuilder) (args : EncounterArgs)
    (gid : String) : FHIRDocumentBuilder × Except String Encounter :=
  match EncounterBuilder.build localTz args.encounter_class args.encounter_type
      args.encounter_subtype args.status args.period_start args.period_end
      args.facility_name args.department (_get_patient_reference b) args.id gid with
  | .ok e => ({ b with encounter := some e }, .ok e)
  | .error e => (b, .error e)

end FHIRDocumentBuilder

/-- A stored clinical record (or the subject/encounter record), tagged with
    its resource type, as it appears in a bundle entry. -/
inductive Resource where
  | patient (p : Patient)
  | encounter (e : Encounter)
  | obs (o : Observation)
  | cond (c : Condition)
  | medReq (m : MedicationRequest)
  | medStmt (m : MedicationStatement)
  | servReq (sr : ServiceRequest)
  | proc (p : Procedure)
  | famHist (f : FamilyMemberHistory)
  | allergy (a : AllergyIntolerance)
  | immun (i : Immunization)
  | appt (a : Appointment)
  | carePlan (c : CarePlan)
  | comm (c : Communication)
deriving DecidableEq

/-- `resource.id` of a stored record. -/
def Resource.rid : Resource → String
  | .patient p => p.id
  | .encounter e => e.id
  | .obs o => o.id
  | .cond c => c.id
  | .medReq m => m.id
  | .medStmt m => m.id
  | .servReq sr => sr.id
  | .proc p => p.id
  | .famHist f => f.id
  | .allergy a => a.id
  | .immun i => i.id
  | .appt a => a.id
  | .carePlan c => c.id
  | .comm c => c.id

/-- The `resourceType` tag of a stored record. -/
def Resource.resourceType : Resource → String
  | .patient _ => "Patient"
  | .encounter _ => "Encounter"
  | .obs _ => "Observation"
  | .cond _ => "Condition"
  | .medReq _ => "MedicationRequest"
  | .medStmt _ => "MedicationStatement"
  | .servReq _ => "ServiceRequest"
  | .proc _ => "Procedure"
  | .famHist _ => "FamilyMemberHistory"
  | .allergy _ => "AllergyIntolerance"
  | .immun _ => "Immunization"
  | .appt _ => "Appointment"
  | .carePlan _ => "CarePlan"
  | .comm _ => "Communication"

namespace FHIRDocumentBuilder

/-- One `add_*` call of the document builder, with its arguments. -/
inductive AddOp where
  | add_symptom (code : CodeInput) (onset offset : DateTimeInput)
      (severity : Option (EnumOr Severity)) (status : EnumOr ObservationStatus)
      (notes : Option String) (laterality : Option (EnumOr Laterality))
      (finding_status : Option (EnumOr FindingStatus)) (id : Option String)
  | add_medical_condition_history (code : CodeInput) (onset offset : DateTimeInput)
      (clinical_status : EnumOr ConditionClinicalStatus)
      (verification_status : Option (EnumOr ConditionVerificationStatus))
      (severity : Option (EnumOr Severity)) (laterality : Option (EnumOr Laterality))
      (notes : Option String) (id : Option String)
  | add_medical_condition_encountered (code : CodeInput) (onset offset : DateTimeInput)
      (clinical_status : EnumOr ConditionClinicalStatus)
      (verification_status : Option (EnumOr ConditionVerificationStatus))
      (severity : Option (EnumOr Severity)) (laterality : Option (EnumOr Laterality))
      (notes : Option String) (id : Option String)
  | add_vital_finding (code : CodeInput) (value : Option ObsValue) (unit : Option String)
      (date : DateTimeInput) (interpretation : Option (EnumOr Interpretation))
      (notes : Option String) (id : Option String)
  | add_lab_finding (code : CodeInput) (value : Option ObsValue) (unit : Option String)
      (date : DateTimeInput) (interpretation : Option (EnumOr Interpretation))
      (notes : Option String) (id : Option String)
  | add_examination_finding (code : CodeInput) (value : Option String)
      (date : DateTimeInput) (status : EnumOr ObservationStatus)
      (notes : Option String) (id : Option String)
  | add_lifestyle_history (code : CodeInput) (status_value : Option String)
      (notes : Option String) (date : DateTimeInput) (id : Option String)
  | add_medication_prescribed (medication : CodeInput) (dosage : Option DosageArg)
      (status : EnumOr MedicationRequestStatus) (intent : EnumOr MedicationRequestIntent)
      (duration_value : Option Int) (duration_unit : Option String)
      (quantity_value : Option Int) (quantity_unit : Option String)
      (refills : Option Int) (notes : Option String) (reason : Option CodeInput)
      (authored_on : DateTimeInput) (id : Option String)
  | add_medication_history (medication : CodeInput) (dosage : Option DosageArg)
      (status : EnumOr MedicationStatementStatus)
      (effective_start effective_end : DateTimeInput) (notes : Option String)
      (reason : Option CodeInput) (date_asserted : DateTimeInput) (id : Option String)
  | add_test_prescribed (code : CodeInput) (date : DateTimeInput) (notes : Option String)
      (priority : Option String) (reason : Option CodeInput) (id : Option String)
  | add_procedure_prescribed (code : CodeInput) (date : DateTimeInput)
      (notes : Option String) (priority : Option String) (reason : Option CodeInput)
      (id : Option String)
  | add_procedure_history (code : CodeInput) (date : DateTimeInput) (notes : Option String)
      (status : String) (outcome : Option CodeInput) (id : Option String)
  | add_family_history (condition : CodeInput) (relation : RelationInput)
      (onset : Option OnsetInput) (status : String) (notes : Option String)
      (deceased : Option Bool) (id : Option String)
  | add_allergy_history (code : CodeInput) (category : Option String)
      (clinical_status : String) (criticality : Option String)
      (reaction : Option String) (notes : Option String) (id : Option String)
  | add_immunisation_history (vaccine : CodeInput) (occurrence_date : DateTimeInput)
      (status : String) (dose_number series_doses : Option Int) (notes : Option String)
      (id : Option String)
  | add_followup (date : DateTimeInput) (ref_doctor ref_specialty notes : Option String)
      (id : Option String)
  | add_advice (note : String) (category : Option String) (id : Option String)
  | add_notes (note : String) (category : Option String) (id : Option String)
deriving DecidableEq

/-- One `add_*` call: the builder method resolves the current subject and
    encounter references, delegates to the matching resource builder, and —
    only if that call returns — appends the record to the matching
    collection and returns it. An exception propagates before the append,
    leaving the state unchanged. -/
def stepAdd (localTz : String) (b : FHIRDocumentBuilder) (op : AddOp) (gid : String) :
    FHIRDocumentBuilder × Except String Resource :=
  let pref := _get_patient_reference b
  let eref := _get_encounter_reference b
  match op with
  | .add_symptom code onset offset severity status notes laterality finding_status id =>
    match SymptomBuilder.build localTz code onset offset severity status notes laterality
        finding_status pref eref id gid with
    | .ok r => ({ b with observations := b.observations ++ [r] }, .ok (.obs r))
    | .error e => (b, .error e)
  | .add_medical_condition_history code onset offset cs vs sev lat notes id =>
    match ConditionBuilder.build_history localTz code onset offset cs vs sev lat notes
        pref eref id gid with
    | .ok r => ({ b with conditions := b.conditions ++ [r] }, .ok (.cond r))
    | .error e => (b, .error e)
  | .add_medical_condition_encountered code onset offset cs vs sev lat notes id =>
    match ConditionBuilder.build_encountered localTz code onset offset cs vs sev lat notes
        pref eref id gid with
    | .ok r => ({ b with conditions := b.conditions ++ [r] }, .ok (.cond r))
    | .error e => (b, .error e)
  | .add_vital_finding code value unit date interp notes id =>
    match ObservationBuilder.build_vital localTz code value unit date (.enum .final)
        interp notes pref eref id gid with
    | .ok r => ({ b with observations := b.observations ++ [r] }, .ok (.obs r))
    | .error e => (b, .error e)
  | .add_lab_finding code value unit date interp notes id =>
    match ObservationBuilder.build_lab localTz code value unit date (.enum .final)
        interp notes pref eref id gid with
    | .ok r => ({ b with observations := b.observations ++ [r] }, .ok (.obs r))
    | .error e => (b, .error e)
  | .add_examination_finding code value date status notes id =>
    match ObservationBuilder.build_exam localTz code (value.map .vstr) date status notes
        pref eref id gid with
    | .ok r => ({ b with observations := b.observations ++ [r] }, .ok (.obs r))
    | .error e => (b, .error e)
  | .add_lifestyle_history code status_value notes date id =>
    match ObservationBuilder.build_social_history localTz code none status_value date
        (.enum .final) notes pref eref id gid with
    | .ok r => ({ b with observations := b.observations ++ [r] }, .ok (.obs r))
    | .error e => (b, .error e)
  | .add_medication_prescribed medication dosage status intent dv du qv qu refills notes
      reason authored_on id =>
    match MedicationBuilder.build_prescribed localTz medication dosage status intent dv du
        qv qu refills notes reason pref eref authored_on id gid with
    | .ok r => ({ b with medication_requests := b.medication_requests ++ [r] },
                .ok (.medReq r))
    | .error e => (b, .error e)
  | .add_medication_history medication dosage status es ee notes reason da id =>
    match MedicationBuilder.build_history localTz medication dosage status es ee notes
        reason pref none da id gid with
    | .ok r => ({ b with medication_statements := b.medication_statements ++ [r] },
                .ok (.medStmt r))
    | .error e => (b, .error e)
  | .add_test_prescribed code date notes priority reason id =>
    match ServiceRequestBuilder.build_lab_test localTz code date notes priority reason
        pref eref id gid with
    | .ok r => ({ b with service_requests := b.service_requests ++ [r] }, .ok (.servReq r))
    | .error e => (b, .error e)
  | .add_procedure_prescribed code date notes priority reason id =>
    match ServiceRequestBuilder.build_procedure localTz code date notes priority reason
        pref eref id gid with
    | .ok r => ({ b with service_requests := b.service_requests ++ [r] }, .ok (.servReq r))
    | .error e => (b, .error e)
  | .add_procedure_history code date notes status outcome id =>
    match ProcedureBuilder.build localTz code status date outcome notes pref eref id gid with
    | .ok r => ({ b with procedures := b.procedures ++ [r] }, .ok (.proc r))
    | .error e => (b, .error e)
  | .add_family_history condition relation onset status notes deceased id =>
    match FamilyMemberHistoryBuilder.build condition relation status onset deceased notes
        pref id gid with
    | .ok r => ({ b with family_member_histories := b.family_member_histories ++ [r] },
                .ok (.famHist r))
    | .error e => (b, .error e)
  | .add_allergy_history code category clinical_status criticality reaction notes id =>
    match AllergyBuilder.build code category clinical_status criticality reaction none
        notes pref eref id gid with
    | .ok r => ({ b with allergies := b.allergies ++ [r] }, .ok (.allergy r))
    | .error e => (b, .error e)
  | .add_immunisation_history vaccine occurrence_date status dn sd notes id =>
    match ImmunizationBuilder.build localTz vaccine occurrence_date status dn sd notes
        pref eref id gid with
    | .ok r => ({ b with immunizations := b.immunizations ++ [r] }, .ok (.immun r))
    | .error e => (b, .error e)
  | .add_followup date ref_doctor ref_specialty notes id =>
    match AppointmentBuilder.build_followup localTz date ref_doctor ref_specialty notes
        pref id gid with
    | .ok r => ({ b with appointments := b.appointments ++ [r] }, .ok (.appt r))
    | .error e => (b, .error e)
  | .add_advice note category id =>
    let r := AdviceBuilder.build note category pref eref id gid
    ({ b with care_plans := b.care_plans ++ [r] }, .ok (.carePlan r))
  | .add_notes note category id =>
    let r := ClinicalNoteBuilder.build note category pref eref id gid
    ({ b with communications := b.communications ++ [r] }, .ok (.comm r))

-- =========================================================================
-- Bundle materialization (`convert_to_fhir`)
-- =========================================================================

structure BundleEntry where
  fullUrl : String
  resource : Resource
deriving DecidableEq

structure Bundle where
  id : String
  type : String
  timestamp : String
  entry : Option (List BundleEntry)
deriving DecidableEq

/-- `FHIRDocumentBuilder._create_bundle_entry`. -/
def _create_bundle_entry (r : Resource) : BundleEntry :=
  { fullUrl := "urn:uuid:" ++ r.rid, resource := r }

/-- The `if self.patient:` entry of `convert_to_fhir`. -/
def patientEntries (b : FHIRDocumentBuilder) : List BundleEntry :=
  match b.patient with
  | some p => [_create_bundle_entry (.patient p)]
  | none => []

/-- The `if self.encounter:` entry of `convert_to_fhir`. -/
def encounterEntries (b : FHIRDocumentBuilder) : List BundleEntry :=
  match b.encounter with
  | some e => [_create_bundle_entry (.encounter e)]
  | none => []

/-- The entry list walked by `convert_to_fhir`, in its fixed source order:
    patient, encounter, then each clinical collection in declaration order,
    each preserving insertion order. -/
def convertEntries (b : FHIRDocumentBuilder) : List BundleEntry :=
  patientEntries b
  ++ encounterEntries b
  ++ b.observations.map (fun o => _create_bundle_entry (.obs o))
  ++ b.conditions.map (fun c => _create_bundle_entry (.cond c))
  ++ b.medication_requests.map (fun m => _create_bundle_entry (.medReq m))
  ++ b.medication_statements.map (fun m => _create_bundle_entry (.medStmt m))
  ++ b.service_requests.map (fun sr => _create_bundle_entry (.servReq sr))
  ++ b.procedures.map (fun p => _create_bundle_entry (.proc p))
  ++ b.family_member_histories.map (fun f => _create_bundle_entry (.famHist f))
  ++ b.allergies.map (fun a => _create_bundle_entry (.allergy a))
  ++ b.immunizations.map (fun i => _create_bundle_entry (.immun i))
  ++ b.appointments.map (fun a => _create_bundle_entry (.appt a))
  ++ b.care_plans.map (fun c => _create_bundle_entry (.carePlan c))
  ++ b.communications.map (fun c => _create_bundle_entry (.comm c))

/-- `FHIRDocumentBuilder.convert_to_fhir`. `now` models
    `datetime.utcnow().isoformat()`, read at the moment of the call. -/
def convert_to_fhir (b : FHIRDocumentBuilder) (now : String)
    (bundle_type : String := "collection") : Bundle :=
  let entries := convertEntries b
  { id := b.bundle_id
    type := bundle_type
    timestamp := now ++ "Z"
    entry := if entries.isEmpty then none else some entries }

end FHIRDocumentBuilder

-- =========================================================================
-- Serialization (key level): `model_dump(mode='json', exclude_none=True)`
-- emits a key exactly when the field is not `None`.
-- =========================================================================

/-- The key `k` when `present`, else nothing (an `exclude_none` field). -/
def keyIf (present : Bool) (k : String) : List String :=
  if present then [k] else []

theorem mem_keyIf {k k' : String} {b : Bool} : k ∈ keyIf b k' ↔ (b = true ∧ k = k') := by
  unfold keyIf
  split <;> simp_all

def Observation.serializedKeys (o : Observation) : List String :=
  ["resourceType", "id", "status", "category", "code"]
  ++ keyIf o.subject.isSome "subject"
  ++ keyIf o.encounter.isSome "encounter"
  ++ keyIf o.effectiveDateTime.isSome "effectiveDateTime"
  ++ keyIf o.effectivePeriod.isSome "effectivePeriod"
  ++ keyIf o.valueQuantity.isSome "valueQuantity"
  ++ keyIf o.valueString.isSome "valueString"
  ++ keyIf o.valueBoolean.isSome "valueBoolean"
  ++ keyIf o.valueCodeableConcept.isSome "valueCodeableConcept"
  ++ keyIf o.interpretation.isSome "interpretation"
  ++ keyIf o.component.isSome "component"
  ++ keyIf o.note.isSome "note"

def Condition.serializedKeys (c : Condition) : List String :=
  ["resourceType", "id", "clinicalStatus", "category", "code"]
  ++ keyIf c.verificationStatus.isSome "verificationStatus"
  ++ keyIf c.severity.isSome "severity"
  ++ keyIf c.bodySite.isSome "bodySite"
  ++ keyIf c.subject.isSome "subject"
  ++ keyIf c.encounter.isSome "encounter"
  ++ keyIf c.onsetDateTime.isSome "onsetDateTime"
  ++ keyIf c.onsetPeriod.isSome "onsetPeriod"
  ++ keyIf c.abatementDateTime.isSome "abatementDateTime"
  ++ keyIf c.note.isSome "note"

def MedicationRequest.serializedKeys (m : MedicationRequest) : List String :=
  ["resourceType", "id", "status", "intent", "medication"]
  ++ keyIf m.subject.isSome "subject"
  ++ keyIf m.encounter.isSome "encounter"
  ++ keyIf m.authoredOn.isSome "authoredOn"
  ++ keyIf m.reason.isSome "reason"
  ++ keyIf m.dosageInstruction.isSome "dosageInstruction"
  ++ keyIf m.dispenseRequest.isSome "dispenseRequest"
  ++ keyIf m.note.isSome "note"

def MedicationStatement.serializedKeys (m : MedicationStatement) : List String :=
  ["resourceType", "id", "status", "medication"]
  ++ keyIf m.subject.isSome "subject"
  ++ keyIf m.encounter.isSome "encounter"
  ++ keyIf m.effectiveDateTime.isSome "effectiveDateTime"
  ++ keyIf m.effectivePeriod.isSome "effectivePeriod"
  ++ keyIf m.dateAsserted.isSome "dateAsserted"
  ++ keyIf m.reason.isSome "reason"
  ++ keyIf m.dosage.isSome "dosage"
  ++ keyIf m.note.isSome "note"

def ServiceRequest.serializedKeys (sr : ServiceRequest) : List String :=
  ["resourceType", "id", "status", "intent", "category", "code"]
  ++ keyIf sr.priority.isSome "priority"
  ++ keyIf sr.subject.isSome "subject"
  ++ keyIf sr.encounter.isSome "encounter"
  ++ keyIf sr.occurrenceDateTime.isSome "occurrenceDateTime"
  ++ keyIf sr.reason.isSome "reason"
  ++ keyIf sr.note.isSome "note"

def Procedure.serializedKeys (p : Procedure) : List String :=
  ["resourceType", "id", "status", "code"]
  ++ keyIf p.subject.isSome "subject"
  ++ keyIf p.encounter.isSome "encounter"
  ++ keyIf p.occurrenceDateTime.isSome "occurrenceDateTime"
  ++ keyIf p.outcome.isSome "outcome"
  ++ keyIf p.note.isSome "note"

def FamilyMemberHistory.serializedKeys (f : FamilyMemberHistory) : List String :=
  ["resourceType", "id", "status", "relationship", "condition"]
  ++ keyIf f.patient.isSome "patient"
  ++ keyIf f.deceasedBoolean.isSome "deceasedBoolean"
  ++ keyIf f.note.isSome "note"

def AllergyIntolerance.serializedKeys (a : AllergyIntolerance) : List String :=
  ["resourceType", "id", "clinicalStatus", "code"]
  ++ keyIf a.category.isSome "category"
  ++ keyIf a.criticality.isSome "criticality"
  ++ keyIf a.patient.isSome "patient"
  ++ keyIf a.encounter.isSome "encounter"
  ++ keyIf a.reaction.isSome "reaction"
  ++ keyIf a.note.isSome "note"

def Immunization.serializedKeys (i : Immunization) : List String :=
  ["resourceType", "id", "status", "vaccineCode"]
  ++ keyIf i.patient.isSome "patient"
  ++ keyIf i.encounter.isSome "encounter"
  ++ keyIf i.occurrenceDateTime.isSome "occurrenceDateTime"
  ++ keyIf i.occurrenceString.isSome "occurrenceString"
  ++ keyIf i.protocolApplied.isSome "protocolApplied"
  ++ keyIf i.note.isSome "note"

def Appointment.serializedKeys (a : Appointment) : List String :=
  ["resourceType", "id", "status", "participant"]
  ++ keyIf a.serviceType.isSome "serviceType"
  ++ keyIf a.specialty.isSome "specialty"
  ++ keyIf a.start.isSome "start"
  ++ keyIf a.note.isSome "note"

def CarePlan.serializedKeys (c : CarePlan) : List String :=
  ["resourceType", "id", "status", "intent", "activity"]
  ++ keyIf c.description.isSome "description"
  ++ keyIf c.subject.isSome "subject"
  ++ keyIf c.encounter.isSome "encounter"
  ++ keyIf c.category.isSome "category"

def Communication.serializedKeys (c : Communication) : List String :=
  ["resourceType", "id", "status", "payload"]
  ++ keyIf c.category.isSome "category"
  ++ keyIf c.subject.isSome "subject"
  ++ keyIf c.encounter.isSome "encounter"

def Patient.serializedKeys (p : Patient) : List String :=
  ["resourceType", "id", "name"]
  ++ keyIf p.gender.isSome "gender"
  ++ keyIf p.birthDate.isSome "birthDate"
  ++ keyIf p.identifier.isSome "identifier"
  ++ keyIf p.address.isSome "address"
  ++ keyIf p.telecom.isSome "telecom"

def Encounter.serializedKeys (e : Encounter) : List String :=
  ["resourceType", "id", "status", "class"]
  ++ keyIf e.type.isSome "type"
  ++ keyIf e.serviceType.isSome "serviceType"
  ++ keyIf e.subject.isSome "subject"
  ++ keyIf e.actualPeriod.isSome "actualPeriod"
  ++ keyIf e.serviceProvider.isSome "serviceProvider"

/-- Keys present in the serialized (`exclude_none`) form of a record. -/
def Resource.serializedKeys : Resource → List String
  | .patient p => p.serializedKeys
  | .encounter e => e.serializedKeys
  | .obs o => o.serializedKeys
  | .cond c => c.serializedKeys
  | .medReq m => m.serializedKeys
  | .medStmt m => m.serializedKeys
  | .servReq sr => sr.serializedKeys
  | .proc p => p.serializedKeys
  | .famHist f => f.serializedKeys
  | .allergy a => a.serializedKeys
  | .immun i => i.serializedKeys
  | .appt a => a.serializedKeys
  | .carePlan c => c.serializedKeys
  | .comm c => c.serializedKeys

-- =========================================================================
-- Subject/encounter reference projections of a stored record
-- =========================================================================

/-- The reference object pointing at the subject, per record kind: the
    `subject` field, the `patient` field, or (for appointments) the actor of
    the leading participant, which `AppointmentBuilder.build` reserves for
    the patient when a patient reference is supplied. -/
def Resource.subjectRefObj : Resource → Option Reference
  | .patient _ => none
  | .encounter e => e.subject
  | .obs o => o.subject
  | .cond c => c.subject
  | .medReq m => m.subject
  | .medStmt m => m.subject
  | .servReq sr => sr.subject
  | .proc p => p.subject
  | .famHist f => f.patient
  | .allergy a => a.patient
  | .immun i => i.patient
  | .appt a => (a.participant.head?).map AppointmentParticipant.actor
  | .carePlan c => c.subject
  | .comm c => c.subject

/-- The subject reference string (`"Patient/<id>"`) of a record, if any. -/
def Resource.subjectRefStr (r : Resource) : Option String :=
  r.subjectRefObj.bind Reference.reference

/-- The encounter reference object of a record, if its kind has one. -/
def Resource.encounterRefObj : Resource → Option Reference
  | .patient _ => none
  | .encounter _ => none
  | .obs o => o.encounter
  | .cond c => c.encounter
  | .medReq m => m.encounter
  | .medStmt m => m.encounter
  | .servReq sr => sr.encounter
  | .proc p => p.encounter
  | .famHist _ => none
  | .allergy a => a.encounter
  | .immun i => i.encounter
  | .appt _ => none
  | .carePlan c => c.encounter
  | .comm c => c.encounter

/-- The encounter reference string (`"Encounter/<id>"`) of a record, if any. -/
def Resource.encounterRefStr (r : Resource) : Option String :=
  r.encounterRefObj.bind Reference.reference

-- =========================================================================
-- Helper lemmas: inversion of `Except` bind chains in the builders
-- =========================================================================

theorem bindOk {α β : Type} {x : Except String α} {f : α → Except String β} {r : β}
    (h : x >>= f = .ok r) : ∃ a, x = .ok a ∧ f a = .ok r := by
  cases x with
  | error e => exact absurd h (by simp [Bind.bind, Except.bind])
  | ok a => exact ⟨a, rfl, h⟩

theorem bindErr {α β : Type} {x : Except String α} {f : α → Except String β} {e : String}
    (h : x >>= f = .error e) : x = .error e ∨ ∃ a, x = .ok a ∧ f a = .error e := by
  cases x with
  | error e2 =>
      left
      have h2 : e2 = e := by simpa [Bind.bind, Except.bind] using h
      rw [h2]
  | ok a => exact .inr ⟨a, rfl, h⟩

theorem errBind {α β : Type} {e : String} {f : α → Except String β} :
    (Except.error e : Except String α) >>= f = .error e := rfl

theorem okBind {α β : Type} {a : α} {f : α → Except String β} :
    (Except.ok a : Except String α) >>= f = f a := rfl

/-- Whether an `Except` value is a success. -/
def exOk {α : Type} : Except String α → Bool
  | .ok _ => true
  | .error _ => false

theorem exOk_congr {α β : Type} {x : Except String α} {y : Except String β}
    (hxy : ∀ e, x = .error e → y = .error e)
    (hyx : ∀ e, y = .error e → x = .error e) : exOk x = exOk y := by
  cases hx : x with
  | error e =>
      rw [hxy e hx]
      rfl
  | ok a =>
    cases hy : y with
    | error e => exact absurd (hyx e hy) (by rw [hx]; exact fun hh => Except.noConfusion hh)
    | ok b => rfl

theorem symptom_build_ok {localTz : String} {code : CodeInput} {onset offset : DateTimeInput}
    {severity : Option (EnumOr Severity)} {status : EnumOr ObservationStatus}
    {notes : Option String} {laterality : Option (EnumOr Laterality)}
    {finding_status : Option (EnumOr FindingStatus)}
    {pref eref : Option Reference} {id : Option String} {gid : String} {r : Observation}
    (h : SymptomBuilder.build localTz code onset offset severity status notes laterality
      finding_status pref eref id gid = .ok r) :
    r.subject = pref ∧ r.encounter = eref := by
  unfold SymptomBuilder.build at h
  obtain ⟨cc, hcc, h⟩ := bindOk h
  obtain ⟨sc, hsc, h⟩ := bindOk h
  obtain ⟨lc, hlc, h⟩ := bindOk h
  obtain ⟨fc, hfc, h⟩ := bindOk h
  simp only [pure, Except.pure, Except.ok.injEq] at h
  subst h
  exact ⟨rfl, rfl⟩

theorem symptom_build_err {localTz : String} {code : CodeInput} {onset offset : DateTimeInput}
    {severity : Option (EnumOr Severity)} {status : EnumOr ObservationStatus}
    {notes : Option String} {laterality : Option (EnumOr Laterality)}
    {finding_status : Option (EnumOr FindingStatus)}
    {p1 e1 p2 e2 : Option Reference} {id : Option String} {gid : String} {e : String}
    (h : SymptomBuilder.build localTz code onset offset severity status notes laterality
      finding_status p1 e1 id gid = .error e) :
    SymptomBuilder.build localTz code onset offset severity status notes laterality
      finding_status p2 e2 id gid = .error e := by
  unfold SymptomBuilder.build at h ⊢
  rcases bindErr h with hc | ⟨cc, hcc, h⟩
  · simp only [hc, errBind]
  rcases bindErr h with hs | ⟨sc, hsc, h⟩
  · simp only [hcc, okBind, hs, errBind]
  rcases bindErr h with hl | ⟨lc, hlc, h⟩
  · simp only [hcc, okBind, hsc, hl, errBind]
  rcases bindErr h with hf | ⟨fcv, hfc, h⟩
  · simp only [hcc, okBind, hsc, hlc, hf, errBind]
  · exact absurd h (by simp [pure, Except.pure])

theorem condition_build_ok {localTz : String} {code : CodeInput}
    {category : ConditionCategory} {onset offset : DateTimeInput}
    {cs : EnumOr ConditionClinicalStatus}
    {vs : Option (EnumOr ConditionVerificationStatus)}
    {severity : Option (EnumOr Severity)} {laterality : Option (EnumOr Laterality)}
    {body_site : Option CodeInput} {notes : Option String}
    {pref eref : Option Reference} {id : Option String} {gid : String} {r : Condition}
    (h : ConditionBuilder._build_condition localTz code category onset offset cs vs
      severity laterality body_site notes pref eref id gid = .ok r) :
    r.subject = pref ∧ r.encounter = eref := by
  unfold ConditionBuilder._build_condition at h
  obtain ⟨cc, hcc, h⟩ := bindOk h
  obtain ⟨sc, hsc, h⟩ := bindOk h
  obtain ⟨bs, hbs, h⟩ := bindOk h
  simp only [pure, Except.pure, Except.ok.injEq] at h
  subst h
  exact ⟨rfl, rfl⟩

theorem condition_build_err {localTz : String} {code : CodeInput}
    {category : ConditionCategory} {onset offset : DateTimeInput}
    {cs : EnumOr ConditionClinicalStatus}
    {vs : Option (EnumOr ConditionVerificationStatus)}
    {severity : Option (EnumOr Severity)} {laterality : Option (EnumOr Laterality)}
    {body_site : Option CodeInput} {notes : Option String}
    {p1 e1 p2 e2 : Option Reference} {id : Option String} {gid : String} {e : String}
    (h : ConditionBuilder._build_condition localTz code category onset offset cs vs
      severity laterality body_site notes p1 e1 id gid = .error e) :
    ConditionBuilder._build_condition localTz code category onset offset cs vs
      severity laterality body_site notes p2 e2 id gid = .error e := by
  unfold ConditionBuilder._build_condition at h ⊢
  rcases bindErr h with hc | ⟨cc, hcc, h⟩
  · simp only [hc, errBind]
  rcases bindErr h with hs | ⟨sc, hsc, h⟩
  · simp only [hcc, okBind, hs, errBind]
  rcases bindErr h with hb | ⟨bs, hbs, h⟩
  · simp only [hcc, okBind, hsc, hb, errBind]
  · exact absurd h (by simp [pure, Except.pure])

theorem observation_build_ok {localTz : String} {code : CodeInput}
    {category : String × String} {value : Option ObsValue} {unit : Option String}
    {date : DateTimeInput} {status : EnumOr ObservationStatus}
    {interpretation : Option (EnumOr Interpretation)} {notes : Option String}
    {pref eref : Option Reference} {id : Option String} {gid : String} {r : Observation}
    (h : ObservationBuilder._build_observation localTz code category value unit date
      status interpretation notes pref eref id gid = .ok r) :
    r.subject = pref ∧ r.encounter = eref := by
  unfold ObservationBuilder._build_observation at h
  obtain ⟨cc, hcc, h⟩ := bindOk h
  simp only [pure, Except.pure, Except.ok.injEq] at h
  subst h
  exact ⟨rfl, rfl⟩

theorem observation_build_err {localTz : String} {code : CodeInput}
    {category : String × String} {value : Option ObsValue} {unit : Option String}
    {date : DateTimeInput} {status : EnumOr ObservationStatus}
    {interpretation : Option (EnumOr Interpretation)} {notes : Option String}
    {p1 e1 p2 e2 : Option Reference} {id : Option String} {gid : String} {e : String}
    (h : ObservationBuilder._build_observation localTz code category value unit date
      status interpretation notes p1 e1 id gid = .error e) :
    ObservationBuilder._build_observation localTz code category value unit date
      status interpretation notes p2 e2 id gid = .error e := by
  unfold ObservationBuilder._build_observation at h ⊢
  rcases bindErr h with hc | ⟨cc, hcc, h⟩
  · simp only [hc, errBind]
  · exact absurd h (by simp [pure, Except.pure])

theorem social_build_ok {localTz : String} {code : CodeInput} {value : Option String}
    {status_value : Option String} {date : DateTimeInput}
    {status : EnumOr ObservationStatus} {notes : Option String}
    {pref eref : Option Reference} {id : Option String} {gid : String} {r : Observation}
    (h : ObservationBuilder.build_social_history localTz code value status_value date
      status notes pref eref id gid = .ok r) :
    r.subject = pref ∧ r.encounter = eref := by
  unfold ObservationBuilder.build_social_history at h
  exact observation_build_ok h

theorem social_build_err {localTz : String} {code : CodeInput} {value : Option String}
    {status_value : Option String} {date : DateTimeInput}
    {status : EnumOr ObservationStatus} {notes : Option String}
    {p1 e1 p2 e2 : Option Reference} {id : Option String} {gid : String} {e : String}
    (h : ObservationBuilder.build_social_history localTz code value status_value date
      status notes p1 e1 id gid = .error e) :
    ObservationBuilder.build_social_history localTz code value status_value date
      status notes p2 e2 id gid = .error e := by
  unfold ObservationBuilder.build_social_history at h ⊢
  exact observation_build_err h

theorem medreq_build_ok {localTz : String} {medication : CodeInput} {dosage : Option DosageArg}
    {status : EnumOr MedicationRequestStatus} {intent : EnumOr MedicationRequestIntent}
    {dv : Option Int} {du : Option String} {qv : Option Int} {qu : Option String}
    {refills : Option Int} {notes : Option String} {reason : Option CodeInput}
    {pref eref : Option Reference} {authored_on : DateTimeInput}
    {id : Option String} {gid : String} {r : MedicationRequest}
    (h : MedicationBuilder.build_prescribed localTz medication dosage status intent dv du
      qv qu refills notes reason pref eref authored_on id gid = .ok r) :
    r.subject = pref ∧ r.encounter = eref := by
  unfold MedicationBuilder.build_prescribed at h
  obtain ⟨cc, hcc, h⟩ := bindOk h
  obtain ⟨rv, hrv, h⟩ := bindOk h
  simp only [pure, Except.pure, Except.ok.injEq] at h
  subst h
  exact ⟨rfl, rfl⟩

theorem medreq_build_err {localTz : String} {medication : CodeInput} {dosage : Option DosageArg}
    {status : EnumOr MedicationRequestStatus} {intent : EnumOr MedicationRequestIntent}
    {dv : Option Int} {du : Option String} {qv : Option Int} {qu : Option String}
    {refills : Option Int} {notes : Option String} {reason : Option CodeInput}
    {p1 e1 p2 e2 : Option Reference} {authored_on : DateTimeInput}
    {id : Option String} {gid : String} {e : String}
    (h : MedicationBuilder.build_prescribed localTz medication dosage status intent dv du
      qv qu refills notes reason p1 e1 authored_on id gid = .error e) :
    MedicationBuilder.build_prescribed localTz medication dosage status intent dv du
      qv qu refills notes reason p2 e2 authored_on id gid = .error e := by
  unfold MedicationBuilder.build_prescribed at h ⊢
  rcases bindErr h with hc | ⟨cc, hcc, h⟩
  · simp only [hc, errBind]
  rcases bindErr h with hr | ⟨rv, hrv, h⟩
  · simp only [hcc, okBind, hr, errBind]
  · exact absurd h (by simp [pure, Except.pure])

theorem medstmt_build_ok {localTz : String} {medication : CodeInput} {dosage : Option DosageArg}
    {status : EnumOr MedicationStatementStatus} {es ee : DateTimeInput}
    {notes : Option String} {reason : Option CodeInput}
    {pref ctx : Option Reference} {da : DateTimeInput}
    {id : Option String} {gid : String} {r : MedicationStatement}
    (h : MedicationBuilder.build_history localTz medication dosage status es ee notes
      reason pref ctx da id gid = .ok r) :
    r.subject = pref ∧ r.encounter = ctx := by
  unfold MedicationBuilder.build_history at h
  obtain ⟨cc, hcc, h⟩ := bindOk h
  obtain ⟨rv, hrv, h⟩ := bindOk h
  simp only [pure, Except.pure, Except.ok.injEq] at h
  subst h
  exact ⟨rfl, rfl⟩

theorem medstmt_build_err {localTz : String} {medication : CodeInput}
    {dosage : Option DosageArg} {status : EnumOr MedicationStatementStatus}
    {es ee : DateTimeInput} {notes : Option String} {reason : Option CodeInput}
    {p1 c1 p2 c2 : Option Reference} {da : DateTimeInput}
    {id : Option String} {gid : String} {e : String}
    (h : MedicationBuilder.build_history localTz medication dosage status es ee notes
      reason p1 c1 da id gid = .error e) :
    MedicationBuilder.build_history localTz medication dosage status es ee notes
      reason p2 c2 da id gid = .error e := by
  unfold MedicationBuilder.build_history at h ⊢
  rcases bindErr h with hc | ⟨cc, hcc, h⟩
  · simp only [hc, errBind]
  rcases bindErr h with hr | ⟨rv, hrv, h⟩
  · simp only [hcc, okBind, hr, errBind]
  · exact absurd h (by simp [pure, Except.pure])

theorem servreq_build_ok {localTz : String} {code : CodeInput}
    {category : String × String × String} {status intent : String}
    {priority : Option String} {occurrence_date : DateTimeInput} {notes : Option String}
    {reason : Option CodeInput} {pref eref : Option Reference}
    {id : Option String} {gid : String} {r : ServiceRequest}
    (h : ServiceRequestBuilder._build_service_request localTz code category status intent
      priority occurrence_date notes reason pref eref id gid = .ok r) :
    r.subject = pref ∧ r.encounter = eref := by
  unfold ServiceRequestBuilder._build_service_request at h
  obtain ⟨cc, hcc, h⟩ := bindOk h
  obtain ⟨rv, hrv, h⟩ := bindOk h
  simp only [pure, Except.pure, Except.ok.injEq] at h
  subst h
  exact ⟨rfl, rfl⟩

theorem servreq_build_err {localTz : String} {code : CodeInput}
    {category : String × String × String} {status intent : String}
    {priority : Option String} {occurrence_date : DateTimeInput} {notes : Option String}
    {reason : Option CodeInput} {p1 e1 p2 e2 : Option Reference}
    {id : Option String} {gid : String} {e : String}
    (h : ServiceRequestBuilder._build_service_request localTz code category status intent
      priority occurrence_date notes reason p1 e1 id gid = .error e) :
    ServiceRequestBuilder._build_service_request localTz code category status intent
      priority occurrence_date notes reason p2 e2 id gid = .error e := by
  unfold ServiceRequestBuilder._build_service_request at h ⊢
  rcases bindErr h with hc | ⟨cc, hcc, h⟩
  · simp only [hc, errBind]
  rcases bindErr h with hr | ⟨rv, hrv, h⟩
  · simp only [hcc, okBind, hr, errBind]
  · exact absurd h (by simp [pure, Except.pure])

theorem procedure_build_ok {localTz : String} {code : CodeInput} {status : String}
    {performed_date : DateTimeInput} {outcome : Option CodeInput} {notes : Option String}
    {pref eref : Option Reference} {id : Option String} {gid : String} {r : Procedure}
    (h : ProcedureBuilder.build localTz code status performed_date outcome notes
      pref eref id gid = .ok r) :
    r.subject = pref ∧ r.encounter = eref := by
  unfold ProcedureBuilder.build at h
  obtain ⟨cc, hcc, h⟩ := bindOk h
  obtain ⟨oc, hoc, h⟩ := bindOk h
  simp only [pure, Except.pure, Except.ok.injEq] at h
  subst h
  exact ⟨rfl, rfl⟩

theorem procedure_build_err {localTz : String} {code : CodeInput} {status : String}
    {performed_date : DateTimeInput} {outcome : Option CodeInput} {notes : Option String}
    {p1 e1 p2 e2 : Option Reference} {id : Option String} {gid : String} {e : String}
    (h : ProcedureBuilder.build localTz code status performed_date outcome notes
      p1 e1 id gid = .error e) :
    ProcedureBuilder.build localTz code status performed_date outcome notes
      p2 e2 id gid = .error e := by
  unfold ProcedureBuilder.build at h ⊢
  rcases bindErr h with hc | ⟨cc, hcc, h⟩
  · simp only [hc, errBind]
  rcases bindErr h with ho | ⟨oc, hoc, h⟩
  · simp only [hcc, okBind, ho, errBind]
  · exact absurd h (by simp [pure, Except.pure])

theorem famhist_build_ok {condition : CodeInput} {relation : RelationInput}
    {status : String} {onset : Option OnsetInput} {deceased : Option Bool}
    {notes : Option String} {pref : Option Reference} {id : Option String}
    {gid : String} {r : FamilyMemberHistory}
    (h : FamilyMemberHistoryBuilder.build condition relation status onset deceased notes
      pref id gid = .ok r) : r.patient = pref := by
  unfold FamilyMemberHistoryBuilder.build at h
  obtain ⟨cc, hcc, h⟩ := bindOk h
  simp only [pure, Except.pure, Except.ok.injEq] at h
  subst h
  rfl

theorem famhist_build_err {condition : CodeInput} {relation : RelationInput}
    {status : String} {onset : Option OnsetInput} {deceased : Option Bool}
    {notes : Option String} {p1 p2 : Option Reference} {id : Option String}
    {gid : String} {e : String}
    (h : FamilyMemberHistoryBuilder.build condition relation status onset deceased notes
      p1 id gid = .error e) :
    FamilyMemberHistoryBuilder.build condition relation status onset deceased notes
      p2 id gid = .error e := by
  unfold FamilyMemberHistoryBuilder.build at h ⊢
  rcases bindErr h with hc | ⟨cc, hcc, h⟩
  · simp only [hc, errBind]
  · exact absurd h (by simp [pure, Except.pure])

theorem allergy_build_ok {code : CodeInput} {category : Option String}
    {clinical_status : String} {criticality : Option String}
    {rm rs : Option String} {notes : Option String}
    {pref eref : Option Reference} {id : Option String} {gid : String}
    {r : AllergyIntolerance}
    (h : AllergyBuilder.build code category clinical_status criticality rm rs notes
      pref eref id gid = .ok r) :
    r.patient = pref ∧ r.encounter = eref := by
  unfold AllergyBuilder.build at h
  obtain ⟨cc, hcc, h⟩ := bindOk h
  simp only [pure, Except.pure, Except.ok.injEq] at h
  subst h
  exact ⟨rfl, rfl⟩

theorem allergy_build_err {code : CodeInput} {category : Option String}
    {clinical_status : String} {criticality : Option String}
    {rm rs : Option String} {notes : Option String}
    {p1 e1 p2 e2 : Option Reference} {id : Option String} {gid : String} {e : String}
    (h : AllergyBuilder.build code category clinical_status criticality rm rs notes
      p1 e1 id gid = .error e) :
    AllergyBuilder.build code category clinical_status criticality rm rs notes
      p2 e2 id gid = .error e := by
  unfold AllergyBuilder.build at h ⊢
  rcases bindErr h with hc | ⟨cc, hcc, h⟩
  · simp only [hc, errBind]
  · exact absurd h (by simp [pure, Except.pure])

theorem immun_build_ok {localTz : String} {vaccine : CodeInput}
    {occurrence_date : DateTimeInput} {status : String} {dn sd : Option Int}
    {notes : Option String} {pref eref : Option Reference} {id : Option String}
    {gid : String} {r : Immunization}
    (h : ImmunizationBuilder.build localTz vaccine occurrence_date status dn sd notes
      pref eref id gid = .ok r) :
    r.patient = pref ∧ r.encounter = eref := by
  unfold ImmunizationBuilder.build at h
  obtain ⟨cc, hcc, h⟩ := bindOk h
  simp only [pure, Except.pure, Except.ok.injEq] at h
  subst h
  exact ⟨rfl, rfl⟩

theorem immun_build_err {localTz : String} {vaccine : CodeInput}
    {occurrence_date : DateTimeInput} {status : String} {dn sd : Option Int}
    {notes : Option String} {p1 e1 p2 e2 : Option Reference} {id : Option String}
    {gid : String} {e : String}
    (h : ImmunizationBuilder.build localTz vaccine occurrence_date status dn sd notes
      p1 e1 id gid = .error e) :
    ImmunizationBuilder.build localTz vaccine occurrence_date status dn sd notes
      p2 e2 id gid = .error e := by
  unfold ImmunizationBuilder.build at h ⊢
  rcases bindErr h with hc | ⟨cc, hcc, h⟩
  · simp only [hc, errBind]
  · exact absurd h (by simp [pure, Except.pure])

theorem appointment_build_ok {localTz : String} {start : DateTimeInput} {status : String}
    {service_type specialty : Option CodeInput} {notes : Option String}
    {pref : Option Reference} {practitioner_name : Option String}
    {id : Option String} {gid : String} {r : Appointment}
    (h : AppointmentBuilder.build localTz start status service_type specialty notes
      pref practitioner_name id gid = .ok r) :
    r.participant = AppointmentBuilder.patientParticipant pref
      ++ AppointmentBuilder.practitionerParticipant practitioner_name := by
  unfold AppointmentBuilder.build at h
  obtain ⟨st, hst, h⟩ := bindOk h
  obtain ⟨sp, hsp, h⟩ := bindOk h
  simp only [pure, Except.pure, Except.ok.injEq] at h
  subst h
  rfl

theorem appointment_build_err {localTz : String} {start : DateTimeInput} {status : String}
    {service_type specialty : Option CodeInput} {notes : Option String}
    {p1 p2 : Option Reference} {practitioner_name : Option String}
    {id : Option String} {gid : String} {e : String}
    (h : AppointmentBuilder.build localTz start status service_type specialty notes
      p1 practitioner_name id gid = .error e) :
    AppointmentBuilder.build localTz start status service_type specialty notes
      p2 practitioner_name id gid = .error e := by
  unfold AppointmentBuilder.build at h ⊢
  rcases bindErr h with hc | ⟨st, hst, h⟩
  · simp only [hc, errBind]
  rcases bindErr h with hs | ⟨sp, hsp, h⟩
  · simp only [hst, okBind, hs, errBind]
  · exact absurd h (by simp [pure, Except.pure])

-- =========================================================================
-- Step-level helper lemmas about the document builder's add operations
-- =========================================================================

namespace FHIRDocumentBuilder

/-- Appending one clinical record to its collection (the write each `add_*`
    method performs after its builder call returns). -/
def appendResource (b : FHIRDocumentBuilder) : Resource → FHIRDocumentBuilder
  | .patient _ => b
  | .encounter _ => b
  | .obs o => { b with observations := b.observations ++ [o] }
  | .cond c => { b with conditions := b.conditions ++ [c] }
  | .medReq m => { b with medication_requests := b.medication_requests ++ [m] }
  | .medStmt m => { b with medication_statements := b.medication_statements ++ [m] }
  | .servReq sr => { b with service_requests := b.service_requests ++ [sr] }
  | .proc p => { b with procedures := b.procedures ++ [p] }
  | .famHist f => { b with family_member_histories := b.family_member_histories ++ [f] }
  | .allergy a => { b with allergies := b.allergies ++ [a] }
  | .immun i => { b with immunizations := b.immunizations ++ [i] }
  | .appt a => { b with appointments := b.appointments ++ [a] }
  | .carePlan c => { b with care_plans := b.care_plans ++ [c] }
  | .comm c => { b with communications := b.communications ++ [c] }

/-- The subject/encounter wiring an add operation performs, per record kind.
    The patient/encounter kinds are never produced by an add operation. -/
def refsFrom (pref eref : Option Reference) : Resource → Prop
  | .patient _ => False
  | .encounter _ => False
  | .obs o => o.subject = pref ∧ o.encounter = eref
  | .cond c => c.subject = pref ∧ c.encounter = eref
  | .medReq m => m.subject = pref ∧ m.encounter = eref
  | .medStmt m => m.subject = pref ∧ m.encounter = none
  | .servReq sr => sr.subject = pref ∧ sr.encounter = eref
  | .proc p => p.subject = pref ∧ p.encounter = eref
  | .famHist f => f.patient = pref
  | .allergy a => a.patient = pref ∧ a.encounter = eref
  | .immun i => i.patient = pref ∧ i.encounter = eref
  | .appt a => ∃ pn, a.participant =
      AppointmentBuilder.patientParticipant pref
        ++ AppointmentBuilder.practitionerParticipant pn
  | .carePlan c => c.subject = pref ∧ c.encounter = eref
  | .comm c => c.subject = pref ∧ c.encounter = eref

/-- A failing add operation leaves the accumulator untouched. -/
theorem stepAdd_err_frame {localTz : String} {b : FHIRDocumentBuilder} {op : AddOp}
    {gid : String} {e : String}
    (h : (stepAdd localTz b op gid).2 = .error e) : (stepAdd localTz b op gid).1 = b := by
  cases op
  case add_symptom code onset offset severity status notes laterality finding_status id =>
    simp only [stepAdd] at h ⊢
    cases hb : SymptomBuilder.build localTz code onset offset severity status notes laterality finding_status (_get_patient_reference b) (_get_encounter_reference b) id gid with
    | ok rec => rw [hb] at h; exact absurd h (by simp)
    | error e2 => rfl
  case add_medical_condition_history code onset offset cs vs sev lat notes id =>
    simp only [stepAdd] at h ⊢
    cases hb : ConditionBuilder.build_history localTz code onset offset cs vs sev lat notes (_get_patient_reference b) (_get_encounter_reference b) id gid with
    | ok rec => rw [hb] at h; exact absurd h (by simp)
    | error e2 => rfl
  case add_medical_condition_encountered code onset offset cs vs sev lat notes id =>
    simp only [stepAdd] at h ⊢
    cases hb : ConditionBuilder.build_encountered localTz code onset offset cs vs sev lat notes (_get_patient_reference b) (_get_encounter_reference b) id gid with
    | ok rec => rw [hb] at h; exact absurd h (by simp)
    | error e2 => rfl
  case add_vital_finding code value unit date interp notes id =>
    simp only [stepAdd] at h ⊢
    cases hb : ObservationBuilder.build_vital localTz code value unit date (.enum .final) interp notes (_get_patient_reference b) (_get_encounter_reference b) id gid with
    | ok rec => rw [hb] at h; exact absurd h (by simp)
    | error e2 => rfl
  case add_lab_finding code value unit date interp notes id =>
    simp only [stepAdd] at h ⊢
    cases hb : ObservationBuilder.build_lab localTz code value unit date (.enum .final) interp notes (_get_patient_reference b) (_get_encounter_reference b) id gid with
    | ok rec => rw [hb] at h; exact absurd h (by simp)
    | error e2 => rfl
  case add_examination_finding code value date status notes id =>
    simp only [stepAdd] at h ⊢
    cases hb : ObservationBuilder.build_exam localTz code (value.map .vstr) date status notes (_get_patient_reference b) (_get_encounter_reference b) id gid with
    | ok rec => rw [hb] at h; exact absurd h (by simp)
    | error e2 => rfl
  case add_lifestyle_history code status_value notes date id =>
    simp only [stepAdd] at h ⊢
    cases hb : ObservationBuilder.build_social_history localTz code none status_value date (.enum .final) notes (_get_patient_reference b) (_get_encounter_reference b) id gid with
    | ok rec => rw [hb] at h; exact absurd h (by simp)
    | error e2 => rfl
  case add_medication_prescribed medication dosage status intent dv du qv qu refills notes reason authored_on id =>
    simp only [stepAdd] at h ⊢
    cases hb : MedicationBuilder.build_prescribed localTz medication dosage status intent dv du qv qu refills notes reason (_get_patient_reference b) (_get_encounter_reference b) authored_on id gid with
    | ok rec => rw [hb] at h; exact absurd h (by simp)
    | error e2 => rfl
  case add_medication_history medication dosage status es ee notes reason da id =>
    simp only [stepAdd] at h ⊢
    cases hb : MedicationBuilder.build_history localTz medication dosage status es ee notes reason (_get_patient_reference b) none da id gid with
    | ok rec => rw [hb] at h; exact absurd h (by simp)
    | error e2 => rfl
  case add_test_prescribed code date notes priority reason id =>
    simp only [stepAdd] at h ⊢
    cases hb : ServiceRequestBuilder.build_lab_test localTz code date notes priority reason (_get_patient_reference b) (_get_encounter_reference b) id gid with
    | ok rec => rw [hb] at h; exact absurd h (by simp)
    | error e2 => rfl
  case add_procedure_prescribed code date notes priority reason id =>
    simp only [stepAdd] at h ⊢
    cases hb : ServiceRequestBuilder.build_procedure localTz code date notes priority reason (_get_patient_reference b) (_get_encounter_reference b) id gid with
    | ok rec => rw [hb] at h; exact absurd h (by simp)
    | error e2 => rfl
  case add_procedure_history code date notes status outcome id =>
    simp only [stepAdd] at h ⊢
    cases hb : ProcedureBuilder.build localTz code status date outcome notes (_get_patient_reference b) (_get_encounter_reference b) id gid with
    | ok rec => rw [hb] at h; exact absurd h (by simp)
    | error e2 => rfl
  case add_family_history condition relation onset status notes deceased id =>
    simp only [stepAdd] at h ⊢
    cases hb : FamilyMemberHistoryBuilder.build condition relation status onset deceased notes (_get_patient_reference b) id gid with
    | ok rec => rw [hb] at h; exact absurd h (by simp)
    | error e2 => rfl
  case add_allergy_history code category clinical_status criticality reaction notes id =>
    simp only [stepAdd] at h ⊢
    cases hb : AllergyBuilder.build code category clinical_status criticality reaction none notes (_get_patient_reference b) (_get_encounter_reference b) id gid with
    | ok rec => rw [hb] at h; exact absurd h (by simp)
    | error e2 => rfl
  case add_immunisation_history vaccine occurrence_date status dn sd notes id =>
    simp only [stepAdd] at h ⊢
    cases hb : ImmunizationBuilder.build localTz vaccine occurrence_date status dn sd notes (_get_patient_reference b) (_get_encounter_reference b) id gid with
    | ok rec => rw [hb] at h; exact absurd h (by simp)
    | error e2 => rfl
  case add_followup date ref_doctor ref_specialty notes id =>
    simp only [stepAdd] at h ⊢
    cases hb : AppointmentBuilder.build_followup localTz date ref_doctor ref_specialty notes (_get_patient_reference b) id gid with
    | ok rec => rw [hb] at h; exact absurd h (by simp)
    | error e2 => rfl
  case add_advice note category id => exact absurd h (by simp [stepAdd])
  case add_notes note category id => exact absurd h (by simp [stepAdd])

/-- A successful add operation appends exactly its record to the matching
    collection and changes nothing else. -/
theorem stepAdd_ok_append {localTz : String} {b : FHIRDocumentBuilder} {op : AddOp}
    {gid : String} {r : Resource}
    (h : (stepAdd localTz b op gid).2 = .ok r) :
    (stepAdd localTz b op gid).1 = appendResource b r := by
  cases op
  case add_symptom code onset offset severity status notes laterality finding_status id =>
    simp only [stepAdd] at h ⊢
    cases hb : SymptomBuilder.build localTz code onset offset severity status notes laterality finding_status (_get_patient_reference b) (_get_encounter_reference b) id gid with
    | error e2 => rw [hb] at h; exact absurd h (by simp)
    | ok rec =>
      rw [hb] at h
      simp only [Except.ok.injEq] at h
      subst h
      simp [appendResource]
  case add_medical_condition_history code onset offset cs vs sev lat notes id =>
    simp only [stepAdd] at h ⊢
    cases hb : ConditionBuilder.build_history localTz code onset offset cs vs sev lat notes (_get_patient_reference b) (_get_encounter_reference b) id gid with
    | error e2 => rw [hb] at h; exact absurd h (by simp)
    | ok rec =>
      rw [hb] at h
      simp only [Except.ok.injEq] at h
      subst h
      simp [appendResource]
  case add_medical_condition_encountered code onset offset cs vs sev lat notes id =>
    simp only [stepAdd] at h ⊢
    cases hb : ConditionBuilder.build_encountered localTz code onset offset cs vs sev lat notes (_get_patient_reference b) (_get_encounter_reference b) id gid with
    | error e2 => rw [hb] at h; exact absurd h (by simp)
    | ok rec =>
      rw [hb] at h
      simp only [Except.ok.injEq] at h
      subst h
      simp [appendResource]
  case add_vital_finding code value unit date interp notes id =>
    simp only [stepAdd] at h ⊢
    cases hb : ObservationBuilder.build_vital localTz code value unit date (.enum .final) interp notes (_get_patient_reference b) (_get_encounter_reference b) id gid with
    | error e2 => rw [hb] at h; exact absurd h (by simp)
    | ok rec =>
      rw [hb] at h
      simp only [Except.ok.injEq] at h
      subst h
      simp [appendResource]
  case add_lab_finding code value unit date interp notes id =>
    simp only [stepAdd] at h ⊢
    cases hb : ObservationBuilder.build_lab localTz code value unit date (.enum .final) interp notes (_get_patient_reference b) (_get_encounter_reference b) id gid with
    | error e2 => rw [hb] at h; exact absurd h (by simp)
    | ok rec =>
      rw [hb] at h
      simp only [Except.ok.injEq] at h
      subst h
      simp [appendResource]
  case add_examination_finding code value date status notes id =>
    simp only [stepAdd] at h ⊢
    cases hb : ObservationBuilder.build_exam localTz code (value.map .vstr) date status notes (_get_patient_reference b) (_get_encounter_reference b) id gid with
    | error e2 => rw [hb] at h; exact absurd h (by simp)
    | ok rec =>
      rw [hb] at h
      simp only [Except.ok.injEq] at h
      subst h
      simp [appendResource]
  case add_lifestyle_history code status_value notes date id =>
    simp only [stepAdd] at h ⊢
    cases hb : ObservationBuilder.build_social_history localTz code none status_value date (.enum .final) notes (_get_patient_reference b) (_get_encounter_reference b) id gid with
    | error e2 => rw [hb] at h; exact absurd h (by simp)
    | ok rec =>
      rw [hb] at h
      simp only [Except.ok.injEq] at h
      subst h
      simp [appendResource]
  case add_medication_prescribed medication dosage status intent dv du qv qu refills notes reason authored_on id =>
    simp only [stepAdd] at h ⊢
    cases hb : MedicationBuilder.build_prescribed localTz medication dosage status intent dv du qv qu refills notes reason (_get_patient_reference b) (_get_encounter_reference b) authored_on id gid with
    | error e2 => rw [hb] at h; exact absurd h (by simp)
    | ok rec =>
      rw [hb] at h
      simp only [Except.ok.injEq] at h
      subst h
      simp [appendResource]
  case add_medication_history medication dosage status es ee notes reason da id =>
    simp only [stepAdd] at h ⊢
    cases hb : MedicationBuilder.build_history localTz medication dosage status es ee notes reason (_get_patient_reference b) none da id gid with
    | error e2 => rw [hb] at h; exact absurd h (by simp)
    | ok rec =>
      rw [hb] at h
      simp only [Except.ok.injEq] at h
      subst h
      simp [appendResource]
  case add_test_prescribed code date notes priority reason id =>
    simp only [stepAdd] at h ⊢
    cases hb : ServiceRequestBuilder.build_lab_test localTz code date notes priority reason (_get_patient_reference b) (_get_encounter_reference b) id gid with
    | error e2 => rw [hb] at h; exact absurd h (by simp)
    | ok rec =>
      rw [hb] at h
      simp only [Except.ok.injEq] at h
      subst h
      simp [appendResource]
  case add_procedure_prescribed code date notes priority reason id =>
    simp only [stepAdd] at h ⊢
    cases hb : ServiceRequestBuilder.build_procedure localTz code date notes priority reason (_get_patient_reference b) (_get_encounter_reference b) id gid with
    | error e2 => rw [hb] at h; exact absurd h (by simp)
    | ok rec =>
      rw [hb] at h
      simp only [Except.ok.injEq] at h
      subst h
      simp [appendResource]
  case add_procedure_history code date notes status outcome id =>
    simp only [stepAdd] at h ⊢
    cases hb : ProcedureBuilder.build localTz code status date outcome notes (_get_patient_reference b) (_get_encounter_reference b) id gid with
    | error e2 => rw [hb] at h; exact absurd h (by simp)
    | ok rec =>
      rw [hb] at h
      simp only [Except.ok.injEq] at h
      subst h
      simp [appendResource]
  case add_family_history condition relation onset status notes deceased id =>
    simp only [stepAdd] at h ⊢
    cases hb : FamilyMemberHistoryBuilder.build condition relation status onset deceased notes (_get_patient_reference b) id gid with
    | error e2 => rw [hb] at h; exact absurd h (by simp)
    | ok rec =>
      rw [hb] at h
      simp only [Except.ok.injEq] at h
      subst h
      simp [appendResource]
  case add_allergy_history code category clinical_status criticality reaction notes id =>
    simp only [stepAdd] at h ⊢
    cases hb : AllergyBuilder.build code category clinical_status criticality reaction none notes (_get_patient_reference b) (_get_encounter_reference b) id gid with
    | error e2 => rw [hb] at h; exact absurd h (by simp)
    | ok rec =>
      rw [hb] at h
      simp only [Except.ok.injEq] at h
      subst h
      simp [appendResource]
  case add_immunisation_history vaccine occurrence_date status dn sd notes id =>
    simp only [stepAdd] at h ⊢
    cases hb : ImmunizationBuilder.build localTz vaccine occurrence_date status dn sd notes (_get_patient_reference b) (_get_encounter_reference b) id gid with
    | error e2 => rw [hb] at h; exact absurd h (by simp)
    | ok rec =>
      rw [hb] at h
      simp only [Except.ok.injEq] at h
      subst h
      simp [appendResource]
  case add_followup date ref_doctor ref_specialty notes id =>
    simp only [stepAdd] at h ⊢
    cases hb : AppointmentBuilder.build_followup localTz date ref_doctor ref_specialty notes (_get_patient_reference b) id gid with
    | error e2 => rw [hb] at h; exact absurd h (by simp)
    | ok rec =>
      rw [hb] at h
      simp only [Except.ok.injEq] at h
      subst h
      simp [appendResource]
  case add_advice note category id =>
    simp only [stepAdd] at h ⊢
    simp only [Except.ok.injEq] at h
    subst h
    simp [appendResource]
  case add_notes note category id =>
    simp only [stepAdd] at h ⊢
    simp only [Except.ok.injEq] at h
    subst h
    simp [appendResource]

/-- A successful add operation wires the current subject/encounter references
    into the produced record, per record kind. -/
theorem stepAdd_refs {localTz : String} {b : FHIRDocumentBuilder} {op : AddOp}
    {gid : String} {r : Resource}
    (h : (stepAdd localTz b op gid).2 = .ok r) :
    refsFrom (_get_patient_reference b) (_get_encounter_reference b) r := by
  cases op
  case add_symptom code onset offset severity status notes laterality finding_status id =>
    simp only [stepAdd] at h
    cases hb : SymptomBuilder.build localTz code onset offset severity status notes laterality finding_status (_get_patient_reference b) (_get_encounter_reference b) id gid with
    | error e2 => rw [hb] at h; exact absurd h (by simp)
    | ok rec =>
      rw [hb] at h
      simp only [Except.ok.injEq] at h
      subst h
      exact symptom_build_ok hb
  case add_medical_condition_history code onset offset cs vs sev lat notes id =>
    simp only [stepAdd] at h
    cases hb : ConditionBuilder.build_history localTz code onset offset cs vs sev lat notes (_get_patient_reference b) (_get_encounter_reference b) id gid with
    | error e2 => rw [hb] at h; exact absurd h (by simp)
    | ok rec =>
      rw [hb] at h
      simp only [Except.ok.injEq] at h
      subst h
      exact condition_build_ok hb
  case add_medical_condition_encountered code onset offset cs vs sev lat notes id =>
    simp only [stepAdd] at h
    cases hb : ConditionBuilder.build_encountered localTz code onset offset cs vs sev lat notes (_get_patient_reference b) (_get_encounter_reference b) id gid with
    | error e2 => rw [hb] at h; exact absurd h (by simp)
    | ok rec =>
      rw [hb] at h
      simp only [Except.ok.injEq] at h
      subst h
      exact condition_build_ok hb
  case add_vital_finding code value unit date interp notes id =>
    simp only [stepAdd] at h
    cases hb : ObservationBuilder.build_vital localTz code value unit date (.enum .final) interp notes (_get_patient_reference b) (_get_encounter_reference b) id gid with
    | error e2 => rw [hb] at h; exact absurd h (by simp)
    | ok rec =>
      rw [hb] at h
      simp only [Except.ok.injEq] at h
      subst h
      exact observation_build_ok hb
  case add_lab_finding code value unit date interp notes id =>
    simp only [stepAdd] at h
    cases hb : ObservationBuilder.build_lab localTz code value unit date (.enum .final) interp notes (_get_patient_reference b) (_get_encounter_reference b) id gid with
    | error e2 => rw [hb] at h; exact absurd h (by simp)
    | ok rec =>
      rw [hb] at h
      simp only [Except.ok.injEq] at h
      subst h
      exact observation_build_ok hb
  case add_examination_finding code value date status notes id =>
    simp only [stepAdd] at h
    cases hb : ObservationBuilder.build_exam localTz code (value.map .vstr) date status notes (_get_patient_reference b) (_get_encounter_reference b) id gid with
    | error e2 => rw [hb] at h; exact absurd h (by simp)
    | ok rec =>
      rw [hb] at h
      simp only [Except.ok.injEq] at h
      subst h
      exact observation_build_ok hb
  case add_lifestyle_history code status_value notes date id =>
    simp only [stepAdd] at h
    cases hb : ObservationBuilder.build_social_history localTz code none status_value date (.enum .final) notes (_get_patient_reference b) (_get_encounter_reference b) id gid with
    | error e2 => rw [hb] at h; exact absurd h (by simp)
    | ok rec =>
      rw [hb] at h
      simp only [Except.ok.injEq] at h
      subst h
      exact social_build_ok hb
  case add_medication_prescribed medication dosage status intent dv du qv qu refills notes reason authored_on id =>
    simp only [stepAdd] at h
    cases hb : MedicationBuilder.build_prescribed localTz medication dosage status intent dv du qv qu refills notes reason (_get_patient_reference b) (_get_encounter_reference b) authored_on id gid with
    | error e2 => rw [hb] at h; exact absurd h (by simp)
    | ok rec =>
      rw [hb] at h
      simp only [Except.ok.injEq] at h
      subst h
      exact medreq_build_ok hb
  case add_medication_history medication dosage status es ee notes reason da id =>
    simp only [stepAdd] at h
    cases hb : MedicationBuilder.build_history localTz medication dosage status es ee notes reason (_get_patient_reference b) none da id gid with
    | error e2 => rw [hb] at h; exact absurd h (by simp)
    | ok rec =>
      rw [hb] at h
      simp only [Except.ok.injEq] at h
      subst h
      exact medstmt_build_ok hb
  case add_test_prescribed code date notes priority reason id =>
    simp only [stepAdd] at h
    cases hb : ServiceRequestBuilder.build_lab_test localTz code date notes priority reason (_get_patient_reference b) (_get_encounter_reference b) id gid with
    | error e2 => rw [hb] at h; exact absurd h (by simp)
    | ok rec =>
      rw [hb] at h
      simp only [Except.ok.injEq] at h
      subst h
      exact servreq_build_ok hb
  case add_procedure_prescribed code date notes priority reason id =>
    simp only [stepAdd] at h
    cases hb : ServiceRequestBuilder.build_procedure localTz code date notes priority reason (_get_patient_reference b) (_get_encounter_reference b) id gid with
    | error e2 => rw [hb] at h; exact absurd h (by simp)
    | ok rec =>
      rw [hb] at h
      simp only [Except.ok.injEq] at h
      subst h
      exact servreq_build_ok hb
  case add_procedure_history code date notes status outcome id =>
    simp only [stepAdd] at h
    cases hb : ProcedureBuilder.build localTz code status date outcome notes (_get_patient_reference b) (_get_encounter_reference b) id gid with
    | error e2 => rw [hb] at h; exact absurd h (by simp)
    | ok rec =>
      rw [hb] at h
      simp only [Except.ok.injEq] at h
      subst h
      exact procedure_build_ok hb
  case add_family_history condition relation onset status notes deceased id =>
    simp only [stepAdd] at h
    cases hb : FamilyMemberHistoryBuilder.build condition relation status onset deceased notes (_get_patient_reference b) id gid with
    | error e2 => rw [hb] at h; exact absurd h (by simp)
    | ok rec =>
      rw [hb] at h
      simp only [Except.ok.injEq] at h
      subst h
      exact famhist_build_ok hb
  case add_allergy_history code category clinical_status criticality reaction notes id =>
    simp only [stepAdd] at h
    cases hb : AllergyBuilder.build code category clinical_status criticality reaction none notes (_get_patient_reference b) (_get_encounter_reference b) id gid with
    | error e2 => rw [hb] at h; exact absurd h (by simp)
    | ok rec =>
      rw [hb] at h
      simp only [Except.ok.injEq] at h
      subst h
      exact allergy_build_ok hb
  case add_immunisation_history vaccine occurrence_date status dn sd notes id =>
    simp only [stepAdd] at h
    cases hb : ImmunizationBuilder.build localTz vaccine occurrence_date status dn sd notes (_get_patient_reference b) (_get_encounter_reference b) id gid with
    | error e2 => rw [hb] at h; exact absurd h (by simp)
    | ok rec =>
      rw [hb] at h
      simp only [Except.ok.injEq] at h
      subst h
      exact immun_build_ok hb
  case add_followup date ref_doctor ref_specialty notes id =>
    simp only [stepAdd] at h
    cases hb : AppointmentBuilder.build_followup localTz date ref_doctor ref_specialty notes (_get_patient_reference b) id gid with
    | error e2 => rw [hb] at h; exact absurd h (by simp)
    | ok rec =>
      rw [hb] at h
      simp only [Except.ok.injEq] at h
      subst h
      exact ⟨ref_doctor, appointment_build_ok hb⟩
  case add_advice note category id =>
    simp only [stepAdd] at h
    simp only [Except.ok.injEq] at h
    subst h
    exact ⟨rfl, rfl⟩
  case add_notes note category id =>
    simp only [stepAdd] at h
    simp only [Except.ok.injEq] at h
    subst h
    exact ⟨rfl, rfl⟩

/-- Whether an add operation succeeds does not depend on the accumulator
    state at all (in particular not on a subject/encounter being set): the
    same operation on any two accumulators succeeds or fails alike. -/
theorem stepAdd_isOk_congr (localTz : String) (b1 b2 : FHIRDocumentBuilder)
    (op : AddOp) (gid : String) :
    exOk (stepAdd localTz b1 op gid).2 = exOk (stepAdd localTz b2 op gid).2 := by
  cases op
  case add_symptom code onset offset severity status notes laterality finding_status id =>
    simp only [stepAdd]
    cases h1 : SymptomBuilder.build localTz code onset offset severity status notes laterality finding_status (_get_patient_reference b1) (_get_encounter_reference b1) id gid with
    | ok r1 =>
      cases h2 : SymptomBuilder.build localTz code onset offset severity status notes laterality finding_status (_get_patient_reference b2) (_get_encounter_reference b2) id gid with
      | ok r2 => rfl
      | error e2 =>
        have h3 : SymptomBuilder.build localTz code onset offset severity status notes laterality finding_status (_get_patient_reference b1) (_get_encounter_reference b1) id gid = Except.error e2 := symptom_build_err h2
        rw [h3] at h1
        exact Except.noConfusion h1
    | error e1 =>
      have h3 : SymptomBuilder.build localTz code onset offset severity status notes laterality finding_status (_get_patient_reference b2) (_get_encounter_reference b2) id gid = Except.error e1 := symptom_build_err h1
      rw [h3]
  case add_medical_condition_history code onset offset cs vs sev lat notes id =>
    simp only [stepAdd]
    cases h1 : ConditionBuilder.build_history localTz code onset offset cs vs sev lat notes (_get_patient_reference b1) (_get_encounter_reference b1) id gid with
    | ok r1 =>
      cases h2 : ConditionBuilder.build_history localTz code onset offset cs vs sev lat notes (_get_patient_reference b2) (_get_encounter_reference b2) id gid with
      | ok r2 => rfl
      | error e2 =>
        have h3 : ConditionBuilder.build_history localTz code onset offset cs vs sev lat notes (_get_patient_reference b1) (_get_encounter_reference b1) id gid = Except.error e2 := condition_build_err h2
        rw [h3] at h1
        exact Except.noConfusion h1
    | error e1 =>
      have h3 : ConditionBuilder.build_history localTz code onset offset cs vs sev lat notes (_get_patient_reference b2) (_get_encounter_reference b2) id gid = Except.error e1 := condition_build_err h1
      rw [h3]
  case add_medical_condition_encountered code onset offset cs vs sev lat notes id =>
    simp only [stepAdd]
    cases h1 : ConditionBuilder.build_encountered localTz code onset offset cs vs sev lat notes (_get_patient_reference b1) (_get_encounter_reference b1) id gid with
    | ok r1 =>
      cases h2 : ConditionBuilder.build_encountered localTz code onset offset cs vs sev lat notes (_get_patient_reference b2) (_get_encounter_reference b2) id gid with
      | ok r2 => rfl
      | error e2 =>
        have h3 : ConditionBuilder.build_encountered localTz code onset offset cs vs sev lat notes (_get_patient_reference b1) (_get_encounter_reference b1) id gid = Except.error e2 := condition_build_err h2
        rw [h3] at h1
        exact Except.noConfusion h1
    | error e1 =>
      have h3 : ConditionBuilder.build_encountered localTz code onset offset cs vs sev lat notes (_get_patient_reference b2) (_get_encounter_reference b2) id gid = Except.error e1 := condition_build_err h1
      rw [h3]
  case add_vital_finding code value unit date interp notes id =>
    simp only [stepAdd]
    cases h1 : ObservationBuilder.build_vital localTz code value unit date (.enum .final) interp notes (_get_patient_reference b1) (_get_encounter_reference b1) id gid with
    | ok r1 =>
      cases h2 : ObservationBuilder.build_vital localTz code value unit date (.enum .final) interp notes (_get_patient_reference b2) (_get_encounter_reference b2) id gid with
      | ok r2 => rfl
      | error e2 =>
        have h3 : ObservationBuilder.build_vital localTz code value unit date (.enum .final) interp notes (_get_patient_reference b1) (_get_encounter_reference b1) id gid = Except.error e2 := observation_build_err h2
        rw [h3] at h1
        exact Except.noConfusion h1
    | error e1 =>
      have h3 : ObservationBuilder.build_vital localTz code value unit date (.enum .final) interp notes (_get_patient_reference b2) (_get_encounter_reference b2) id gid = Except.error e1 := observation_build_err h1
      rw [h3]
  case add_lab_finding code value unit date interp notes id =>
    simp only [stepAdd]
    cases h1 : ObservationBuilder.build_lab localTz code value unit date (.enum .final) interp notes (_get_patient_reference b1) (_get_encounter_reference b1) id gid with
    | ok r1 =>
      cases h2 : ObservationBuilder.build_lab localTz code value unit date (.enum .final) interp notes (_get_patient_reference b2) (_get_encounter_reference b2) id gid with
      | ok r2 => rfl
      | error e2 =>
        have h3 : ObservationBuilder.build_lab localTz code value unit date (.enum .final) interp notes (_get_patient_reference b1) (_get_encounter_reference b1) id gid = Except.error e2 := observation_build_err h2
        rw [h3] at h1
        exact Except.noConfusion h1
    | error e1 =>
      have h3 : ObservationBuilder.build_lab localTz code value unit date (.enum .final) interp notes (_get_patient_reference b2) (_get_encounter_reference b2) id gid = Except.error e1 := observation_build_err h1
      rw [h3]
  case add_examination_finding code value date status notes id =>
    simp only [stepAdd]
    cases h1 : ObservationBuilder.build_exam localTz code (value.map .vstr) date status notes (_get_patient_reference b1) (_get_encounter_reference b1) id gid with
    | ok r1 =>
      cases h2 : ObservationBuilder.build_exam localTz code (value.map .vstr) date status notes (_get_patient_reference b2) (_get_encounter_reference b2) id gid with
      | ok r2 => rfl
      | error e2 =>
        have h3 : ObservationBuilder.build_exam localTz code (value.map .vstr) date status notes (_get_patient_reference b1) (_get_encounter_reference b1) id gid = Except.error e2 := observation_build_err h2
        rw [h3] at h1
        exact Except.noConfusion h1
    | error e1 =>
      have h3 : ObservationBuilder.build_exam localTz code (value.map .vstr) date status notes (_get_patient_reference b2) (_get_encounter_reference b2) id gid = Except.error e1 := observation_build_err h1
      rw [h3]
  case add_lifestyle_history code status_value notes date id =>
    simp only [stepAdd]
    cases h1 : ObservationBuilder.build_social_history localTz code none status_value date (.enum .final) notes (_get_patient_reference b1) (_get_encounter_reference b1) id gid with
    | ok r1 =>
      cases h2 : ObservationBuilder.build_social_history localTz code none status_value date (.enum .final) notes (_get_patient_reference b2) (_get_encounter_reference b2) id gid with
      | ok r2 => rfl
      | error e2 =>
        have h3 : ObservationBuilder.build_social_history localTz code none status_value date (.enum .final) notes (_get_patient_reference b1) (_get_encounter_reference b1) id gid = Except.error e2 := social_build_err h2
        rw [h3] at h1
        exact Except.noConfusion h1
    | error e1 =>
      have h3 : ObservationBuilder.build_social_history localTz code none status_value date (.enum .final) notes (_get_patient_reference b2) (_get_encounter_reference b2) id gid = Except.error e1 := social_build_err h1
      rw [h3]
  case add_medication_prescribed medication dosage status intent dv du qv qu refills notes reason authored_on id =>
    simp only [stepAdd]
    cases h1 : MedicationBuilder.build_prescribed localTz medication dosage status intent dv du qv qu refills notes reason (_get_patient_reference b1) (_get_encounter_reference b1) authored_on id gid with
    | ok r1 =>
      cases h2 : MedicationBuilder.build_prescribed localTz medication dosage status intent dv du qv qu refills notes reason (_get_patient_reference b2) (_get_encounter_reference b2) authored_on id gid with
      | ok r2 => rfl
      | error e2 =>
        have h3 : MedicationBuilder.build_prescribed localTz medication dosage status intent dv du qv qu refills notes reason (_get_patient_reference b1) (_get_encounter_reference b1) authored_on id gid = Except.error e2 := medreq_build_err h2
        rw [h3] at h1
        exact Except.noConfusion h1
    | error e1 =>
      have h3 : MedicationBuilder.build_prescribed localTz medication dosage status intent dv du qv qu refills notes reason (_get_patient_reference b2) (_get_encounter_reference b2) authored_on id gid = Except.error e1 := medreq_build_err h1
      rw [h3]
  case add_medication_history medication dosage status es ee notes reason da id =>
    simp only [stepAdd]
    cases h1 : MedicationBuilder.build_history localTz medication dosage status es ee notes reason (_get_patient_reference b1) none da id gid with
    | ok r1 =>
      cases h2 : MedicationBuilder.build_history localTz medication dosage status es ee notes reason (_get_patient_reference b2) none da id gid with
      | ok r2 => rfl
      | error e2 =>
        have h3 : MedicationBuilder.build_history localTz medication dosage status es ee notes reason (_get_patient_reference b1) none da id gid = Except.error e2 := medstmt_build_err h2
        rw [h3] at h1
        exact Except.noConfusion h1
    | error e1 =>
      have h3 : MedicationBuilder.build_history localTz medication dosage status es ee notes reason (_get_patient_reference b2) none da id gid = Except.error e1 := medstmt_build_err h1
      rw [h3]
  case add_test_prescribed code date notes priority reason id =>
    simp only [stepAdd]
    cases h1 : ServiceRequestBuilder.build_lab_test localTz code date notes priority reason (_get_patient_reference b1) (_get_encounter_reference b1) id gid with
    | ok r1 =>
      cases h2 : ServiceRequestBuilder.build_lab_test localTz code date notes priority reason (_get_patient_reference b2) (_get_encounter_reference b2) id gid with
      | ok r2 => rfl
      | error e2 =>
        have h3 : ServiceRequestBuilder.build_lab_test localTz code date notes priority reason (_get_patient_reference b1) (_get_encounter_reference b1) id gid = Except.error e2 := servreq_build_err h2
        rw [h3] at h1
        exact Except.noConfusion h1
    | error e1 =>
      have h3 : ServiceRequestBuilder.build_lab_test localTz code date notes priority reason (_get_patient_reference b2) (_get_encounter_reference b2) id gid = Except.error e1 := servreq_build_err h1
      rw [h3]
  case add_procedure_prescribed code date notes priority reason id =>
    simp only [stepAdd]
    cases h1 : ServiceRequestBuilder.build_procedure localTz code date notes priority reason (_get_patient_reference b1) (_get_encounter_reference b1) id gid with
    | ok r1 =>
      cases h2 : ServiceRequestBuilder.build_procedure localTz code date notes priority reason (_get_patient_reference b2) (_get_encounter_reference b2) id gid with
      | ok r2 => rfl
      | error e2 =>
        have h3 : ServiceRequestBuilder.build_procedure localTz code date notes priority reason (_get_patient_reference b1) (_get_encounter_reference b1) id gid = Except.error e2 := servreq_build_err h2
        rw [h3] at h1
        exact Except.noConfusion h1
    | error e1 =>
      have h3 : ServiceRequestBuilder.build_procedure localTz code date notes priority reason (_get_patient_reference b2) (_get_encounter_reference b2) id gid = Except.error e1 := servreq_build_err h1
      rw [h3]
  case add_procedure_history code date notes status outcome id =>
    simp only [stepAdd]
    cases h1 : ProcedureBuilder.build localTz code status date outcome notes (_get_patient_reference b1) (_get_encounter_reference b1) id gid with
    | ok r1 =>
      cases h2 : ProcedureBuilder.build localTz code status date outcome notes (_get_patient_reference b2) (_get_encounter_reference b2) id gid with
      | ok r2 => rfl
      | error e2 =>
        have h3 : ProcedureBuilder.build localTz code status date outcome notes (_get_patient_reference b1) (_get_encounter_reference b1) id gid = Except.error e2 := procedure_build_err h2
        rw [h3] at h1
        exact Except.noConfusion h1
    | error e1 =>
      have h3 : ProcedureBuilder.build localTz code status date outcome notes (_get_patient_reference b2) (_get_encounter_reference b2) id gid = Except.error e1 := procedure_build_err h1
      rw [h3]
  case add_family_history condition relation onset status notes deceased id =>
    simp only [stepAdd]
    cases h1 : FamilyMemberHistoryBuilder.build condition relation status onset deceased notes (_get_patient_reference b1) id gid with
    | ok r1 =>
      cases h2 : FamilyMemberHistoryBuilder.build condition relation status onset deceased notes (_get_patient_reference b2) id gid with
      | ok r2 => rfl
      | error e2 =>
        have h3 : FamilyMemberHistoryBuilder.build condition relation status onset deceased notes (_get_patient_reference b1) id gid = Except.error e2 := famhist_build_err h2
        rw [h3] at h1
        exact Except.noConfusion h1
    | error e1 =>
      have h3 : FamilyMemberHistoryBuilder.build condition relation status onset deceased notes (_get_patient_reference b2) id gid = Except.error e1 := famhist_build_err h1
      rw [h3]
  case add_allergy_history code category clinical_status criticality reaction notes id =>
    simp only [stepAdd]
    cases h1 : AllergyBuilder.build code category clinical_status criticality reaction none notes (_get_patient_reference b1) (_get_encounter_reference b1) id gid with
    | ok r1 =>
      cases h2 : AllergyBuilder.build code category clinical_status criticality reaction none notes (_get_patient_reference b2) (_get_encounter_reference b2) id gid with
      | ok r2 => rfl
      | error e2 =>
        have h3 : AllergyBuilder.build code category clinical_status criticality reaction none notes (_get_patient_reference b1) (_get_encounter_reference b1) id gid = Except.error e2 := allergy_build_err h2
        rw [h3] at h1
        exact Except.noConfusion h1
    | error e1 =>
      have h3 : AllergyBuilder.build code category clinical_status criticality reaction none notes (_get_patient_reference b2) (_get_encounter_reference b2) id gid = Except.error e1 := allergy_build_err h1
      rw [h3]
  case add_immunisation_history vaccine occurrence_date status dn sd notes id =>
    simp only [stepAdd]
    cases h1 : ImmunizationBuilder.build localTz vaccine occurrence_date status dn sd notes (_get_patient_reference b1) (_get_encounter_reference b1) id gid with
    | ok r1 =>
      cases h2 : ImmunizationBuilder.build localTz vaccine occurrence_date status dn sd notes (_get_patient_reference b2) (_get_encounter_reference b2) id gid with
      | ok r2 => rfl
      | error e2 =>
        have h3 : ImmunizationBuilder.build localTz vaccine occurrence_date status dn sd notes (_get_patient_reference b1) (_get_encounter_reference b1) id gid = Except.error e2 := immun_build_err h2
        rw [h3] at h1
        exact Except.noConfusion h1
    | error e1 =>
      have h3 : ImmunizationBuilder.build localTz vaccine occurrence_date status dn sd notes (_get_patient_reference b2) (_get_encounter_reference b2) id gid = Except.error e1 := immun_build_err h1
      rw [h3]
  case add_followup date ref_doctor ref_specialty notes id =>
    simp only [stepAdd]
    cases h1 : AppointmentBuilder.build_followup localTz date ref_doctor ref_specialty notes (_get_patient_reference b1) id gid with
    | ok r1 =>
      cases h2 : AppointmentBuilder.build_followup localTz date ref_doctor ref_specialty notes (_get_patient_reference b2) id gid with
      | ok r2 => rfl
      | error e2 =>
        have h3 : AppointmentBuilder.build_followup localTz date ref_doctor ref_specialty notes (_get_patient_reference b1) id gid = Except.error e2 := appointment_build_err h2
        rw [h3] at h1
        exact Except.noConfusion h1
    | error e1 =>
      have h3 : AppointmentBuilder.build_followup localTz date ref_doctor ref_specialty notes (_get_patient_reference b2) id gid = Except.error e1 := appointment_build_err h1
      rw [h3]
  case add_advice note category id => rfl
  case add_notes note category id => rfl

end FHIRDocumentBuilder

-- =========================================================================
-- Concrete fixtures used by the claim theorems and witnesses
-- =========================================================================

open FHIRDocumentBuilder in
/-- A fresh builder, with explicit generated ids for reproducibility. -/
def demoB0 : FHIRDocumentBuilder := FHIRDocumentBuilder.new none "bundle-1"

def demoToday : Date := { year := 2025, month := 6, day := 15 }

def demoPatientArgs : FHIRDocumentBuilder.PatientArgs :=
  { name := .str "John Doe", age := some (.tuple 30 "years"), birth_date := .none,
    gender := some "male", identifiers := none, address := none, phone := none,
    email := none, id := some "pid-1" }

def demoB1 : FHIRDocumentBuilder :=
  (FHIRDocumentBuilder.stepAddPatient demoB0 demoToday demoPatientArgs "g1").1

def demoFallbackPatient : Patient :=
  { id := "", name := [], gender := none, birthDate := none, identifier := none,
    address := none, telecom := none }

def demoPatient : Patient :=
  (FHIRDocumentBuilder.stepAddPatient demoB0 demoToday demoPatientArgs "g1").2.toOption.getD
    demoFallbackPatient

def demoEncounterArgs : FHIRDocumentBuilder.EncounterArgs :=
  { encounter_class := .str "ambulatory", encounter_type := none,
    encounter_subtype := none, period_start := .none, period_end := .none,
    facility_name := none, department := none, status := "finished",
    id := some "enc-1" }

def demoB2 : FHIRDocumentBuilder :=
  (FHIRDocumentBuilder.stepAddEncounter "+05:30" demoB1 demoEncounterArgs "g2").1

def demoVitalOp : FHIRDocumentBuilder.AddOp :=
  .add_vital_finding (.str "Heart Rate") (some (.vnum 72)) (some "bpm") .none none none
    (some "obs-1")

def demoB3 : FHIRDocumentBuilder :=
  (FHIRDocumentBuilder.stepAdd "+05:30" demoB2 demoVitalOp "g3").1

def demoFallbackResource : Resource := Resource.patient demoFallbackPatient

def demoVitalRec : Resource :=
  (FHIRDocumentBuilder.stepAdd "+05:30" demoB2 demoVitalOp "g3").2.toOption.getD
    demoFallbackResource

def demoAdviceOp : FHIRDocumentBuilder.AddOp :=
  .add_advice "Drink plenty of water" none (some "cp-1")

def demoAdviceRec : Resource :=
  (FHIRDocumentBuilder.stepAdd "" demoB0 demoAdviceOp "g4").2.toOption.getD
    demoFallbackResource

-- =========================================================================
-- Claim theorems
-- =========================================================================

open FHIRDocumentBuilder

/-- C3: a second `add_patient` call replaces only the stored subject used for
    future reference resolution; the encounter, every clinical collection
    (and hence every previously created record and the subject reference
    embedded in it), and the bundle id are untouched. -/
theorem claim_C3 (b : FHIRDocumentBuilder) (today : Date)
    (args : FHIRDocumentBuilder.PatientArgs) (gid : String) :
    (stepAddPatient b today args gid).1.encounter = b.encounter ∧
    (stepAddPatient b today args gid).1.observations = b.observations ∧
    (stepAddPatient b today args gid).1.conditions = b.conditions ∧
    (stepAddPatient b today args gid).1.medication_requests = b.medication_requests ∧
    (stepAddPatient b today args gid).1.medication_statements = b.medication_statements ∧
    (stepAddPatient b today args gid).1.service_requests = b.service_requests ∧
    (stepAddPatient b today args gid).1.procedures = b.procedures ∧
    (stepAddPatient b today args gid).1.family_member_histories
      = b.family_member_histories ∧
    (stepAddPatient b today args gid).1.allergies = b.allergies ∧
    (stepAddPatient b today args gid).1.immunizations = b.immunizations ∧
    (stepAddPatient b today args gid).1.appointments = b.appointments ∧
    (stepAddPatient b today args gid).1.care_plans = b.care_plans ∧
    (stepAddPatient b today args gid).1.communications = b.communications ∧
    (stepAddPatient b today args gid).1.bundle_id = b.bundle_id ∧
    (stepAddPatient b today args gid).1.patient
      = (match (stepAddPatient b today args gid).2 with
         | .ok p => some p
         | .error _ => b.patient) := by
  unfold FHIRDocumentBuilder.stepAddPatient
  cases hb : PatientBuilder.build today args.name args.age args.birth_date args.gender
      args.identifiers args.address args.phone args.email args.id gid with
  | ok p => simp
  | error e => simp

/-- C4: materializing twice with no intervening mutation yields the same id,
    type, and entry list; the timestamp is the only call-time-dependent
    field (`utcnow().isoformat() + "Z"` at the moment of the call). -/
theorem claim_C4 (b : FHIRDocumentBuilder) (t1 t2 bt : String) :
    (convert_to_fhir b t1 bt).entry = (convert_to_fhir b t2 bt).entry ∧
    (convert_to_fhir b t1 bt).id = (convert_to_fhir b t2 bt).id ∧
    (convert_to_fhir b t1 bt).type = (convert_to_fhir b t2 bt).type ∧
    (convert_to_fhir b t1 bt).timestamp = t1 ++ "Z" := by
  exact ⟨rfl, rfl, rfl, rfl⟩

/-- C7 counterexample: the plain-string form and the 3-tuple form of the same
    coded concept do not normalize to structurally equal values — the string
    form produces a text-only concept with no codings. -/
theorem claim_C7_counterexample :
    ¬ parse_code_input (.str "Headache")
      = parse_code_input (.tuple3 "25064002" "http://snomed.info/sct" "Headache") := by
  simp [parse_code_input, create_codeable_concept, create_coding, pyOrStr, pyOrStrD,
    optStrTruthy, strTruthy]

/-- C7 (amended): the 3-tuple `(code, system, display)` and the 2-tuple
    `(display, (code, system))` forms produce structurally equal
    `CodeableConcept` values for all inputs; the plain-string form instead
    produces a text-only concept with no codings. -/
theorem claim_C7 (code system display : String) :
    parse_code_input (.tuple3 code system display)
      = parse_code_input (.tuple2 display code system) ∧
    parse_code_input (.str display) = .ok { text := some display, coding := none } :=
  ⟨rfl, rfl⟩

/-- C9 counterexample: a 4-tuple with an explicit empty `code` does not set
    the code field to that explicit value — the empty string is falsy, so the
    `code or unit` default kicks in. -/
theorem claim_C9_counterexample :
    parse_quantity_input (.tuple4 5 "mg" "" "http://example.org/sys")
      = .ok { value := 5, unit := some "mg", code := some "mg",
              system := some "http://example.org/sys" } ∧
    ¬ parse_quantity_input (.tuple4 5 "mg" "" "http://example.org/sys")
      = .ok { value := 5, unit := some "mg", code := some "",
              system := some "http://example.org/sys" } := by
  constructor
  · rfl
  · simp [parse_quantity_input, create_quantity, pyOrStrD, strTruthy]

/-- C9 (amended): the 2-tuple form defaults code to the unit and system to
    UCUM; the 4-tuple form sets code and system explicitly when they are
    non-empty and falls back to the same defaults when they are empty; an
    already-canonical `Quantity` is returned unchanged; any other shape
    fails with a `ValueError`. -/
theorem claim_C9 (v : Int) (u c sys' : String) (q : Quantity) :
    parse_quantity_input (.tuple2 v u)
      = .ok { value := v, unit := some u, code := some u, system := some UCUM } ∧
    parse_quantity_input (.tuple4 v u c sys')
      = .ok { value := v, unit := some u,
              code := some (if c = "" then u else c),
              system := some (if sys' = "" then UCUM else sys') } ∧
    parse_quantity_input (.qty q) = .ok q ∧
    parse_quantity_input .otherShape = .error "ValueError: invalid quantity input format"
    := by
  refine ⟨rfl, ?_, rfl, rfl⟩
  by_cases hc : c = "" <;> by_cases hs : sys' = "" <;>
    simp [parse_quantity_input, create_quantity, pyOrStrD, strTruthy, hc, hs]

/-- C10: `format_datetime` is total — `None` maps to `None`, strings pass
    through verbatim, a naive datetime gets the local utcoffset attached and
    is rendered in ISO form, an aware datetime and a date are rendered in ISO
    form, and any other value falls back to its `str()` form — so no temporal
    argument can raise, unlike the code and quantity normalizers, which do
    have failing input shapes. -/
theorem claim_C10 (localTz s os : String) (pdt : PyDateTime) (d : Date) :
    format_datetime localTz .none = none ∧
    format_datetime localTz (.str s) = some s ∧
    format_datetime localTz (.datetime pdt)
      = some (if pdt.tz.isNone then (PyDateTime.astimezone localTz pdt).iso
              else pdt.iso) ∧
    format_datetime localTz (.date d) = some d.iso ∧
    format_datetime localTz (.other os) = some os ∧
    exOk (parse_code_input .invalid) = false ∧
    exOk (parse_quantity_input .otherShape) = false := by
  refine ⟨rfl, rfl, ?_, rfl, rfl, rfl, rfl⟩
  by_cases h : pdt.tz.isNone <;> simp [format_datetime, h]

/-- C8: every add operation is all-or-nothing — the state after the call is
    the old state when the builder call raised, and the old state with
    exactly the returned record appended to its kind's collection when it
    succeeded. -/
theorem claim_C8 (localTz : String) (b : FHIRDocumentBuilder) (op : AddOp)
    (gid : String) :
    (stepAdd localTz b op gid).1
      = (match (stepAdd localTz b op gid).2 with
         | .ok r => appendResource b r
         | .error _ => b) := by
  cases hres : (stepAdd localTz b op gid).2 with
  | ok r => exact stepAdd_ok_append hres
  | error e => exact stepAdd_err_frame hres

theorem appendResource_patient (b : FHIRDocumentBuilder) (r : Resource) :
    (appendResource b r).patient = b.patient := by
  cases r <;> rfl

/-- C2: once a subject with id `I` is stored, every record produced by a
    subsequent add operation carries the subject reference string
    `"Patient/I"`, and the operation leaves the stored subject unchanged
    (so this persists until the next `add_patient` call). -/
theorem claim_C2 (localTz gid : String) (b : FHIRDocumentBuilder) (p : Patient)
    (op : AddOp) (r : Resource) (hp : b.patient = some p) (hid : p.id ≠ "")
    (h : (stepAdd localTz b op gid).2 = .ok r) :
    r.subjectRefStr = some ("Patient/" ++ p.id) ∧
    (stepAdd localTz b op gid).1.patient = some p := by
  refine ⟨?_, by rw [stepAdd_ok_append h, appendResource_patient, hp]⟩
  have hpref : _get_patient_reference b
      = some { reference := some ("Patient/" ++ p.id),
               display := _get_patient_display b } := by
    simp [FHIRDocumentBuilder._get_patient_reference, hp, create_reference,
      optStrTruthy, strTruthy, hid]
  have hrefs := stepAdd_refs h
  rw [hpref] at hrefs
  cases r with
  | patient p2 => exact hrefs.elim
  | encounter e2 => exact hrefs.elim
  | obs o => simp [Resource.subjectRefStr, Resource.subjectRefObj, hrefs.1]
  | cond c => simp [Resource.subjectRefStr, Resource.subjectRefObj, hrefs.1]
  | medReq m => simp [Resource.subjectRefStr, Resource.subjectRefObj, hrefs.1]
  | medStmt m => simp [Resource.subjectRefStr, Resource.subjectRefObj, hrefs.1]
  | servReq sr => simp [Resource.subjectRefStr, Resource.subjectRefObj, hrefs.1]
  | proc pr => simp [Resource.subjectRefStr, Resource.subjectRefObj, hrefs.1]
  | famHist f =>
    simp only [refsFrom] at hrefs
    simp [Resource.subjectRefStr, Resource.subjectRefObj, hrefs]
  | allergy a => simp [Resource.subjectRefStr, Resource.subjectRefObj, hrefs.1]
  | immun i => simp [Resource.subjectRefStr, Resource.subjectRefObj, hrefs.1]
  | appt a =>
    obtain ⟨pn, hpart⟩ := hrefs
    simp [Resource.subjectRefStr, Resource.subjectRefObj, hpart,
      AppointmentBuilder.patientParticipant]
  | carePlan c => simp [Resource.subjectRefStr, Resource.subjectRefObj, hrefs.1]
  | comm c => simp [Resource.subjectRefStr, Resource.subjectRefObj, hrefs.1]

/-- C2 witness: in the concrete scenario the vital-sign record added after
    `add_patient(id="pid-1")` carries the subject reference `"Patient/pid-1"`. -/
theorem claim_C2_witness :
    demoB2.patient = some demoPatient ∧ demoPatient.id ≠ "" ∧
    demoVitalRec.subjectRefStr = some ("Patient/" ++ demoPatient.id) := by
  refine ⟨rfl, by decide, ?_⟩
  exact (claim_C2 "+05:30" "g3" demoB2 demoPatient demoVitalOp demoVitalRec rfl
    (by decide) rfl).1

/-- C6: an add operation's success never depends on the accumulator state —
    in particular it cannot fail because no subject/encounter was set — and
    whenever the subject (resp. encounter) has not been set, the produced
    record has no subject/patient (resp. encounter) key in its serialized
    (`exclude_none`) form and no such reference string. -/
theorem claim_C6 (localTz gid : String) (b b2 : FHIRDocumentBuilder) (op : AddOp)
    (r : Resource) :
    exOk (stepAdd localTz b op gid).2 = exOk (stepAdd localTz b2 op gid).2 ∧
    (b.patient = none → (stepAdd localTz b op gid).2 = .ok r →
      "subject" ∉ r.serializedKeys ∧ "patient" ∉ r.serializedKeys ∧
      r.subjectRefStr = none) ∧
    (b.encounter = none → (stepAdd localTz b op gid).2 = .ok r →
      "encounter" ∉ r.serializedKeys ∧ r.encounterRefStr = none) := by
  refine ⟨stepAdd_isOk_congr localTz b b2 op gid, fun hp h => ?_, fun he h => ?_⟩
  · have hpref : _get_patient_reference b = none := by
      simp [FHIRDocumentBuilder._get_patient_reference, hp]
    have hrefs := stepAdd_refs h
    rw [hpref] at hrefs
    cases r with
    | patient p2 => exact hrefs.elim
    | encounter e2 => exact hrefs.elim
    | obs o =>
      simp only [refsFrom] at hrefs
      simp [Resource.serializedKeys, Observation.serializedKeys, mem_keyIf,
        Resource.subjectRefStr, Resource.subjectRefObj,
        Resource.encounterRefStr, Resource.encounterRefObj, hrefs.1]
    | cond c =>
      simp only [refsFrom] at hrefs
      simp [Resource.serializedKeys, Condition.serializedKeys, mem_keyIf,
        Resource.subjectRefStr, Resource.subjectRefObj,
        Resource.encounterRefStr, Resource.encounterRefObj, hrefs.1]
    | medReq m =>
      simp only [refsFrom] at hrefs
      simp [Resource.serializedKeys, MedicationRequest.serializedKeys, mem_keyIf,
        Resource.subjectRefStr, Resource.subjectRefObj,
        Resource.encounterRefStr, Resource.encounterRefObj, hrefs.1]
    | medStmt m =>
      simp only [refsFrom] at hrefs
      simp [Resource.serializedKeys, MedicationStatement.serializedKeys, mem_keyIf,
        Resource.subjectRefStr, Resource.subjectRefObj,
        Resource.encounterRefStr, Resource.encounterRefObj, hrefs.1]
    | servReq sr =>
      simp only [refsFrom] at hrefs
      simp [Resource.serializedKeys, ServiceRequest.serializedKeys, mem_keyIf,
        Resource.subjectRefStr, Resource.subjectRefObj,
        Resource.encounterRefStr, Resource.encounterRefObj, hrefs.1]
    | proc pr =>
      simp only [refsFrom] at hrefs
      simp [Resource.serializedKeys, Procedure.serializedKeys, mem_keyIf,
        Resource.subjectRefStr, Resource.subjectRefObj,
        Resource.encounterRefStr, Resource.encounterRefObj, hrefs.1]
    | famHist f =>
      simp only [refsFrom] at hrefs
      simp [Resource.serializedKeys, FamilyMemberHistory.serializedKeys, mem_keyIf,
        Resource.subjectRefStr, Resource.subjectRefObj,
        Resource.encounterRefStr, Resource.encounterRefObj, hrefs]
    | allergy a =>
      simp only [refsFrom] at hrefs
      simp [Resource.serializedKeys, AllergyIntolerance.serializedKeys, mem_keyIf,
        Resource.subjectRefStr, Resource.subjectRefObj,
        Resource.encounterRefStr, Resource.encounterRefObj, hrefs.1]
    | immun i =>
      simp only [refsFrom] at hrefs
      simp [Resource.serializedKeys, Immunization.serializedKeys, mem_keyIf,
        Resource.subjectRefStr, Resource.subjectRefObj,
        Resource.encounterRefStr, Resource.encounterRefObj, hrefs.1]
    | appt a =>
      obtain ⟨pn, hpart⟩ := hrefs
      by_cases hd : optStrTruthy pn <;>
        simp [Resource.serializedKeys, Appointment.serializedKeys, mem_keyIf,
          Resource.subjectRefStr, Resource.subjectRefObj, hpart,
          AppointmentBuilder.patientParticipant,
          AppointmentBuilder.practitionerParticipant, hd]
    | carePlan c =>
      simp only [refsFrom] at hrefs
      simp [Resource.serializedKeys, CarePlan.serializedKeys, mem_keyIf,
        Resource.subjectRefStr, Resource.subjectRefObj,
        Resource.encounterRefStr, Resource.encounterRefObj, hrefs.1]
    | comm c =>
      simp only [refsFrom] at hrefs
      simp [Resource.serializedKeys, Communication.serializedKeys, mem_keyIf,
        Resource.subjectRefStr, Resource.subjectRefObj,
        Resource.encounterRefStr, Resource.encounterRefObj, hrefs.1]
  · have heref : _get_encounter_reference b = none := by
      simp [FHIRDocumentBuilder._get_encounter_reference, he]
    have hrefs := stepAdd_refs h
    rw [heref] at hrefs
    cases r with
    | patient p2 => exact hrefs.elim
    | encounter e2 => exact hrefs.elim
    | obs o =>
      simp only [refsFrom] at hrefs
      simp [Resource.serializedKeys, Observation.serializedKeys, mem_keyIf,
        Resource.subjectRefStr, Resource.subjectRefObj,
        Resource.encounterRefStr, Resource.encounterRefObj, hrefs.2]
    | cond c =>
      simp only [refsFrom] at hrefs
      simp [Resource.serializedKeys, Condition.serializedKeys, mem_keyIf,
        Resource.subjectRefStr, Resource.subjectRefObj,
        Resource.encounterRefStr, Resource.encounterRefObj, hrefs.2]
    | medReq m =>
      simp only [refsFrom] at hrefs
      simp [Resource.serializedKeys, MedicationRequest.serializedKeys, mem_keyIf,
        Resource.subjectRefStr, Resource.subjectRefObj,
        Resource.encounterRefStr, Resource.encounterRefObj, hrefs.2]
    | medStmt m =>
      simp only [refsFrom] at hrefs
      simp [Resource.serializedKeys, MedicationStatement.serializedKeys, mem_keyIf,
        Resource.subjectRefStr, Resource.subjectRefObj,
        Resource.encounterRefStr, Resource.encounterRefObj, hrefs.2]
    | servReq sr =>
      simp only [refsFrom] at hrefs
      simp [Resource.serializedKeys, ServiceRequest.serializedKeys, mem_keyIf,
        Resource.subjectRefStr, Resource.subjectRefObj,
        Resource.encounterRefStr, Resource.encounterRefObj, hrefs.2]
    | proc pr =>
      simp only [refsFrom] at hrefs
      simp [Resource.serializedKeys, Procedure.serializedKeys, mem_keyIf,
        Resource.subjectRefStr, Resource.subjectRefObj,
        Resource.encounterRefStr, Resource.encounterRefObj, hrefs.2]
    | famHist f =>
      simp only [refsFrom] at hrefs
      simp [Resource.serializedKeys, FamilyMemberHistory.serializedKeys, mem_keyIf,
        Resource.subjectRefStr, Resource.subjectRefObj,
        Resource.encounterRefStr, Resource.encounterRefObj]
    | allergy a =>
      simp only [refsFrom] at hrefs
      simp [Resource.serializedKeys, AllergyIntolerance.serializedKeys, mem_keyIf,
        Resource.subjectRefStr, Resource.subjectRefObj,
        Resource.encounterRefStr, Resource.encounterRefObj, hrefs.2]
    | immun i =>
      simp only [refsFrom] at hrefs
      simp [Resource.serializedKeys, Immunization.serializedKeys, mem_keyIf,
        Resource.subjectRefStr, Resource.subjectRefObj,
        Resource.encounterRefStr, Resource.encounterRefObj, hrefs.2]
    | appt a =>
      simp [Resource.serializedKeys, Appointment.serializedKeys, mem_keyIf,
        Resource.encounterRefStr, Resource.encounterRefObj]
    | carePlan c =>
      simp only [refsFrom] at hrefs
      simp [Resource.serializedKeys, CarePlan.serializedKeys, mem_keyIf,
        Resource.subjectRefStr, Resource.subjectRefObj,
        Resource.encounterRefStr, Resource.encounterRefObj, hrefs.2]
    | comm c =>
      simp only [refsFrom] at hrefs
      simp [Resource.serializedKeys, Communication.serializedKeys, mem_keyIf,
        Resource.subjectRefStr, Resource.subjectRefObj,
        Resource.encounterRefStr, Resource.encounterRefObj, hrefs.2]

/-- C6 witness: adding advice to a builder with no subject/encounter set
    succeeds and the record's serialization has no subject/encounter/patient
    key; its subject/encounter references are absent. -/
theorem claim_C6_witness :
    demoB0.patient = none ∧ demoB0.encounter = none ∧
    "subject" ∉ demoAdviceRec.serializedKeys ∧
    "encounter" ∉ demoAdviceRec.serializedKeys ∧
    "patient" ∉ demoAdviceRec.serializedKeys ∧
    demoAdviceRec.subjectRefStr = none ∧ demoAdviceRec.encounterRefStr = none := by
  have h := claim_C6 "" "g4" demoB0 demoB0 demoAdviceOp demoAdviceRec
  have ha := h.2.1 rfl rfl
  have hb := h.2.2 rfl rfl
  exact ⟨rfl, rfl, ha.1, hb.1, ha.2.1, ha.2.2, hb.2⟩

/-- C1 counterexample: a severity string outside the recognized value set is
    rejected, not passed through — `add_symptom` raises `ValueError` from the
    `Severity(severity.lower())` coercion, so the operation does not succeed
    and nothing is recorded. -/
theorem claim_C1_counterexample :
    (stepAdd "" demoB0
        (.add_symptom (.str "Leg pain") .none .none (some (.str "excruciating"))
          (.enum .final) none none none none) "g").2
      = .error "ValueError: not a valid Severity" ∧
    (stepAdd "" demoB0
        (.add_symptom (.str "Leg pain") .none .none (some (.str "excruciating"))
          (.enum .final) none none none none) "g").1
      = demoB0 := by
  constructor
  · rfl
  · exact stepAdd_err_frame rfl

/-- C1 (amended): open-vocabulary options (`status`, `clinical_status`,
    `criticality`, ...) carry unrecognized strings verbatim into the record,
    but the enum-coerced options `severity`, `laterality` and
    `finding_status` reject a non-empty string outside their value set with
    a `ValueError`. -/
theorem claim_C1 (localTz gid : String) (b : FHIRDocumentBuilder) (s : String) :
    (∃ o : Observation,
      (stepAdd localTz b
          (.add_symptom (.str "Cough") .none .none none (.str s) none none none none)
          gid).2 = .ok (.obs o) ∧ o.status = s) ∧
    (∃ c : Condition,
      (stepAdd localTz b
          (.add_medical_condition_history (.str "Hypertension") .none .none (.str s)
            none none none none none) gid).2 = .ok (.cond c) ∧
      c.clinicalStatus.coding
        = some [{ system := CONDITION_CLINICAL, code := s,
                  display := some (pyCapitalize s) }]) ∧
    (∃ a : AllergyIntolerance,
      (stepAdd localTz b
          (.add_allergy_history (.str "Peanut") none "active" (some s) none none none)
          gid).2 = .ok (.allergy a) ∧ a.criticality = some s) ∧
    (s ≠ "" → Severity.ofString? (pyLower s) = none →
      (stepAdd localTz b
          (.add_symptom (.str "Cough") .none .none (some (.str s)) (.enum .final)
            none none none none) gid).2
        = .error "ValueError: not a valid Severity") := by
  refine ⟨⟨_, rfl, rfl⟩, ⟨_, rfl, rfl⟩, ⟨_, rfl, rfl⟩, fun hs hnone => ?_⟩
  have ht : strTruthy s = true := by simp [strTruthy, hs]
  simp [stepAdd, SymptomBuilder.build, SymptomBuilder.severityComponentE,
    coerceEnum, optEnumOrTruthy, ht, hnone, parse_code_input,
    bind, Except.bind, pure, Except.pure]

/-- C1 witness: the open-vocabulary and closed-enum branches at a concrete
    unrecognized string. -/
theorem claim_C1_witness :
    (∃ o : Observation,
      (stepAdd "" demoB0
          (.add_symptom (.str "Cough") .none .none none (.str "bogus-status") none none
            none none) "g").2 = .ok (.obs o) ∧ o.status = "bogus-status") ∧
    ("severe?" ≠ "" ∧ Severity.ofString? (pyLower "severe?") = none ∧
      (stepAdd "" demoB0
          (.add_symptom (.str "Cough") .none .none (some (.str "severe?"))
            (.enum .final) none none none none) "g").2
        = .error "ValueError: not a valid Severity") := by
  refine ⟨(claim_C1 "" "g" demoB0 "bogus-status").1, by decide, by rfl, ?_⟩
  exact (claim_C1 "" "g" demoB0 "severe?").2.2.2 (by decide) (by rfl)

theorem patientEntries_def (b : FHIRDocumentBuilder) :
    patientEntries b
      = (match b.patient with
         | some p => [_create_bundle_entry (.patient p)]
         | none => []) := rfl

theorem encounterEntries_def (b : FHIRDocumentBuilder) :
    encounterEntries b
      = (match b.encounter with
         | some e => [_create_bundle_entry (.encounter e)]
         | none => []) := rfl

/-- A successful add operation inserts its record's bundle entry at the end
    of its kind's segment of the materialized entry list, leaving everything
    else (and in particular the relative order of all entries) unchanged. -/
theorem stepAdd_entry_insert {localTz : String} {b : FHIRDocumentBuilder}
    {op : AddOp} {gid : String} {r : Resource}
    (h : (stepAdd localTz b op gid).2 = .ok r) :
    ∃ pre post, convertEntries b = pre ++ post ∧
      convertEntries (stepAdd localTz b op gid).1
        = pre ++ [_create_bundle_entry r] ++ post := by
  rw [stepAdd_ok_append h]
  have hrefs := stepAdd_refs h
  cases r with
  | patient p => exact hrefs.elim
  | encounter e => exact hrefs.elim
  | obs o =>
    refine ⟨patientEntries b
        ++ encounterEntries b
        ++ b.observations.map (fun x => _create_bundle_entry (.obs x)),
      b.conditions.map (fun x => _create_bundle_entry (.cond x))
        ++ b.medication_requests.map (fun x => _create_bundle_entry (.medReq x))
        ++ b.medication_statements.map (fun x => _create_bundle_entry (.medStmt x))
        ++ b.service_requests.map (fun x => _create_bundle_entry (.servReq x))
        ++ b.procedures.map (fun x => _create_bundle_entry (.proc x))
        ++ b.family_member_histories.map (fun x => _create_bundle_entry (.famHist x))
        ++ b.allergies.map (fun x => _create_bundle_entry (.allergy x))
        ++ b.immunizations.map (fun x => _create_bundle_entry (.immun x))
        ++ b.appointments.map (fun x => _create_bundle_entry (.appt x))
        ++ b.care_plans.map (fun x => _create_bundle_entry (.carePlan x))
        ++ b.communications.map (fun x => _create_bundle_entry (.comm x)), ?_, ?_⟩
    · simp [convertEntries, List.append_assoc]
    · simp [convertEntries, appendResource, patientEntries_def, encounterEntries_def,
        List.map_append, List.append_assoc]
  | cond c =>
    refine ⟨patientEntries b
        ++ encounterEntries b
        ++ b.observations.map (fun x => _create_bundle_entry (.obs x))
        ++ b.conditions.map (fun x => _create_bundle_entry (.cond x)),
      b.medication_requests.map (fun x => _create_bundle_entry (.medReq x))
        ++ b.medication_statements.map (fun x => _create_bundle_entry (.medStmt x))
        ++ b.service_requests.map (fun x => _create_bundle_entry (.servReq x))
        ++ b.procedures.map (fun x => _create_bundle_entry (.proc x))
        ++ b.family_member_histories.map (fun x => _create_bundle_entry (.famHist x))
        ++ b.allergies.map (fun x => _create_bundle_entry (.allergy x))
        ++ b.immunizations.map (fun x => _create_bundle_entry (.immun x))
        ++ b.appointments.map (fun x => _create_bundle_entry (.appt x))
        ++ b.care_plans.map (fun x => _create_bundle_entry (.carePlan x))
        ++ b.communications.map (fun x => _create_bundle_entry (.comm x)), ?_, ?_⟩
    · simp [convertEntries, List.append_assoc]
    · simp [convertEntries, appendResource, patientEntries_def, encounterEntries_def,
        List.map_append, List.append_assoc]
  | medReq m =>
    refine ⟨patientEntries b
        ++ encounterEntries b
        ++ b.observations.map (fun x => _create_bundle_entry (.obs x))
        ++ b.conditions.map (fun x => _create_bundle_entry (.cond x))
        ++ b.medication_requests.map (fun x => _create_bundle_entry (.medReq x)),
      b.medication_statements.map (fun x => _create_bundle_entry (.medStmt x))
        ++ b.service_requests.map (fun x => _create_bundle_entry (.servReq x))
        ++ b.procedures.map (fun x => _create_bundle_entry (.proc x))
        ++ b.family_member_histories.map (fun x => _create_bundle_entry (.famHist x))
        ++ b.allergies.map (fun x => _create_bundle_entry (.allergy x))
        ++ b.immunizations.map (fun x => _create_bundle_entry (.immun x))
        ++ b.appointments.map (fun x => _create_bundle_entry (.appt x))
        ++ b.care_plans.map (fun x => _create_bundle_entry (.carePlan x))
        ++ b.communications.map (fun x => _create_bundle_entry (.comm x)), ?_, ?_⟩
    · simp [convertEntries, List.append_assoc]
    · simp [convertEntries, appendResource, patientEntries_def, encounterEntries_def,
        List.map_append, List.append_assoc]
  | medStmt m =>
    refine ⟨patientEntries b
        ++ encounterEntries b
        ++ b.observations.map (fun x => _create_bundle_entry (.obs x))
        ++ b.conditions.map (fun x => _create_bundle_entry (.cond x))
        ++ b.medication_requests.map (fun x => _create_bundle_entry (.medReq x))
        ++ b.medication_statements.map (fun x => _create_bundle_entry (.medStmt x)),
      b.service_requests.map (fun x => _create_bundle_entry (.servReq x))
        ++ b.procedures.map (fun x => _create_bundle_entry (.proc x))
        ++ b.family_member_histories.map (fun x => _create_bundle_entry (.famHist x))
        ++ b.allergies.map (fun x => _create_bundle_entry (.allergy x))
        ++ b.immunizations.map (fun x => _create_bundle_entry (.immun x))
        ++ b.appointments.map (fun x => _create_bundle_entry (.appt x))
        ++ b.care_plans.map (fun x => _create_bundle_entry (.carePlan x))
        ++ b.communications.map (fun x => _create_bundle_entry (.comm x)), ?_, ?_⟩
    · simp [convertEntries, List.append_assoc]
    · simp [convertEntries, appendResource, patientEntries_def, encounterEntries_def,
        List.map_append, List.append_assoc]
  | servReq sr =>
    refine ⟨patientEntries b
        ++ encounterEntries b
        ++ b.observations.map (fun x => _create_bundle_entry (.obs x))
        ++ b.conditions.map (fun x => _create_bundle_entry (.cond x))
        ++ b.medication_requests.map (fun x => _create_bundle_entry (.medReq x))
        ++ b.medication_statements.map (fun x => _create_bundle_entry (.medStmt x))
        ++ b.service_requests.map (fun x => _create_bundle_entry (.servReq x)),
      b.procedures.map (fun x => _create_bundle_entry (.proc x))
        ++ b.family_member_histories.map (fun x => _create_bundle_entry (.famHist x))
        ++ b.allergies.map (fun x => _create_bundle_entry (.allergy x))
        ++ b.immunizations.map (fun x => _create_bundle_entry (.immun x))
        ++ b.appointments.map (fun x => _create_bundle_entry (.appt x))
        ++ b.care_plans.map (fun x => _create_bundle_entry (.carePlan x))
        ++ b.communications.map (fun x => _create_bundle_entry (.comm x)), ?_, ?_⟩
    · simp [convertEntries, List.append_assoc]
    · simp [convertEntries, appendResource, patientEntries_def, encounterEntries_def,
        List.map_append, List.append_assoc]
  | proc pr =>
    refine ⟨patientEntries b
        ++ encounterEntries b
        ++ b.observations.map (fun x => _create_bundle_entry (.obs x))
        ++ b.conditions.map (fun x => _create_bundle_entry (.cond x))
        ++ b.medication_requests.map (fun x => _create_bundle_entry (.medReq x))
        ++ b.medication_statements.map (fun x => _create_bundle_entry (.medStmt x))
        ++ b.service_requests.map (fun x => _create_bundle_entry (.servReq x))
        ++ b.procedures.map (fun x => _create_bundle_entry (.proc x)),
      b.family_member_histories.map (fun x => _create_bundle_entry (.famHist x))
        ++ b.allergies.map (fun x => _create_bundle_entry (.allergy x))
        ++ b.immunizations.map (fun x => _create_bundle_entry (.immun x))
        ++ b.appointments.map (fun x => _create_bundle_entry (.appt x))
        ++ b.care_plans.map (fun x => _create_bundle_entry (.carePlan x))
        ++ b.communications.map (fun x => _create_bundle_entry (.comm x)), ?_, ?_⟩
    · simp [convertEntries, List.append_assoc]
    · simp [convertEntries, appendResource, patientEntries_def, encounterEntries_def,
        List.map_append, List.append_assoc]
  | famHist f =>
    refine ⟨patientEntries b
        ++ encounterEntries b
        ++ b.observations.map (fun x => _create_bundle_entry (.obs x))
        ++ b.conditions.map (fun x => _create_bundle_entry (.cond x))
        ++ b.medication_requests.map (fun x => _create_bundle_entry (.medReq x))
        ++ b.medication_statements.map (fun x => _create_bundle_entry (.medStmt x))
        ++ b.service_requests.map (fun x => _create_bundle_entry (.servReq x))
        ++ b.procedures.map (fun x => _create_bundle_entry (.proc x))
        ++ b.family_member_histories.map (fun x => _create_bundle_entry (.famHist x)),
      b.allergies.map (fun x => _create_bundle_entry (.allergy x))
        ++ b.immunizations.map (fun x => _create_bundle_entry (.immun x))
        ++ b.appointments.map (fun x => _create_bundle_entry (.appt x))
        ++ b.care_plans.map (fun x => _create_bundle_entry (.carePlan x))
        ++ b.communications.map (fun x => _create_bundle_entry (.comm x)), ?_, ?_⟩
    · simp [convertEntries, List.append_assoc]
    · simp [convertEntries, appendResource, patientEntries_def, encounterEntries_def,
        List.map_append, List.append_assoc]
  | allergy a =>
    refine ⟨patientEntries b
        ++ encounterEntries b
        ++ b.observations.map (fun x => _create_bundle_entry (.obs x))
        ++ b.conditions.map (fun x => _create_bundle_entry (.cond x))
        ++ b.medication_requests.map (fun x => _create_bundle_entry (.medReq x))
        ++ b.medication_statements.map (fun x => _create_bundle_entry (.medStmt x))
        ++ b.service_requests.map (fun x => _create_bundle_entry (.servReq x))
        ++ b.procedures.map (fun x => _create_bundle_entry (.proc x))
        ++ b.family_member_histories.map (fun x => _create_bundle_entry (.famHist x))
        ++ b.allergies.map (fun x => _create_bundle_entry (.allergy x)),
      b.immunizations.map (fun x => _create_bundle_entry (.immun x))
        ++ b.appointments.map (fun x => _create_bundle_entry (.appt x))
        ++ b.care_plans.map (fun x => _create_bundle_entry (.carePlan x))
        ++ b.communications.map (fun x => _create_bundle_entry (.comm x)), ?_, ?_⟩
    · simp [convertEntries, List.append_assoc]
    · simp [convertEntries, appendResource, patientEntries_def, encounterEntries_def,
        List.map_append, List.append_assoc]
  | immun i =>
    refine ⟨patientEntries b
        ++ encounterEntries b
        ++ b.observations.map (fun x => _create_bundle_entry (.obs x))
        ++ b.conditions.map (fun x => _create_bundle_entry (.cond x))
        ++ b.medication_requests.map (fun x => _create_bundle_entry (.medReq x))
        ++ b.medication_statements.map (fun x => _create_bundle_entry (.medStmt x))
        ++ b.service_requests.map (fun x => _create_bundle_entry (.servReq x))
        ++ b.procedures.map (fun x => _create_bundle_entry (.proc x))
        ++ b.family_member_histories.map (fun x => _create_bundle_entry (.famHist x))
        ++ b.allergies.map (fun x => _create_bundle_entry (.allergy x))
        ++ b.immunizations.map (fun x => _create_bundle_entry (.immun x)),
      b.appointments.map (fun x => _create_bundle_entry (.appt x))
        ++ b.care_plans.map (fun x => _create_bundle_entry (.carePlan x))
        ++ b.communications.map (fun x => _create_bundle_entry (.comm x)), ?_, ?_⟩
    · simp [convertEntries, List.append_assoc]
    · simp [convertEntries, appendResource, patientEntries_def, encounterEntries_def,
        List.map_append, List.append_assoc]
  | appt a =>
    refine ⟨patientEntries b
        ++ encounterEntries b
        ++ b.observations.map (fun x => _create_bundle_entry (.obs x))
        ++ b.conditions.map (fun x => _create_bundle_entry (.cond x))
        ++ b.medication_requests.map (fun x => _create_bundle_entry (.medReq x))
        ++ b.medication_statements.map (fun x => _create_bundle_entry (.medStmt x))
        ++ b.service_requests.map (fun x => _create_bundle_entry (.servReq x))
        ++ b.procedures.map (fun x => _create_bundle_entry (.proc x))
        ++ b.family_member_histories.map (fun x => _create_bundle_entry (.famHist x))
        ++ b.allergies.map (fun x => _create_bundle_entry (.allergy x))
        ++ b.immunizations.map (fun x => _create_bundle_entry (.immun x))
        ++ b.appointments.map (fun x => _create_bundle_entry (.appt x)),
      b.care_plans.map (fun x => _create_bundle_entry (.carePlan x))
        ++ b.communications.map (fun x => _create_bundle_entry (.comm x)), ?_, ?_⟩
    · simp [convertEntries, List.append_assoc]
    · simp [convertEntries, appendResource, patientEntries_def, encounterEntries_def,
        List.map_append, List.append_assoc]
  | carePlan c =>
    refine ⟨patientEntries b
        ++ encounterEntries b
        ++ b.observations.map (fun x => _create_bundle_entry (.obs x))
        ++ b.conditions.map (fun x => _create_bundle_entry (.cond x))
        ++ b.medication_requests.map (fun x => _create_bundle_entry (.medReq x))
        ++ b.medication_statements.map (fun x => _create_bundle_entry (.medStmt x))
        ++ b.service_requests.map (fun x => _create_bundle_entry (.servReq x))
        ++ b.procedures.map (fun x => _create_bundle_entry (.proc x))
        ++ b.family_member_histories.map (fun x => _create_bundle_entry (.famHist x))
        ++ b.allergies.map (fun x => _create_bundle_entry (.allergy x))
        ++ b.immunizations.map (fun x => _create_bundle_entry (.immun x))
        ++ b.appointments.map (fun x => _create_bundle_entry (.appt x))
        ++ b.care_plans.map (fun x => _create_bundle_entry (.carePlan x)),
      b.communications.map (fun x => _create_bundle_entry (.comm x)), ?_, ?_⟩
    · simp [convertEntries, List.append_assoc]
    · simp [convertEntries, appendResource, patientEntries_def, encounterEntries_def,
        List.map_append, List.append_assoc]
  | comm c =>
    refine ⟨patientEntries b
        ++ encounterEntries b
        ++ b.observations.map (fun x => _create_bundle_entry (.obs x))
        ++ b.conditions.map (fun x => _create_bundle_entry (.cond x))
        ++ b.medication_requests.map (fun x => _create_bundle_entry (.medReq x))
        ++ b.medication_statements.map (fun x => _create_bundle_entry (.medStmt x))
        ++ b.service_requests.map (fun x => _create_bundle_entry (.servReq x))
        ++ b.procedures.map (fun x => _create_bundle_entry (.proc x))
        ++ b.family_member_histories.map (fun x => _create_bundle_entry (.famHist x))
        ++ b.allergies.map (fun x => _create_bundle_entry (.allergy x))
        ++ b.immunizations.map (fun x => _create_bundle_entry (.immun x))
        ++ b.appointments.map (fun x => _create_bundle_entry (.appt x))
        ++ b.care_plans.map (fun x => _create_bundle_entry (.carePlan x))
        ++ b.communications.map (fun x => _create_bundle_entry (.comm x)),
      ([] : List BundleEntry), ?_, ?_⟩
    · simp [convertEntries, List.append_assoc]
    · simp [convertEntries, appendResource, patientEntries_def, encounterEntries_def,
        List.map_append, List.append_assoc]

/-- C5: the concrete scenario `add_patient`, `add_encounter`,
    `add_vital_finding("Heart Rate", 72, "bpm")`, `convert_to_fhir` yields
    exactly 3 entries, in order Patient, Encounter, Observation, with the
    observation carrying subject `"Patient/pid-1"` and encounter
    `"Encounter/enc-1"`; in general every add inserts its entry at the end of
    its kind's segment of the fixed subject–encounter–collections order. -/
theorem claim_C5 :
    (∀ now : String,
      ((convert_to_fhir demoB3 now).entry.getD []).length = 3 ∧
      ((convert_to_fhir demoB3 now).entry.getD []).map
          (fun en => en.resource.resourceType)
        = ["Patient", "Encounter", "Observation"] ∧
      (((convert_to_fhir demoB3 now).entry.getD []).get? 2).map
          (fun en => en.resource.subjectRefStr) = some (some "Patient/pid-1") ∧
      (((convert_to_fhir demoB3 now).entry.getD []).get? 2).map
          (fun en => en.resource.encounterRefStr) = some (some "Encounter/enc-1")) ∧
    (∀ (localTz : String) (b : FHIRDocumentBuilder) (op : AddOp) (gid : String)
        (r : Resource), (stepAdd localTz b op gid).2 = .ok r →
      ∃ pre post, convertEntries b = pre ++ post ∧
        convertEntries (stepAdd localTz b op gid).1
          = pre ++ [_create_bundle_entry r] ++ post) :=
  ⟨fun _ => ⟨rfl, rfl, rfl, rfl⟩, fun _ _ _ _ _ h => stepAdd_entry_insert h⟩

/-- C5 witness: the general insertion property instantiated on the concrete
    scenario's vital-finding step. -/
theorem claim_C5_witness :
    ∃ pre post, convertEntries demoB2 = pre ++ post ∧
      convertEntries demoB3 = pre ++ [_create_bundle_entry demoVitalRec] ++ post :=
  claim_C5.2 "+05:30" demoB2 demoVitalOp "g3" demoVitalRec rfl

end Scribe2FHIR
